import Mathlib

/-!
# SceneManager: texture registry, material registry and shader state

A shallow embedding of `3Dscene/Source/SceneManager.cpp`: the registries (`CreateGLTexture`,
`BindGLTextures`, `FindTextureID`, `FindTextureSlot`, `FindMaterial`, `SetShaderTexture`,
`SetShaderMaterial`, `LoadSceneTextures`, `DefineObjectMaterials`), the model matrix
(`SetTransformations`), the lights (`SetShaderLights` and the animated lights of
`RenderScene`), the scene script (the body of `RenderScene`, as a list of statements with an
interpreter) and the two passes (`RenderSceneFromLightPerspective`,
`RenderSceneWithShadows`), together with theorems about them. The camera functions of
`3Dscene/Source/ViewManager.cpp` follow in the namespace `ViewManager`.

Conventions of the embedding:

* a member function that mutates the object takes the state as its last argument and returns
  the new state; a function that dereferences `m_pShaderManager` without a null check returns
  `Option`, `none` standing for the null dereference;
* what the outside world answers (the image decoder, the texture names handed out by the
  driver, the content of an uninitialised local) is an explicit argument;
* `F` is the type of the C++ `float` values. The registry functions only copy them; where the
  code computes with them, `F` is a field and the arithmetic is exact;
* `std::cout << ... << std::endl` appends one line to the field `stdout`;
* a read past the end of a local array is undefined behaviour: a function that performs one
  takes what the execution does from there on as an explicit argument.
-/

namespace SceneManager

/-! ## Data model -/

/-- OpenGL object names (`GLuint`): unsigned 32-bit integers. -/
abbrev GLuint := Fin 4294967296

/-- Conversion of a `GLuint` to C++ `int` (32-bit two's complement), as performed by the
assignment `textureID = m_textureIDs[index].ID` in `FindTextureID`. -/
def GLuint.toInt (n : GLuint) : Int :=
  if n.val < 2147483648 then (n.val : Int) else (n.val : Int) - 4294967296

/-- Conversion of a C++ `bool` argument to the `int` parameter of `setIntValue`. -/
def boolToInt (b : Bool) : Int :=
  if b then 1 else 0

/-- A three-component vector (`glm::vec3`). -/
structure vec3 (F : Type) where
  x : F
  y : F
  z : F
  deriving DecidableEq, Repr

/-- A two-component vector (`glm::vec2`). -/
structure vec2 (F : Type) where
  x : F
  y : F
  deriving DecidableEq, Repr

/-- A four-component vector (`glm::vec4`). -/
structure vec4 (F : Type) where
  x : F
  y : F
  z : F
  w : F
  deriving DecidableEq, Repr

/-- A 4x4 matrix (`glm::mat4`), stored as its four columns. -/
structure mat4 (F : Type) where
  c0 : vec4 F
  c1 : vec4 F
  c2 : vec4 F
  c3 : vec4 F
  deriving DecidableEq, Repr

/-- Modelled from the spec: the declaration of `TEXTURE_INFO` is in `SceneManager.h`, which is
not among the sources. A texture entry is a tag and a GPU handle; the handle is a `GLuint`
because `CreateGLTexture` stores a `GLuint` in it and `DestroyGLTextures` passes its address to
`glDeleteTextures`. -/
structure TEXTURE_INFO where
  tag : String
  ID : GLuint
  deriving DecidableEq, Repr

/-- Modelled from the spec: the declaration of `OBJECT_MATERIAL` is in `SceneManager.h`, which
is not among the sources. The fields are the ones `DefineObjectMaterials` assigns. -/
structure OBJECT_MATERIAL (F : Type) where
  tag : String
  ambientColor : vec3 F
  ambientStrength : F
  diffuseColor : vec3 F
  specularColor : vec3 F
  shininess : F
  emissiveColor : vec3 F
  tint : vec3 F
  deriving DecidableEq, Repr

/-- The value a shader uniform was last given, tagged with the setter that wrote it. -/
inductive UniformValue (F : Type) where
  | boolValue (b : Bool)
  | intValue (i : Int)
  | floatValue (f : F)
  | vec2Value (v : vec2 F)
  | vec3Value (v : vec3 F)
  | vec4Value (v : vec4 F)
  | mat4Value (m : mat4 F)
  | sampler2DValue (slot : Int)
  deriving DecidableEq, Repr

/-- Modelled from the spec: `ShaderManager` is declared and defined outside the sources; the
spec gives its contract as named-uniform setters for bool, int, float, vec2/vec3/vec4, mat4 and
sampler slots. The state kept here is the sequence of uniform writes received so far, the most
recent one first. -/
structure ShaderManager (F : Type) where
  writes : List (String × UniformValue F)
  deriving DecidableEq, Repr

namespace ShaderManager

variable {F : Type}

/-- The current value of the uniform `name`: the value of the most recent write to it. -/
def uniform (sh : ShaderManager F) (name : String) : Option (UniformValue F) :=
  (sh.writes.find? (fun w => decide (w.1 = name))).map Prod.snd

/-- The generic setter: record one write. -/
def setValue (name : String) (v : UniformValue F) (sh : ShaderManager F) : ShaderManager F :=
  { writes := (name, v) :: sh.writes }

/-- Model of `setBoolValue(name, value)`. -/
def setBoolValue (name : String) (value : Bool) (sh : ShaderManager F) : ShaderManager F :=
  setValue name (UniformValue.boolValue value) sh

/-- Model of `setIntValue(name, value)`. -/
def setIntValue (name : String) (value : Int) (sh : ShaderManager F) : ShaderManager F :=
  setValue name (UniformValue.intValue value) sh

/-- Model of `setFloatValue(name, value)`. -/
def setFloatValue (name : String) (value : F) (sh : ShaderManager F) : ShaderManager F :=
  setValue name (UniformValue.floatValue value) sh

/-- Model of `setVec2Value(name, value)`. -/
def setVec2Value (name : String) (value : vec2 F) (sh : ShaderManager F) : ShaderManager F :=
  setValue name (UniformValue.vec2Value value) sh

/-- Model of `setVec3Value(name, value)`. -/
def setVec3Value (name : String) (value : vec3 F) (sh : ShaderManager F) : ShaderManager F :=
  setValue name (UniformValue.vec3Value value) sh

/-- Model of `setVec4Value(name, value)`. -/
def setVec4Value (name : String) (value : vec4 F) (sh : ShaderManager F) : ShaderManager F :=
  setValue name (UniformValue.vec4Value value) sh

/-- Model of `setMat4Value(name, value)`. -/
def setMat4Value (name : String) (value : mat4 F) (sh : ShaderManager F) : ShaderManager F :=
  setValue name (UniformValue.mat4Value value) sh

/-- Model of `setSampler2DValue(name, slot)`. -/
def setSampler2DValue (name : String) (slot : Int) (sh : ShaderManager F) : ShaderManager F :=
  setValue name (UniformValue.sampler2DValue slot) sh

/-- Model of `use()`. Which shader program is active is not part of the state kept here, so
the call leaves it as it is. -/
def use (sh : ShaderManager F) : ShaderManager F :=
  sh

end ShaderManager

/-- One `glClear` call: the framebuffer bound when it was issued and the buffers it names. -/
structure GLClear where
  framebuffer : GLuint
  color : Bool
  depth : Bool
  deriving DecidableEq, Repr

/-- The part of the OpenGL context the modelled functions touch: the active texture unit, the
2D texture bound to each unit (`0` is "no texture"), the viewport rectangle, the bound
framebuffer (`0` is the default one) and the `glClear` calls issued so far, oldest first.
Texture contents and sampling parameters are not part of the model. -/
structure GLState where
  activeTexture : Nat
  boundTexture2D : Nat → GLuint
  viewport : Int × Int × Int × Int
  framebuffer : GLuint
  clears : List GLClear

/-- Model of `glActiveTexture(GL_TEXTURE0 + i)`. -/
def glActiveTexture (i : Nat) (gl : GLState) : GLState :=
  { gl with activeTexture := i }

/-- Model of `glBindTexture(GL_TEXTURE_2D, name)`: binds on the active unit. -/
def glBindTexture (name : GLuint) (gl : GLState) : GLState :=
  { gl with boundTexture2D := fun u => if u = gl.activeTexture then name else gl.boundTexture2D u }

/-- Model of `glViewport(x, y, width, height)`. -/
def glViewport (x y width height : Int) (gl : GLState) : GLState :=
  { gl with viewport := (x, y, width, height) }

/-- Model of `glBindFramebuffer(GL_FRAMEBUFFER, name)`. -/
def glBindFramebuffer (name : GLuint) (gl : GLState) : GLState :=
  { gl with framebuffer := name }

/-- Model of `glClear(mask)`, the mask given by its colour and depth bits. -/
def glClear (color depth : Bool) (gl : GLState) : GLState :=
  { gl with clears := gl.clears ++ [{ framebuffer := gl.framebuffer, color := color, depth := depth }] }

/-- Modelled from the spec: the mesh library `ShapeMeshes` is outside the sources; the spec
lists its shapes as plane, box, cylinder, tapered cylinder, torus and sphere, one
`Draw<Shape>Mesh()` each. -/
inductive Mesh where
  | Plane
  | Box
  | Cylinder
  | TaperedCylinder
  | Torus
  | Sphere
  deriving DecidableEq, Repr

/-- One `Draw<Shape>Mesh()` call: the shape, the framebuffer bound when it was issued and the
value the `model` uniform of the shader manager had at that moment. -/
structure DrawCall (F : Type) where
  mesh : Mesh
  framebuffer : GLuint
  model : Option (UniformValue F)
  deriving DecidableEq, Repr

/-- The result of a successful `stbi_load`: the dimensions and channel count it reports. -/
structure stbi_image where
  width : Int
  height : Int
  colorChannels : Int
  deriving DecidableEq, Repr

end SceneManager

/-- Modelled from the spec: the member declarations of `SceneManager` are in `SceneManager.h`,
which is not among the sources. This is the state of a `SceneManager` object as far as the
modelled functions read or write it. `m_textureIDs` holds the registered entries in load order:
the spec describes a load as appending an entry, and the functions only ever read indices below
`m_loadedTextures`, so the member `m_loadedTextures` is the length of this sequence. `depthMap`
and `depthMapFBO` are the names of the shadow depth texture and of its framebuffer.
`programUniforms` records the uniform writes issued through `glUniform*` with locations looked
up in the program `m_ShaderProgramID`, most recent first (which program is current at that
moment, and whether the name is an active uniform, is not tracked). `draws` records the mesh
draw calls, oldest first. -/
structure SceneManager (F : Type) where
  m_pShaderManager : Option (SceneManager.ShaderManager F)
  m_textureIDs : List SceneManager.TEXTURE_INFO
  m_objectMaterials : List (SceneManager.OBJECT_MATERIAL F)
  depthMap : SceneManager.GLuint
  depthMapFBO : SceneManager.GLuint
  m_ScreenWidth : Int
  m_ScreenHeight : Int
  m_ShaderProgramID : SceneManager.GLuint
  programUniforms : List (String × SceneManager.UniformValue F)
  draws : List (SceneManager.DrawCall F)
  gl : SceneManager.GLState
  stdout : List String

namespace SceneManager

variable {F : Type}

/-! ## Texture registry -/

/-- The member `m_loadedTextures`: the number of registered textures. -/
def m_loadedTextures (s : SceneManager F) : Int :=
  (s.m_textureIDs.length : Int)

/-- Model of `CreateGLTexture(filename, tag)`.

`image` is what `stbi_load(filename, ...)` answers (`none` for a null pointer) and `textureID`
the name `glGenTextures` hands out. Returns the `bool` result and the new state. -/
def CreateGLTexture (filename : String) (tag : String) (image : Option stbi_image)
    (textureID : GLuint) (s : SceneManager F) : Bool × SceneManager F :=
  match image with
  | some img =>
    let s1 : SceneManager F :=
      { s with
        stdout := s.stdout ++ ["Successfully loaded image:" ++ filename ++ ", width:"
          ++ toString img.width ++ ", height:" ++ toString img.height ++ ", channels:"
          ++ toString img.colorChannels] }
    -- glGenTextures(1, &textureID); glBindTexture(GL_TEXTURE_2D, textureID);
    let s2 : SceneManager F := { s1 with gl := glBindTexture textureID s1.gl }
    if img.colorChannels = 3 ∨ img.colorChannels = 4 then
      -- glTexImage2D, glGenerateMipmap, stbi_image_free, glBindTexture(GL_TEXTURE_2D, 0)
      let s3 : SceneManager F := { s2 with gl := glBindTexture 0 s2.gl }
      -- m_textureIDs[m_loadedTextures] = {textureID, tag}; m_loadedTextures++
      (true, { s3 with m_textureIDs := s3.m_textureIDs ++ [{ tag := tag, ID := textureID }] })
    else
      (false,
        { s2 with
          stdout := s2.stdout ++ ["Not implemented to handle image with "
            ++ toString img.colorChannels ++ " channels"] })
  | none =>
    (false, { s with stdout := s.stdout ++ ["Could not load image:" ++ filename] })

/-- The loop of `BindGLTextures`, from index `i` over the entries not yet bound. -/
def BindGLTextures.loop : List TEXTURE_INFO → Nat → GLState → GLState
  | [], _, gl => gl
  | e :: rest, i, gl => BindGLTextures.loop rest (i + 1) (glBindTexture e.ID (glActiveTexture i gl))

/-- Model of `BindGLTextures()`: texture `i` is bound to texture unit `i`. -/
def BindGLTextures (s : SceneManager F) : SceneManager F :=
  { s with gl := BindGLTextures.loop s.m_textureIDs 0 s.gl }

/-- The `while` loop of `FindTextureID`, entered at `index` with the entries from `index` on
still to be examined; the loop ends at the first entry whose tag compares equal. -/
def FindTextureID.loop (tag : String) : List TEXTURE_INFO → Int
  | [] => -1
  | e :: rest => if e.tag = tag then GLuint.toInt e.ID else FindTextureID.loop tag rest

/-- Model of `FindTextureID(tag)`. -/
def FindTextureID (s : SceneManager F) (tag : String) : Int :=
  FindTextureID.loop tag s.m_textureIDs

/-- The `while` loop of `FindTextureSlot`, entered at `index` with the entries from `index` on
still to be examined; the loop ends at the first entry whose tag compares equal. -/
def FindTextureSlot.loop (tag : String) : List TEXTURE_INFO → Nat → Int
  | [], _ => -1
  | e :: rest, index => if e.tag = tag then (index : Int) else FindTextureSlot.loop tag rest (index + 1)

/-- Model of `FindTextureSlot(tag)`. -/
def FindTextureSlot (s : SceneManager F) (tag : String) : Int :=
  FindTextureSlot.loop tag s.m_textureIDs 0

/-- The ten `CreateGLTexture` calls of `LoadSceneTextures`, then `BindGLTextures`.

`stbi_load` is the image decoder's answer for each file name and `glGenTextures i` the texture
name the driver hands out at the `i`-th call. -/
def LoadSceneTextures (stbi_load : String → Option stbi_image) (glGenTextures : Nat → GLuint)
    (s : SceneManager F) : SceneManager F :=
  let s := (CreateGLTexture "textures/floor.jpg" "texture1"
    (stbi_load "textures/floor.jpg") (glGenTextures 0) s).2
  let s := (CreateGLTexture "textures/couchfabric.jpg" "texture2"
    (stbi_load "textures/couchfabric.jpg") (glGenTextures 1) s).2
  let s := (CreateGLTexture "textures/sidewall.jpg" "texture3"
    (stbi_load "textures/sidewall.jpg") (glGenTextures 2) s).2
  let s := (CreateGLTexture "textures/roof.jpg" "texture4"
    (stbi_load "textures/roof.jpg") (glGenTextures 3) s).2
  let s := (CreateGLTexture "textures/painting1.png" "texture5"
    (stbi_load "textures/painting1.png") (glGenTextures 4) s).2
  let s := (CreateGLTexture "textures/roof.jpg" "texture4"
    (stbi_load "textures/roof.jpg") (glGenTextures 5) s).2
  let s := (CreateGLTexture "textures/desktop.png" "texture6"
    (stbi_load "textures/desktop.png") (glGenTextures 6) s).2
  let s := (CreateGLTexture "textures/keyboard.png" "texture7"
    (stbi_load "textures/keyboard.png") (glGenTextures 7) s).2
  let s := (CreateGLTexture "textures/monitor.png" "texture8"
    (stbi_load "textures/monitor.png") (glGenTextures 8) s).2
  let s := (CreateGLTexture "textures/drawer.png" "texture9"
    (stbi_load "textures/drawer.png") (glGenTextures 9) s).2
  BindGLTextures s

/-! ## Material registry -/

/-- The `while` loop of `FindMaterial`, with the entries from `index` on still to be examined.
At the first entry whose tag compares equal, six fields of it are copied into `material` (the
fields `tag` and `tint` are not) and the loop ends. -/
def FindMaterial.loop (tag : String) :
    List (OBJECT_MATERIAL F) → OBJECT_MATERIAL F → OBJECT_MATERIAL F
  | [], material => material
  | m :: rest, material =>
    if m.tag = tag then
      { material with
        ambientColor := m.ambientColor
        ambientStrength := m.ambientStrength
        diffuseColor := m.diffuseColor
        specularColor := m.specularColor
        shininess := m.shininess
        emissiveColor := m.emissiveColor }
    else FindMaterial.loop tag rest material

/-- Model of `FindMaterial(tag, material)`: the `bool` result and the content of the reference
parameter `material` on return. -/
def FindMaterial (s : SceneManager F) (tag : String) (material : OBJECT_MATERIAL F) :
    Bool × OBJECT_MATERIAL F :=
  if s.m_objectMaterials.length = 0 then (false, material)
  else (true, FindMaterial.loop tag s.m_objectMaterials material)

/-! ## Shader state -/

/-- The global `g_TextureValueName`. -/
def g_TextureValueName : String := "objectTexture"

/-- The global `g_UseTextureName`. -/
def g_UseTextureName : String := "bUseTexture"

/-- Model of `SetShaderTexture(textureTag)`. -/
def SetShaderTexture (textureTag : String) (s : SceneManager F) : SceneManager F :=
  match s.m_pShaderManager with
  | some sh =>
    let sh1 := sh.setIntValue g_UseTextureName (boolToInt true)
    let textureID : Int := FindTextureSlot s textureTag
    { s with m_pShaderManager := some (sh1.setSampler2DValue g_TextureValueName textureID) }
  | none => s

/-- Model of `SetShaderMaterial(materialTag)`.

`material` is the content of the local `OBJECT_MATERIAL material;` before `FindMaterial` is
called: the declaration gives it no initial values. The result is `none` when the function
dereferences a null `m_pShaderManager`. -/
def SetShaderMaterial (materialTag : String) (material : OBJECT_MATERIAL F)
    (s : SceneManager F) : Option (SceneManager F) :=
  if s.m_objectMaterials.length > 0 then
    let r := FindMaterial s materialTag material
    let bReturn := r.1
    let material := r.2
    if bReturn then
      match s.m_pShaderManager with
      | none => none
      | some sh =>
        let sh1 := sh.setVec3Value "material.diffuseColor" material.diffuseColor
        let sh2 := sh1.setVec3Value "material.specularColor" material.specularColor
        let sh3 := sh2.setFloatValue "material.shininess" material.shininess
        let sh4 := sh3.setVec3Value "material.emissiveColor" material.emissiveColor
        if materialTag = "floor" ∨ materialTag = "wall" ∨ materialTag = "ceiling"
            ∨ materialTag = "sofa" ∨ materialTag = "rug" then
          some { s with m_pShaderManager := some (sh4.setIntValue g_UseTextureName (boolToInt true)) }
        else
          some { s with m_pShaderManager := some (sh4.setIntValue g_UseTextureName (boolToInt false)) }
    else some s
  else
    some { s with stdout := s.stdout ++ ["No materials defined."] }

/-! ## Auxiliary notions used to state the properties -/

/-- The tag of the texture entry at index `i`, if there is one. -/
def textureTagAt (s : SceneManager F) (i : Nat) : Option String :=
  (s.m_textureIDs[i]?).map (fun e => e.tag)

/-- Index `k` holds the first registered texture entry whose tag is `tag`. -/
def FirstTextureWithTag (s : SceneManager F) (tag : String) (k : Nat) : Prop :=
  textureTagAt s k = some tag ∧ ∀ j, j < k → textureTagAt s j ≠ some tag

instance (s : SceneManager F) (tag : String) (k : Nat) :
    Decidable (FirstTextureWithTag s tag k) := by
  unfold FirstTextureWithTag
  infer_instance

/-- A state with nothing registered, no shader attached, every texture unit unbound and
nothing drawn; the shadow depth texture, its framebuffer and the shader program carry the
name 1 each, and the screen is 1000x800. -/
def emptyScene (F : Type) : SceneManager F :=
  { m_pShaderManager := none
    m_textureIDs := []
    m_objectMaterials := []
    depthMap := 1
    depthMapFBO := 1
    m_ScreenWidth := 1000
    m_ScreenHeight := 800
    m_ShaderProgramID := 1
    programUniforms := []
    draws := []
    gl :=
      { activeTexture := 0
        boundTexture2D := fun _ => 0
        viewport := (0, 0, 0, 0)
        framebuffer := 0
        clears := [] }
    stdout := [] }

/-- Whether a load whose decoder answer is `image` registers a texture: the image was decoded
and reports 3 or 4 channels. -/
def loadSucceeds (image : Option stbi_image) : Bool :=
  match image with
  | some img => decide (img.colorChannels = 3 ∨ img.colorChannels = 4)
  | none => false

/-- One call of `CreateGLTexture` together with what the outside world answers during it. -/
structure LoadCall where
  filename : String
  tag : String
  image : Option stbi_image
  textureID : GLuint

/-- A sequence of `CreateGLTexture` calls, executed in order. -/
def loadAll : List LoadCall → SceneManager F → SceneManager F
  | [], s => s
  | c :: rest, s => loadAll rest (CreateGLTexture c.filename c.tag c.image c.textureID s).2

/-- The tags of the calls of a sequence that register a texture, in call order. -/
def registeredTags (calls : List LoadCall) : List String :=
  (calls.filter (fun c => loadSucceeds c.image)).map (fun c => c.tag)

/-- The registry `LoadSceneTextures` has built after its first five calls, when all five images
were decoded and the driver handed out the names 1 to 5. -/
def afterFiveLoads : SceneManager Int :=
  { emptyScene Int with
    m_textureIDs := [⟨"texture1", 1⟩, ⟨"texture2", 2⟩, ⟨"texture3", 3⟩, ⟨"texture4", 4⟩,
      ⟨"texture5", 5⟩] }

/-- A registry with one entry whose handle is the largest `GLuint`. -/
def maxHandleScene : SceneManager Int :=
  { emptyScene Int with m_textureIDs := [⟨"texture1", 4294967295⟩] }

/-- A decoder under which every file is a 64x64 image with three channels. -/
def allRGB : String → Option stbi_image :=
  fun _ => some { width := 64, height := 64, colorChannels := 3 }

/-- A driver that hands out the names 1, 2, 3, ... in order. -/
def sequentialNames : Nat → GLuint :=
  fun i => Fin.ofNat (i + 1)

/-- The tag of the material entry at index `i`, if there is one. -/
def materialTagAt (s : SceneManager F) (i : Nat) : Option String :=
  (s.m_objectMaterials[i]?).map (fun m => m.tag)

/-- Entry `k` of the material registry is `m`, and it is the first entry whose tag is `tag`. -/
def FirstMaterialWithTag (s : SceneManager F) (tag : String) (k : Nat)
    (m : OBJECT_MATERIAL F) : Prop :=
  s.m_objectMaterials[k]? = some m ∧ m.tag = tag ∧
    ∀ j, j < k → materialTagAt s j ≠ some tag

instance [DecidableEq F] (s : SceneManager F) (tag : String) (k : Nat)
    (m : OBJECT_MATERIAL F) : Decidable (FirstMaterialWithTag s tag k m) := by
  unfold FirstMaterialWithTag
  infer_instance

/-- The tag is on the list `SetShaderMaterial` tests to switch texturing on. -/
def isTexturedTag (materialTag : String) : Bool :=
  decide (materialTag = "floor" ∨ materialTag = "wall" ∨ materialTag = "ceiling"
    ∨ materialTag = "sofa" ∨ materialTag = "rug")

/-- A material whose float fields all hold `c`. -/
def flatMaterial (tag : String) (c : Int) : OBJECT_MATERIAL Int :=
  { tag := tag
    ambientColor := ⟨c, c, c⟩
    ambientStrength := c
    diffuseColor := ⟨c, c, c⟩
    specularColor := ⟨c, c, c⟩
    shininess := c
    emissiveColor := ⟨c, c, c⟩
    tint := ⟨c, c, c⟩ }

/-- A scene with a shader attached and two materials registered under the same tag `"wall"`. -/
def twoWallScene : SceneManager Int :=
  { emptyScene Int with
    m_pShaderManager := some { writes := [] }
    m_objectMaterials := [flatMaterial "wall" 1, flatMaterial "wall" 2] }

/-- The first material of `DefineObjectMaterials`, tag `"default"`. The float literals are read
as the decimal numbers they denote; `tint`, which the source does not assign, is a parameter. -/
def defaultMaterial (tint : vec3 ℚ) : OBJECT_MATERIAL ℚ :=
  { tag := "default"
    ambientColor := ⟨1, 1, 1⟩
    ambientStrength := 1 / 10
    diffuseColor := ⟨1, 1, 1⟩
    specularColor := ⟨1, 1, 1⟩
    shininess := 32
    emissiveColor := ⟨0, 0, 0⟩
    tint := tint }

/-- A scene whose material registry holds the `"default"` material and whose shader has been
told to texture (`bUseTexture` is 1) and given the `"default"` diffuse colour. -/
def texturedScene : SceneManager ℚ :=
  { emptyScene ℚ with
    m_pShaderManager := some
      { writes := [("bUseTexture", UniformValue.intValue 1),
          ("material.diffuseColor", UniformValue.vec3Value ⟨1, 1, 1⟩)] }
    m_objectMaterials := [defaultMaterial ⟨0, 0, 0⟩] }

/-! ## Arithmetic on vectors and matrices

From here on the `float` values are computed with. Their arithmetic is read as the exact
arithmetic of a field `F`; rounding is not part of the model. -/

/-- The functions of the C and glm math libraries the scene code calls: `sin`, `cos` and
`sqrt`. They are answers of the outside world, like the image decoder. -/
structure CMath (F : Type) where
  sin : F → F
  cos : F → F
  sqrt : F → F

section Arithmetic

variable [Field F]

instance : Add (vec3 F) := ⟨fun a b => ⟨a.x + b.x, a.y + b.y, a.z + b.z⟩⟩

instance : Sub (vec3 F) := ⟨fun a b => ⟨a.x - b.x, a.y - b.y, a.z - b.z⟩⟩

instance : HMul (vec3 F) F (vec3 F) := ⟨fun a k => ⟨a.x * k, a.y * k, a.z * k⟩⟩

instance : HMul F (vec3 F) (vec3 F) := ⟨fun k a => ⟨k * a.x, k * a.y, k * a.z⟩⟩

instance : Add (vec4 F) := ⟨fun a b => ⟨a.x + b.x, a.y + b.y, a.z + b.z, a.w + b.w⟩⟩

instance : HMul (vec4 F) F (vec4 F) := ⟨fun a k => ⟨a.x * k, a.y * k, a.z * k, a.w * k⟩⟩

/-- The product `m * v` of a matrix and a column vector (glm `operator*`). -/
def mat4.mulVec (m : mat4 F) (v : vec4 F) : vec4 F :=
  m.c0 * v.x + m.c1 * v.y + m.c2 * v.z + m.c3 * v.w

/-- The product `m1 * m2` of two matrices (glm `operator*`): column `j` of the result is `m1`
applied to column `j` of `m2`. -/
def mat4.mul (m1 m2 : mat4 F) : mat4 F :=
  { c0 := m1.c0 * m2.c0.x + m1.c1 * m2.c0.y + m1.c2 * m2.c0.z + m1.c3 * m2.c0.w
    c1 := m1.c0 * m2.c1.x + m1.c1 * m2.c1.y + m1.c2 * m2.c1.z + m1.c3 * m2.c1.w
    c2 := m1.c0 * m2.c2.x + m1.c1 * m2.c2.y + m1.c2 * m2.c2.z + m1.c3 * m2.c2.w
    c3 := m1.c0 * m2.c3.x + m1.c1 * m2.c3.y + m1.c2 * m2.c3.z + m1.c3 * m2.c3.w }

instance : Mul (mat4 F) := ⟨mat4.mul⟩

/-- The identity matrix, `glm::mat4(1.0f)`. -/
def mat4.identity : mat4 F :=
  { c0 := ⟨1, 0, 0, 0⟩, c1 := ⟨0, 1, 0, 0⟩, c2 := ⟨0, 0, 1, 0⟩, c3 := ⟨0, 0, 0, 1⟩ }

namespace glm

/-- The function `glm::radians`: degrees times the constant glm uses for pi/180. -/
def radians (degrees : F) : F :=
  degrees * 0.01745329251994329576923690768489

/-- The function `glm::dot` on `vec3`. -/
def dot (a b : vec3 F) : F :=
  a.x * b.x + a.y * b.y + a.z * b.z

/-- The function `glm::cross`. -/
def cross (a b : vec3 F) : vec3 F :=
  ⟨a.y * b.z - b.y * a.z, a.z * b.x - b.z * a.x, a.x * b.y - b.x * a.y⟩

/-- The function `glm::inversesqrt`. -/
def inversesqrt (cm : CMath F) (a : F) : F :=
  1 / cm.sqrt a

/-- The function `glm::normalize` on `vec3`. -/
def normalize (cm : CMath F) (v : vec3 F) : vec3 F :=
  v * inversesqrt cm (dot v v)

/-- The function `glm::mix(x, y, a)` with a scalar weight: `x * (1 - a) + y * a`. -/
def mix (a b : vec3 F) (t : F) : vec3 F :=
  a * (1 - t) + b * t

/-- The function `glm::translate(m, v)`. -/
def translateM (m : mat4 F) (v : vec3 F) : mat4 F :=
  { m with c3 := m.c0 * v.x + m.c1 * v.y + m.c2 * v.z + m.c3 }

/-- The function `glm::translate(v)` of `glm/gtx/transform.hpp`. -/
def translate (v : vec3 F) : mat4 F :=
  translateM mat4.identity v

/-- The function `glm::scale(m, v)`. -/
def scaleM (m : mat4 F) (v : vec3 F) : mat4 F :=
  { c0 := m.c0 * v.x, c1 := m.c1 * v.y, c2 := m.c2 * v.z, c3 := m.c3 }

/-- The function `glm::scale(v)` of `glm/gtx/transform.hpp`. -/
def scale (v : vec3 F) : mat4 F :=
  scaleM mat4.identity v

/-- The function `glm::rotate(m, angle, v)`. -/
def rotateM (cm : CMath F) (m : mat4 F) (angle : F) (v : vec3 F) : mat4 F :=
  let c := cm.cos angle
  let s := cm.sin angle
  let axis := normalize cm v
  let temp := (1 - c) * axis
  let r00 := c + temp.x * axis.x
  let r01 := temp.x * axis.y + s * axis.z
  let r02 := temp.x * axis.z - s * axis.y
  let r10 := temp.y * axis.x - s * axis.z
  let r11 := c + temp.y * axis.y
  let r12 := temp.y * axis.z + s * axis.x
  let r20 := temp.z * axis.x + s * axis.y
  let r21 := temp.z * axis.y - s * axis.x
  let r22 := c + temp.z * axis.z
  { c0 := m.c0 * r00 + m.c1 * r01 + m.c2 * r02
    c1 := m.c0 * r10 + m.c1 * r11 + m.c2 * r12
    c2 := m.c0 * r20 + m.c1 * r21 + m.c2 * r22
    c3 := m.c3 }

/-- The function `glm::rotate(angle, v)` of `glm/gtx/transform.hpp`. -/
def rotate (cm : CMath F) (angle : F) (v : vec3 F) : mat4 F :=
  rotateM cm mat4.identity angle v

/-- The function `glm::ortho(left, right, bottom, top, zNear, zFar)` in glm's default
configuration (right-handed, depth range -1 to 1). -/
def ortho (left right bottom top zNear zFar : F) : mat4 F :=
  { c0 := ⟨2 / (right - left), 0, 0, 0⟩
    c1 := ⟨0, 2 / (top - bottom), 0, 0⟩
    c2 := ⟨0, 0, (-2) / (zFar - zNear), 0⟩
    c3 := ⟨(-(right + left)) / (right - left), (-(top + bottom)) / (top - bottom),
      (-(zFar + zNear)) / (zFar - zNear), 1⟩ }

/-- The function `glm::lookAt(eye, center, up)` in glm's default configuration
(right-handed). -/
def lookAt (cm : CMath F) (eye center up : vec3 F) : mat4 F :=
  let f := normalize cm (center - eye)
  let s := normalize cm (cross f up)
  let u := cross s f
  { c0 := ⟨s.x, u.x, -f.x, 0⟩
    c1 := ⟨s.y, u.y, -f.y, 0⟩
    c2 := ⟨s.z, u.z, -f.z, 0⟩
    c3 := ⟨-(dot s eye), -(dot u eye), dot f eye, 1⟩ }

end glm

/-! ## Transformations, lights and the depth pass -/

/-- The global `g_ModelName`. -/
def g_ModelName : String := "model"

/-- The global `g_UseLightingName`. -/
def g_UseLightingName : String := "bUseLighting"

/-- The global `TOTAL_LIGHTS`. -/
def TOTAL_LIGHTS : Nat := 6

/-- Model of `SetTransformations(scaleXYZ, XrotationDegrees, YrotationDegrees,
ZrotationDegrees, positionXYZ)`. -/
def SetTransformations (cm : CMath F) (scaleXYZ : vec3 F)
    (XrotationDegrees YrotationDegrees ZrotationDegrees : F) (positionXYZ : vec3 F)
    (s : SceneManager F) : SceneManager F :=
  let scale := glm.scale scaleXYZ
  let rotationX := glm.rotate cm (glm.radians XrotationDegrees) ⟨1, 0, 0⟩
  let rotationY := glm.rotate cm (glm.radians YrotationDegrees) ⟨0, 1, 0⟩
  let rotationZ := glm.rotate cm (glm.radians ZrotationDegrees) ⟨0, 0, 1⟩
  let translation := glm.translate positionXYZ
  let modelView := translation * rotationZ * rotationY * rotationX * scale
  match s.m_pShaderManager with
  | some sh => { s with m_pShaderManager := some (sh.setMat4Value g_ModelName modelView) }
  | none => s

/-- The body of the `for` loop of `SetShaderLights` for the index `i`. -/
def SetShaderLights.body (i : Nat) (sh : ShaderManager F) : ShaderManager F :=
  let lightBase : String := "pointLights[" ++ toString i ++ "]."
  if i = TOTAL_LIGHTS - 1 then
    let pos : vec3 F := ⟨0, 8.5, -3⟩
    let ambient : vec3 F := ⟨0.1, 0.05, 0⟩
    let diffuse : vec3 F := ⟨1, 0.5, 0⟩
    let specular : vec3 F := ⟨1, 0.5, 0⟩
    let constant : F := 1
    let linear : F := 0.07
    let quadratic : F := 0.017
    let sh := sh.setVec3Value (lightBase ++ "position") pos
    let sh := sh.setVec3Value (lightBase ++ "ambient") ambient
    let sh := sh.setVec3Value (lightBase ++ "diffuse") diffuse
    let sh := sh.setVec3Value (lightBase ++ "specular") specular
    let sh := sh.setFloatValue (lightBase ++ "constant") constant
    let sh := sh.setFloatValue (lightBase ++ "linear") linear
    let sh := sh.setFloatValue (lightBase ++ "quadratic") quadratic
    sh.setBoolValue (lightBase ++ "bActive") true
  else if i = TOTAL_LIGHTS - 2 then
    let sh := sh.setVec3Value "pointLights[0].position" ⟨0, 0, 0⟩
    let sh := sh.setVec3Value "pointLights[0].ambient" ⟨1, 0.5, 0⟩
    let sh := sh.setVec3Value "pointLights[0].diffuse" ⟨1, 0.5, 0⟩
    let sh := sh.setVec3Value "pointLights[0].specular" ⟨1, 0.5, 0⟩
    let sh := sh.setFloatValue "pointLights[0].constant" 1
    let sh := sh.setFloatValue "pointLights[0].linear" 0.09
    let sh := sh.setFloatValue "pointLights[0].quadratic" 0.032
    sh.setBoolValue "pointLights[0].bActive" true
  else if i = TOTAL_LIGHTS - 3 then
    let sh := sh.setVec3Value "pointLights[2].position" ⟨0, 0, 0⟩
    let sh := sh.setVec3Value "pointLights[2].ambient" ⟨1, 0.5, 0⟩
    let sh := sh.setVec3Value "pointLights[2].diffuse" ⟨1, 0.5, 0⟩
    let sh := sh.setVec3Value "pointLights[2].specular" ⟨1, 0.5, 0⟩
    let sh := sh.setFloatValue "pointLights[2].constant" 1
    let sh := sh.setFloatValue "pointLights[2].linear" 0.09
    let sh := sh.setFloatValue "pointLights[2].quadratic" 0.032
    sh.setBoolValue "pointLights[2].bActive" true
  else
    let sh := sh.setVec3Value (lightBase ++ "position") ⟨0, 0, 0⟩
    let sh := sh.setVec3Value (lightBase ++ "ambient") ⟨0.05, 0.05, 0.05⟩
    let sh := sh.setVec3Value (lightBase ++ "diffuse") ⟨0, 0, 0⟩
    let sh := sh.setVec3Value (lightBase ++ "specular") ⟨0, 0, 0⟩
    let sh := sh.setFloatValue (lightBase ++ "constant") 1
    let sh := sh.setFloatValue (lightBase ++ "linear") 0.09
    let sh := sh.setFloatValue (lightBase ++ "quadratic") 0.032
    sh.setBoolValue (lightBase ++ "bActive") false

/-- Model of `SetShaderLights()`. The first two statements dereference `m_pShaderManager`
before the null check, so a null shader manager gives `none`; past them the check
`m_pShaderManager != NULL` holds. -/
def SetShaderLights (cm : CMath F) (s : SceneManager F) : Option (SceneManager F) :=
  match s.m_pShaderManager with
  | none => none
  | some sh =>
    let sh := sh.setBoolValue g_UseLightingName true
    let sh := sh.setVec3Value "globalAmbientColor" ⟨0.05, 0.05, 0.05⟩
    let sh := sh.setVec3Value "spotLight.position" ⟨0, 14, -9.85⟩
    let sh := sh.setVec3Value "spotLight.direction" ⟨0, -0.5, 0⟩
    let sh := sh.setFloatValue "spotLight.cutOff" (cm.cos (glm.radians 85))
    let sh := sh.setFloatValue "spotLight.outerCutOff" (cm.cos (glm.radians 90))
    let sh := sh.setVec3Value "spotLight.ambient" ⟨0.7, 0.55, 0.4⟩
    let sh := sh.setVec3Value "spotLight.diffuse" ⟨1, 0.9, 0.7⟩
    let sh := sh.setVec3Value "spotLight.specular" ⟨1, 0.9, 0.8⟩
    let sh := sh.setFloatValue "spotLight.constant" 1
    let sh := sh.setFloatValue "spotLight.linear" 0.05
    let sh := sh.setFloatValue "spotLight.quadratic" 0.0007
    let sh := sh.setBoolValue "spotLight.bActive" true
    let sh := (List.range TOTAL_LIGHTS).foldl (fun acc i => SetShaderLights.body i acc) sh
    let sh := sh.setBoolValue "directionalLight.bActive" false
    some { s with m_pShaderManager := some sh }

/-- The local `t` of `RenderScene`: `(sin(timeValue) + 1.0f) / 2.0f`, where `timeValue` is
the answer of `glfwGetTime()`. -/
def RenderScene.t (cm : CMath F) (timeValue : F) : F :=
  (cm.sin timeValue + 1) / 2

/-- The local `startPoint1` of `RenderScene`. -/
def RenderScene.startPoint1 : vec3 F := ⟨0, 15.5, -8.9⟩

/-- The local `endPoint1` of `RenderScene`. -/
def RenderScene.endPoint1 : vec3 F := ⟨14.4, 13, -8.9⟩

/-- The local `startPoint2` of `RenderScene`. -/
def RenderScene.startPoint2 : vec3 F := ⟨0, 15.5, -8.9⟩

/-- The local `endPoint2` of `RenderScene`. -/
def RenderScene.endPoint2 : vec3 F := ⟨-14.4, 13, -8.9⟩

/-- The local `lightPos1` of `RenderScene`. -/
def RenderScene.lightPos1 (cm : CMath F) (timeValue : F) : vec3 F :=
  glm.mix RenderScene.startPoint1 RenderScene.endPoint1 (RenderScene.t cm timeValue)

/-- The local `lightPos2` of `RenderScene`. -/
def RenderScene.lightPos2 (cm : CMath F) (timeValue : F) : vec3 F :=
  glm.mix RenderScene.startPoint1 RenderScene.endPoint1 (1 - RenderScene.t cm timeValue)

/-- The local `lightPos2_1` of `RenderScene`. -/
def RenderScene.lightPos2_1 (cm : CMath F) (timeValue : F) : vec3 F :=
  glm.mix RenderScene.startPoint2 RenderScene.endPoint2 (RenderScene.t cm timeValue)

/-- The local `lightPos2_2` of `RenderScene`. -/
def RenderScene.lightPos2_2 (cm : CMath F) (timeValue : F) : vec3 F :=
  glm.mix RenderScene.startPoint2 RenderScene.endPoint2 (1 - RenderScene.t cm timeValue)

/-- The statements of `RenderScene` that precede the first draw (the lines from
`glActiveTexture(GL_TEXTURE1)` to the write of `pointLights[3].position`): the shadow map is
bound to texture unit 1, the scene textures are bound, the lights are set up and the four
animated light positions are written. `timeValue` is the answer of `glfwGetTime()`. The result
is `none` when a null `m_pShaderManager` is dereferenced. -/
def RenderScene.setup (cm : CMath F) (timeValue : F) (s : SceneManager F) :
    Option (SceneManager F) :=
  let s1 : SceneManager F := { s with gl := glBindTexture s.depthMap (glActiveTexture 1 s.gl) }
  match s1.m_pShaderManager with
  | none => none
  | some sh =>
    let s2 : SceneManager F :=
      { s1 with m_pShaderManager := some (sh.setSampler2DValue "shadowMap" 1) }
    match SetShaderLights cm (BindGLTextures s2) with
    | none => none
    | some s3 =>
      match s3.m_pShaderManager with
      | none => none
      | some sh3 =>
        let sh4 := sh3.setVec3Value "pointLights[0].position" (RenderScene.lightPos1 cm timeValue)
        let sh5 := sh4.setVec3Value "pointLights[1].position" (RenderScene.lightPos2 cm timeValue)
        let sh6 := sh5.setVec3Value "pointLights[2].position"
          (RenderScene.lightPos2_1 cm timeValue)
        let sh7 := sh6.setVec3Value "pointLights[3].position"
          (RenderScene.lightPos2_2 cm timeValue)
        some { s3 with m_pShaderManager := some sh7 }

/-- Modelled from the spec: the constant `SHADOW_WIDTH` that `RenderSceneFromLightPerspective`
names is declared outside the sources; the spec gives the shadow map a resolution of
2048x2048, the value the constructor also uses. -/
def SHADOW_WIDTH : Int := 2048

/-- Modelled from the spec: the constant `SHADOW_HEIGHT`, see `SHADOW_WIDTH`. -/
def SHADOW_HEIGHT : Int := 2048

/-- The local `lightSpaceMatrix` of `RenderSceneFromLightPerspective`. -/
def RenderSceneFromLightPerspective.lightSpaceMatrix (cm : CMath F) : mat4 F :=
  let near_plane : F := 1
  let far_plane : F := 50
  let lightProjection := glm.ortho (-10) 10 (-10) 10 near_plane far_plane
  let lightView := glm.lookAt cm ⟨0, 14, -9.85⟩ ⟨0, 0, 0⟩ ⟨0, 1, 0⟩
  lightProjection * lightView

/-- Model of `RenderSceneFromLightPerspective()`. The call of `RenderScene()` inside it is
the argument `RenderScene`, a state transformer that fails when a null pointer is
dereferenced. -/
def RenderSceneFromLightPerspective (cm : CMath F)
    (RenderScene : SceneManager F → Option (SceneManager F)) (s : SceneManager F) :
    Option (SceneManager F) :=
  let lightSpaceMatrix := RenderSceneFromLightPerspective.lightSpaceMatrix cm
  let s1 : SceneManager F :=
    { s with
      gl := glClear false true
        (glBindFramebuffer s.depthMapFBO (glViewport 0 0 SHADOW_WIDTH SHADOW_HEIGHT s.gl)) }
  match s1.m_pShaderManager with
  | none => none
  | some sh =>
    let s2 : SceneManager F :=
      { s1 with
        m_pShaderManager := some (sh.use.setMat4Value "lightSpaceMatrix" lightSpaceMatrix) }
    match RenderScene s2 with
    | none => none
    | some s3 => some { s3 with gl := glBindFramebuffer 0 s3.gl }

/-! ## The scene script -/

/-- The global `g_ColorValueName`. -/
def g_ColorValueName : String := "objectColor"

/-- The global `g_ShadowMapName`. -/
def g_ShadowMapName : String := "shadowMap"

/-- Model of `SetShaderColor(redColorValue, greenColorValue, blueColorValue, alphaValue)`. -/
def SetShaderColor (redColorValue greenColorValue blueColorValue alphaValue : F)
    (s : SceneManager F) : SceneManager F :=
  match s.m_pShaderManager with
  | some sh =>
    let sh1 := sh.setIntValue g_UseTextureName (boolToInt false)
    { s with
      m_pShaderManager := some (sh1.setVec4Value g_ColorValueName
        ⟨redColorValue, greenColorValue, blueColorValue, alphaValue⟩) }
  | none => s

/-- Model of `SetTextureUVScale(u, v)`. -/
def SetTextureUVScale (u v : F) (s : SceneManager F) : SceneManager F :=
  match s.m_pShaderManager with
  | some sh => { s with m_pShaderManager := some (sh.setVec2Value "UVscale" ⟨u, v⟩) }
  | none => s

/-- Model of `SetShaderEmissive(redColorValue, greenColorValue, blueColorValue)`. -/
def SetShaderEmissive (redColorValue greenColorValue blueColorValue : F)
    (s : SceneManager F) : SceneManager F :=
  match s.m_pShaderManager with
  | some sh =>
    { s with
      m_pShaderManager := some (sh.setVec3Value "material.emissiveColor"
        ⟨redColorValue, greenColorValue, blueColorValue⟩) }
  | none => s

/-- Model of a `glUniform*` call whose location is `glGetUniformLocation(m_ShaderProgramID,
name)`: the write is recorded in `programUniforms`. -/
def glUniform (name : String) (value : UniformValue F) (s : SceneManager F) : SceneManager F :=
  { s with programUniforms := (name, value) :: s.programUniforms }

/-- Model of `SetUseLighting(useLighting)`: `glUseProgram(m_ShaderProgramID)` and
`glUniform1i` of `bUseLighting` with `GL_TRUE` (1) or `GL_FALSE` (0). The shader manager is
not involved. -/
def SetUseLighting (useLighting : Bool) (s : SceneManager F) : SceneManager F :=
  glUniform "bUseLighting" (UniformValue.intValue (if useLighting then 1 else 0)) s

/-- Model of `SetTextureOffset(offsetX, offsetY)`: `glUseProgram(m_ShaderProgramID)` and
`glUniform2f` of `textureOffset`. -/
def SetTextureOffset (offsetX offsetY : F) (s : SceneManager F) : SceneManager F :=
  glUniform "textureOffset" (UniformValue.vec2Value ⟨offsetX, offsetY⟩) s

/-- Model of `m_basicMeshes->Draw<Shape>Mesh()`: the call is recorded in `draws` with the
framebuffer bound and the `model` uniform current at that moment. -/
def DrawMesh (mesh : Mesh) (s : SceneManager F) : SceneManager F :=
  { s with
    draws := s.draws ++
      [{ mesh := mesh
         framebuffer := s.gl.framebuffer
         model := s.m_pShaderManager.bind (fun sh => sh.uniform g_ModelName) }] }

namespace glm

/-- The function `glm::degrees`: radians times the constant glm uses for 180/pi. -/
def degrees (radians : F) : F :=
  radians * 57.295779513082320876798154814105

end glm

namespace RenderScene

/-- The five locals of `RenderScene` that the draw statements share. -/
structure Locals (F : Type) where
  scaleXYZ : vec3 F
  XrotationDegrees : F
  YrotationDegrees : F
  ZrotationDegrees : F
  positionXYZ : vec3 F

/-- The statements of the body of `RenderScene` after the lights are set up: assignments to
the five shared locals and calls. `SetTransformations` is the call whose five arguments are
the shared locals; `SetTransformationsWith` passes its own scale and position and the shared
rotation locals; `SetTransformationsOf` passes five values of its own (variables of an inner
scope). -/
inductive Stmt (F : Type) where
  | assignScaleXYZ (value : vec3 F)
  | assignXrotationDegrees (value : F)
  | assignYrotationDegrees (value : F)
  | assignZrotationDegrees (value : F)
  | assignPositionXYZ (value : vec3 F)
  | SetShaderMaterial (materialTag : String)
  | SetTransformations
  | SetTransformationsWith (scale position : vec3 F)
  | SetTransformationsOf (scale : vec3 F) (x y z : F) (position : vec3 F)
  | SetShaderTexture (textureTag : String)
  | SetTextureUVScale (u v : F)
  | SetTextureOffset (offsetX offsetY : F)
  | SetShaderColor (r g b a : F)
  | SetUseLighting (useLighting : Bool)
  | glUniform1f (name : String) (value : F)
  | Draw (mesh : Mesh)

/-- The effect of one statement on the locals and the object state. `material` is the content
of the uninitialised local of `SetShaderMaterial`; the result is `none` when a null
`m_pShaderManager` is dereferenced. -/
def Stmt.exec (cm : CMath F) (material : OBJECT_MATERIAL F) :
    Stmt F → Locals F × SceneManager F → Option (Locals F × SceneManager F)
  | .assignScaleXYZ v, (l, s) => some ({ l with scaleXYZ := v }, s)
  | .assignXrotationDegrees v, (l, s) => some ({ l with XrotationDegrees := v }, s)
  | .assignYrotationDegrees v, (l, s) => some ({ l with YrotationDegrees := v }, s)
  | .assignZrotationDegrees v, (l, s) => some ({ l with ZrotationDegrees := v }, s)
  | .assignPositionXYZ v, (l, s) => some ({ l with positionXYZ := v }, s)
  | .SetShaderMaterial tag, (l, s) =>
    match SceneManager.SetShaderMaterial tag material s with
    | some s2 => some (l, s2)
    | none => none
  | .SetTransformations, (l, s) =>
    some (l, SceneManager.SetTransformations cm l.scaleXYZ l.XrotationDegrees
      l.YrotationDegrees l.ZrotationDegrees l.positionXYZ s)
  | .SetTransformationsWith scale position, (l, s) =>
    some (l, SceneManager.SetTransformations cm scale l.XrotationDegrees
      l.YrotationDegrees l.ZrotationDegrees position s)
  | .SetTransformationsOf scale x y z position, (l, s) =>
    some (l, SceneManager.SetTransformations cm scale x y z position s)
  | .SetShaderTexture tag, (l, s) => some (l, SceneManager.SetShaderTexture tag s)
  | .SetTextureUVScale u v, (l, s) => some (l, SceneManager.SetTextureUVScale u v s)
  | .SetTextureOffset x y, (l, s) => some (l, SceneManager.SetTextureOffset x y s)
  | .SetShaderColor r g b a, (l, s) => some (l, SceneManager.SetShaderColor r g b a s)
  | .SetUseLighting b, (l, s) => some (l, SceneManager.SetUseLighting b s)
  | .glUniform1f name v, (l, s) =>
    some (l, SceneManager.glUniform name (UniformValue.floatValue v) s)
  | .Draw mesh, (l, s) => some (l, SceneManager.DrawMesh mesh s)

/-- Running a sequence of statements in order. -/
def run (cm : CMath F) (material : OBJECT_MATERIAL F) :
    List (Stmt F) → Locals F × SceneManager F → Option (Locals F × SceneManager F)
  | [], st => some st
  | c :: rest, st =>
    match c.exec cm material st with
    | some st2 => run cm material rest st2
    | none => none

/-- The statements of lines 916 to 1034 of `SceneManager.cpp`. -/
def part01 : List (Stmt F) := [
    -- lines 916-927
    Stmt.SetShaderMaterial "floor",
    Stmt.assignScaleXYZ ⟨15, 0.1, 12⟩,
    Stmt.assignXrotationDegrees (0),
    Stmt.assignYrotationDegrees (0),
    Stmt.assignZrotationDegrees (0),
    Stmt.assignPositionXYZ ⟨0, 0, 2⟩,
    Stmt.SetTransformations,
    Stmt.SetShaderTexture "texture1",
    Stmt.SetTextureUVScale (4) (4),
    Stmt.Draw Mesh.Plane,
    -- lines 930-940
    Stmt.SetShaderMaterial "wall",
    Stmt.assignScaleXYZ ⟨15, 10, 15⟩,
    Stmt.assignXrotationDegrees (90),
    Stmt.assignYrotationDegrees (0),
    Stmt.assignPositionXYZ ⟨0, 15, -10⟩,
    Stmt.SetTransformations,
    Stmt.SetShaderTexture "texture3",
    Stmt.SetTextureUVScale (0.75) (0.75),
    Stmt.Draw Mesh.Plane,
    -- lines 943-954
    Stmt.SetShaderMaterial "wall",
    Stmt.assignScaleXYZ ⟨12, 10, 3.5⟩,
    Stmt.assignXrotationDegrees (0),
    Stmt.assignYrotationDegrees (90),
    Stmt.assignZrotationDegrees (90),
    Stmt.assignPositionXYZ ⟨-15, 3.5, 2⟩,
    Stmt.SetTransformations,
    Stmt.SetShaderTexture "texture3",
    Stmt.SetTextureUVScale (2) (2),
    Stmt.Draw Mesh.Plane,
    -- lines 957-963
    Stmt.assignPositionXYZ ⟨15, 3.5, 2⟩,
    Stmt.SetTransformations,
    Stmt.SetShaderTexture "texture3",
    Stmt.SetTextureUVScale (2) (2),
    Stmt.Draw Mesh.Plane,
    -- lines 966-975
    Stmt.SetShaderMaterial "ceiling",
    Stmt.assignScaleXYZ ⟨12, 20, 10.7⟩,
    Stmt.assignXrotationDegrees (-45),
    Stmt.assignPositionXYZ ⟨7.4, 14.5, 2⟩,
    Stmt.SetTransformations,
    Stmt.SetShaderTexture "texture4",
    Stmt.SetTextureUVScale (2) (2),
    Stmt.Draw Mesh.Plane,
    -- lines 977-984
    Stmt.assignXrotationDegrees (45),
    Stmt.assignPositionXYZ ⟨-7.4, 14.5, 2⟩,
    Stmt.SetTransformations,
    Stmt.SetShaderTexture "texture4",
    Stmt.SetTextureUVScale (2) (2),
    Stmt.Draw Mesh.Plane,
    -- lines 987-998
    Stmt.SetShaderMaterial "glowing_beam",
    Stmt.assignScaleXYZ ⟨21, 0.5, 0.5⟩,
    Stmt.assignXrotationDegrees (90),
    Stmt.assignYrotationDegrees (0),
    Stmt.assignZrotationDegrees (135),
    Stmt.assignPositionXYZ ⟨7.4, 14.5, -10⟩,
    Stmt.SetTransformations,
    Stmt.SetShaderTexture "texture1",
    Stmt.SetTextureUVScale (2) (2),
    Stmt.Draw Mesh.Box,
    -- lines 1000-1009
    Stmt.assignXrotationDegrees (-90),
    Stmt.assignYrotationDegrees (0),
    Stmt.assignZrotationDegrees (-135),
    Stmt.assignPositionXYZ ⟨-7.4, 14.5, -10⟩,
    Stmt.SetTransformations,
    Stmt.SetShaderTexture "texture1",
    Stmt.SetTextureUVScale (2) (2),
    Stmt.Draw Mesh.Box,
    -- lines 1012-1023
    Stmt.SetShaderMaterial "beam",
    Stmt.assignScaleXYZ ⟨21, 0.5, 0.5⟩,
    Stmt.assignXrotationDegrees (0),
    Stmt.assignYrotationDegrees (90),
    Stmt.assignZrotationDegrees (90),
    Stmt.assignPositionXYZ ⟨0, 21.5, 2⟩,
    Stmt.SetTransformations,
    Stmt.SetShaderTexture "texture1",
    Stmt.SetTextureUVScale (2) (2),
    Stmt.Draw Mesh.Box,
    -- lines 1025-1034
    Stmt.assignXrotationDegrees (90),
    Stmt.assignYrotationDegrees (0),
    Stmt.assignZrotationDegrees (135),
    Stmt.assignPositionXYZ ⟨7.4, 14.5, -10⟩,
    Stmt.SetTransformations,
    Stmt.SetShaderTexture "texture1",
    Stmt.SetTextureUVScale (2) (2),
    Stmt.Draw Mesh.Box
  ]

/-- The statements of lines 1036 to 1155 of `SceneManager.cpp`. -/
def part02 : List (Stmt F) := [
    -- lines 1036-1045
    Stmt.assignXrotationDegrees (90),
    Stmt.assignYrotationDegrees (0),
    Stmt.assignZrotationDegrees (135),
    Stmt.assignPositionXYZ ⟨7.4, 14.5, -6⟩,
    Stmt.SetTransformations,
    Stmt.SetShaderTexture "texture1",
    Stmt.SetTextureUVScale (2) (2),
    Stmt.Draw Mesh.Box,
    -- lines 1047-1056
    Stmt.assignXrotationDegrees (90),
    Stmt.assignYrotationDegrees (0),
    Stmt.assignZrotationDegrees (135),
    Stmt.assignPositionXYZ ⟨7.4, 14.5, -2⟩,
    Stmt.SetTransformations,
    Stmt.SetShaderTexture "texture1",
    Stmt.SetTextureUVScale (2) (2),
    Stmt.Draw Mesh.Box,
    -- lines 1058-1067
    Stmt.assignXrotationDegrees (90),
    Stmt.assignYrotationDegrees (0),
    Stmt.assignZrotationDegrees (135),
    Stmt.assignPositionXYZ ⟨7.4, 14.5, 2⟩,
    Stmt.SetTransformations,
    Stmt.SetShaderTexture "texture1",
    Stmt.SetTextureUVScale (2) (2),
    Stmt.Draw Mesh.Box,
    -- lines 1069-1078
    Stmt.assignXrotationDegrees (90),
    Stmt.assignYrotationDegrees (0),
    Stmt.assignZrotationDegrees (135),
    Stmt.assignPositionXYZ ⟨7.4, 14.5, 6⟩,
    Stmt.SetTransformations,
    Stmt.SetShaderTexture "texture1",
    Stmt.SetTextureUVScale (2) (2),
    Stmt.Draw Mesh.Box,
    -- lines 1080-1089
    Stmt.assignXrotationDegrees (90),
    Stmt.assignYrotationDegrees (0),
    Stmt.assignZrotationDegrees (135),
    Stmt.assignPositionXYZ ⟨7.4, 14.5, 10⟩,
    Stmt.SetTransformations,
    Stmt.SetShaderTexture "texture1",
    Stmt.SetTextureUVScale (2) (2),
    Stmt.Draw Mesh.Box,
    -- lines 1091-1100
    Stmt.assignXrotationDegrees (-90),
    Stmt.assignYrotationDegrees (0),
    Stmt.assignZrotationDegrees (-135),
    Stmt.assignPositionXYZ ⟨-7.4, 14.5, -10⟩,
    Stmt.SetTransformations,
    Stmt.SetShaderTexture "texture1",
    Stmt.SetTextureUVScale (2) (2),
    Stmt.Draw Mesh.Box,
    -- lines 1102-1111
    Stmt.assignXrotationDegrees (-90),
    Stmt.assignYrotationDegrees (0),
    Stmt.assignZrotationDegrees (-135),
    Stmt.assignPositionXYZ ⟨-7.4, 14.5, -6⟩,
    Stmt.SetTransformations,
    Stmt.SetShaderTexture "texture1",
    Stmt.SetTextureUVScale (2) (2),
    Stmt.Draw Mesh.Box,
    -- lines 1113-1122
    Stmt.assignXrotationDegrees (-90),
    Stmt.assignYrotationDegrees (0),
    Stmt.assignZrotationDegrees (-135),
    Stmt.assignPositionXYZ ⟨-7.4, 14.5, -2⟩,
    Stmt.SetTransformations,
    Stmt.SetShaderTexture "texture1",
    Stmt.SetTextureUVScale (2) (2),
    Stmt.Draw Mesh.Box,
    -- lines 1124-1133
    Stmt.assignXrotationDegrees (-90),
    Stmt.assignYrotationDegrees (0),
    Stmt.assignZrotationDegrees (-135),
    Stmt.assignPositionXYZ ⟨-7.4, 14.5, 2⟩,
    Stmt.SetTransformations,
    Stmt.SetShaderTexture "texture1",
    Stmt.SetTextureUVScale (2) (2),
    Stmt.Draw Mesh.Box,
    -- lines 1135-1144
    Stmt.assignXrotationDegrees (-90),
    Stmt.assignYrotationDegrees (0),
    Stmt.assignZrotationDegrees (-135),
    Stmt.assignPositionXYZ ⟨-7.4, 14.5, 6⟩,
    Stmt.SetTransformations,
    Stmt.SetShaderTexture "texture1",
    Stmt.SetTextureUVScale (2) (2),
    Stmt.Draw Mesh.Box,
    -- lines 1146-1155
    Stmt.assignXrotationDegrees (-90),
    Stmt.assignYrotationDegrees (0),
    Stmt.assignZrotationDegrees (-135),
    Stmt.assignPositionXYZ ⟨-7.4, 14.5, 10⟩,
    Stmt.SetTransformations,
    Stmt.SetShaderTexture "texture1",
    Stmt.SetTextureUVScale (2) (2),
    Stmt.Draw Mesh.Box
  ]

/-- The statements of lines 1158 to 1272 of `SceneManager.cpp`. -/
def part03 : List (Stmt F) := [
    -- lines 1158-1170
    Stmt.SetShaderMaterial "sofa",
    Stmt.assignScaleXYZ ⟨5, 2, 0.9⟩,
    Stmt.assignXrotationDegrees (0),
    Stmt.assignYrotationDegrees (0),
    Stmt.assignZrotationDegrees (0),
    Stmt.assignPositionXYZ ⟨-12.25, 1.25, 5⟩,
    Stmt.SetTransformations,
    Stmt.SetShaderTexture "texture2",
    Stmt.SetTextureUVScale (0.75) (0.75),
    Stmt.Draw Mesh.Box,
    -- lines 1173-1183
    Stmt.assignScaleXYZ ⟨5, 2, 0.9⟩,
    Stmt.assignXrotationDegrees (0),
    Stmt.assignYrotationDegrees (0),
    Stmt.assignZrotationDegrees (0),
    Stmt.assignPositionXYZ ⟨-12.25, 1.25, -3⟩,
    Stmt.SetTransformations,
    Stmt.SetShaderTexture "texture2",
    Stmt.SetTextureUVScale (0.75) (0.75),
    Stmt.Draw Mesh.Box,
    -- lines 1186-1196
    Stmt.assignScaleXYZ ⟨4.95, 0.5, 8⟩,
    Stmt.assignXrotationDegrees (0),
    Stmt.assignYrotationDegrees (0),
    Stmt.assignZrotationDegrees (0),
    Stmt.assignPositionXYZ ⟨-12.25, 0.5, 1⟩,
    Stmt.SetTransformations,
    Stmt.SetShaderTexture "texture2",
    Stmt.SetTextureUVScale (0.75) (0.75),
    Stmt.Draw Mesh.Box,
    -- lines 1199-1210
    Stmt.SetShaderMaterial "sofa",
    Stmt.assignScaleXYZ ⟨3, 0.5, 3.5⟩,
    Stmt.assignXrotationDegrees (0),
    Stmt.assignYrotationDegrees (0),
    Stmt.assignZrotationDegrees (-55),
    Stmt.assignPositionXYZ ⟨-13.75, 2, 2.75⟩,
    Stmt.SetTransformations,
    Stmt.SetShaderTexture "texture2",
    Stmt.SetTextureUVScale (0.75) (0.75),
    Stmt.Draw Mesh.Box,
    -- lines 1212-1222
    Stmt.assignScaleXYZ ⟨3, 0.5, 3.5⟩,
    Stmt.assignXrotationDegrees (0),
    Stmt.assignYrotationDegrees (0),
    Stmt.assignZrotationDegrees (-55),
    Stmt.assignPositionXYZ ⟨-13.75, 2, -0.75⟩,
    Stmt.SetTransformations,
    Stmt.SetShaderTexture "texture2",
    Stmt.SetTextureUVScale (0.75) (0.75),
    Stmt.Draw Mesh.Box,
    -- lines 1224-1234
    Stmt.assignScaleXYZ ⟨5, 0.75, 6.5⟩,
    Stmt.assignXrotationDegrees (0),
    Stmt.assignYrotationDegrees (0),
    Stmt.assignZrotationDegrees (0),
    Stmt.assignPositionXYZ ⟨-12.25, 1.25, 1⟩,
    Stmt.SetTransformations,
    Stmt.SetShaderTexture "texture2",
    Stmt.SetTextureUVScale (0.75) (0.75),
    Stmt.Draw Mesh.Box,
    -- lines 1237-1245
    Stmt.SetShaderMaterial "sofa_feet",
    Stmt.assignScaleXYZ ⟨0.1, 0.5, 0.1⟩,
    Stmt.assignXrotationDegrees (0),
    Stmt.assignYrotationDegrees (0),
    Stmt.assignZrotationDegrees (0),
    Stmt.assignPositionXYZ ⟨-14.25, 0, 5⟩,
    Stmt.SetTransformations,
    Stmt.Draw Mesh.Cylinder,
    -- lines 1247-1254
    Stmt.assignScaleXYZ ⟨0.1, 0.75, 0.1⟩,
    Stmt.assignXrotationDegrees (0),
    Stmt.assignYrotationDegrees (0),
    Stmt.assignZrotationDegrees (0),
    Stmt.assignPositionXYZ ⟨-10.25, 0, 5⟩,
    Stmt.SetTransformations,
    Stmt.Draw Mesh.Cylinder,
    -- lines 1256-1263
    Stmt.assignScaleXYZ ⟨0.1, 0.5, 0.1⟩,
    Stmt.assignXrotationDegrees (0),
    Stmt.assignYrotationDegrees (0),
    Stmt.assignZrotationDegrees (0),
    Stmt.assignPositionXYZ ⟨-14.25, 0, -3⟩,
    Stmt.SetTransformations,
    Stmt.Draw Mesh.Cylinder,
    -- lines 1265-1272
    Stmt.assignScaleXYZ ⟨0.1, 0.75, 0.1⟩,
    Stmt.assignXrotationDegrees (0),
    Stmt.assignYrotationDegrees (0),
    Stmt.assignZrotationDegrees (0),
    Stmt.assignPositionXYZ ⟨-10.25, 0, -3⟩,
    Stmt.SetTransformations,
    Stmt.Draw Mesh.Cylinder
  ]

/-- The statements of lines 1275 to 1383 of `SceneManager.cpp`. -/
def part04 : List (Stmt F) := [
    -- lines 1275-1287
    Stmt.SetShaderMaterial "rug",
    Stmt.assignScaleXYZ ⟨16, 0.2, 16⟩,
    Stmt.assignXrotationDegrees (0),
    Stmt.assignYrotationDegrees (0),
    Stmt.assignZrotationDegrees (0),
    Stmt.assignPositionXYZ ⟨-1, 0.15, 4⟩,
    Stmt.SetTransformations,
    Stmt.SetShaderTexture "texture2",
    Stmt.SetTextureUVScale (0.75) (0.75),
    Stmt.glUniform1f "tintIntensity" (0.8),
    Stmt.Draw Mesh.Box,
    -- line 1290
    Stmt.glUniform1f "tintIntensity" (0),
    -- lines 1292-1302
    Stmt.SetShaderColor (242 / 255) (243 / 255) (244 / 255) (1),
    Stmt.SetShaderMaterial "drawer",
    Stmt.assignScaleXYZ ⟨3.5, 5, 9.5⟩,
    Stmt.assignXrotationDegrees (0),
    Stmt.assignYrotationDegrees (0),
    Stmt.assignZrotationDegrees (0),
    Stmt.assignPositionXYZ ⟨13, 2.525, -0.5⟩,
    Stmt.SetTransformations,
    Stmt.Draw Mesh.Box,
    -- lines 1305-1314
    Stmt.SetShaderColor (231 / 255) (232 / 255) (233 / 255) (1),
    Stmt.assignScaleXYZ ⟨3.25, 1.25, 9.25⟩,
    Stmt.assignXrotationDegrees (0),
    Stmt.assignYrotationDegrees (0),
    Stmt.assignZrotationDegrees (0),
    Stmt.assignPositionXYZ ⟨12.8, 1.05, -0.6⟩,
    Stmt.SetTextureUVScale (1) (1),
    Stmt.SetShaderTexture "texture9",
    Stmt.SetTransformations,
    Stmt.Draw Mesh.Box,
    -- lines 1317-1326
    Stmt.SetShaderColor (231 / 255) (232 / 255) (233 / 255) (1),
    Stmt.assignScaleXYZ ⟨3.25, 1.25, 9.25⟩,
    Stmt.assignXrotationDegrees (0),
    Stmt.assignYrotationDegrees (0),
    Stmt.assignZrotationDegrees (0),
    Stmt.assignPositionXYZ ⟨12.8, 4.05, -0.6⟩,
    Stmt.SetTextureUVScale (1) (1),
    Stmt.SetShaderTexture "texture9",
    Stmt.SetTransformations,
    Stmt.Draw Mesh.Box,
    -- lines 1329-1338
    Stmt.SetShaderColor (231 / 255) (232 / 255) (233 / 255) (1),
    Stmt.assignScaleXYZ ⟨3.25, 1.25, 9.25⟩,
    Stmt.assignXrotationDegrees (0),
    Stmt.assignYrotationDegrees (0),
    Stmt.assignZrotationDegrees (0),
    Stmt.assignPositionXYZ ⟨12.8, 2.55, -0.6⟩,
    Stmt.SetTextureUVScale (1) (1),
    Stmt.SetShaderTexture "texture9",
    Stmt.SetTransformations,
    Stmt.Draw Mesh.Box,
    -- lines 1342-1351
    Stmt.SetShaderColor (242 / 255) (243 / 255) (244 / 255) (1),
    Stmt.SetShaderMaterial "drawer",
    Stmt.assignScaleXYZ ⟨3.5, 5, 0.5⟩,
    Stmt.assignXrotationDegrees (0),
    Stmt.assignYrotationDegrees (0),
    Stmt.assignZrotationDegrees (0),
    Stmt.assignPositionXYZ ⟨13, 2.525, -9.5⟩,
    Stmt.SetTransformations,
    Stmt.Draw Mesh.Box,
    -- lines 1353-1359
    Stmt.assignScaleXYZ ⟨3.45, 0.5, 6.5⟩,
    Stmt.assignXrotationDegrees (0),
    Stmt.assignYrotationDegrees (0),
    Stmt.assignZrotationDegrees (0),
    Stmt.assignPositionXYZ ⟨13, 4.75, -6.25⟩,
    Stmt.SetTransformations,
    Stmt.Draw Mesh.Box,
    -- lines 1361-1367
    Stmt.assignScaleXYZ ⟨3.45, 0.05, 6.5⟩,
    Stmt.assignXrotationDegrees (0),
    Stmt.assignYrotationDegrees (0),
    Stmt.assignZrotationDegrees (0),
    Stmt.assignPositionXYZ ⟨13, 0.05, -6.25⟩,
    Stmt.SetTransformations,
    Stmt.Draw Mesh.Box,
    -- lines 1369-1375
    Stmt.assignScaleXYZ ⟨3.45, 0.05, 6.5⟩,
    Stmt.assignXrotationDegrees (0),
    Stmt.assignYrotationDegrees (0),
    Stmt.assignZrotationDegrees (0),
    Stmt.assignPositionXYZ ⟨13, 3, -6.25⟩,
    Stmt.SetTransformations,
    Stmt.Draw Mesh.Box,
    -- lines 1377-1383
    Stmt.assignScaleXYZ ⟨3.45, 0.05, 6.5⟩,
    Stmt.assignXrotationDegrees (0),
    Stmt.assignYrotationDegrees (0),
    Stmt.assignZrotationDegrees (0),
    Stmt.assignPositionXYZ ⟨13, 1.5, -6.25⟩,
    Stmt.SetTransformations,
    Stmt.Draw Mesh.Box
  ]

/-- The statements of lines 1386 to 1498 of `SceneManager.cpp`. -/
def part05 : List (Stmt F) := [
    -- lines 1386-1392
    Stmt.assignScaleXYZ ⟨2.75, 0.75, 2.5⟩,
    Stmt.assignXrotationDegrees (0),
    Stmt.assignYrotationDegrees (0),
    Stmt.assignZrotationDegrees (0),
    Stmt.assignPositionXYZ ⟨7.5, 0.4, -8.25⟩,
    Stmt.SetTransformations,
    Stmt.Draw Mesh.Box,
    -- lines 1395-1401
    Stmt.assignScaleXYZ ⟨2.75, 0.5, 2.5⟩,
    Stmt.assignXrotationDegrees (0),
    Stmt.assignYrotationDegrees (0),
    Stmt.assignZrotationDegrees (0),
    Stmt.assignPositionXYZ ⟨7.5, 7.27, -8.25⟩,
    Stmt.SetTransformations,
    Stmt.Draw Mesh.Box,
    -- lines 1404-1410
    Stmt.assignScaleXYZ ⟨2.75, 0.15, 2.5⟩,
    Stmt.assignXrotationDegrees (0),
    Stmt.assignYrotationDegrees (0),
    Stmt.assignZrotationDegrees (0),
    Stmt.assignPositionXYZ ⟨7.5, 5.27, -8.25⟩,
    Stmt.SetTransformations,
    Stmt.Draw Mesh.Box,
    -- lines 1413-1419
    Stmt.assignScaleXYZ ⟨2.75, 0.15, 2.5⟩,
    Stmt.assignXrotationDegrees (0),
    Stmt.assignYrotationDegrees (0),
    Stmt.assignZrotationDegrees (0),
    Stmt.assignPositionXYZ ⟨7.5, 3, -8.25⟩,
    Stmt.SetTransformations,
    Stmt.Draw Mesh.Box,
    -- lines 1422-1428
    Stmt.assignScaleXYZ ⟨0.25, 7.5, 2.5⟩,
    Stmt.assignXrotationDegrees (0),
    Stmt.assignYrotationDegrees (0),
    Stmt.assignZrotationDegrees (0),
    Stmt.assignPositionXYZ ⟨6.25, 3.77, -8.25⟩,
    Stmt.SetTransformations,
    Stmt.Draw Mesh.Box,
    -- lines 1431-1437
    Stmt.assignScaleXYZ ⟨0.25, 7.5, 2.5⟩,
    Stmt.assignXrotationDegrees (0),
    Stmt.assignYrotationDegrees (0),
    Stmt.assignZrotationDegrees (0),
    Stmt.assignPositionXYZ ⟨9, 3.77, -8.25⟩,
    Stmt.SetTransformations,
    Stmt.Draw Mesh.Box,
    -- lines 1440-1446
    Stmt.assignScaleXYZ ⟨0.25, 7.5, 2.5⟩,
    Stmt.assignXrotationDegrees (0),
    Stmt.assignYrotationDegrees (90),
    Stmt.assignZrotationDegrees (0),
    Stmt.assignPositionXYZ ⟨7.6, 3.77, -8.25⟩,
    Stmt.SetTransformations,
    Stmt.Draw Mesh.Box,
    -- lines 1449-1455
    Stmt.assignScaleXYZ ⟨1, 1, 24⟩,
    Stmt.assignXrotationDegrees (0),
    Stmt.assignYrotationDegrees (0),
    Stmt.assignZrotationDegrees (0),
    Stmt.assignPositionXYZ ⟨15, 6.5, 2⟩,
    Stmt.SetTransformations,
    Stmt.Draw Mesh.Box,
    -- lines 1458-1464
    Stmt.assignScaleXYZ ⟨1, 1, 24⟩,
    Stmt.assignXrotationDegrees (0),
    Stmt.assignYrotationDegrees (0),
    Stmt.assignZrotationDegrees (0),
    Stmt.assignPositionXYZ ⟨-15, 6.5, 2⟩,
    Stmt.SetTransformations,
    Stmt.Draw Mesh.Box,
    -- lines 1467-1468
    Stmt.glUniform1f "tintIntensity" (0.8),
    Stmt.Draw Mesh.Box,
    -- lines 1471-1482
    Stmt.glUniform1f "tintIntensity" (0),
    Stmt.SetUseLighting false,
    Stmt.SetShaderColor (180 / 255) (180 / 255) (180 / 255) (1),
    Stmt.SetShaderMaterial "window",
    Stmt.assignScaleXYZ ⟨8, 0.75, 1⟩,
    Stmt.assignXrotationDegrees (0),
    Stmt.assignYrotationDegrees (0),
    Stmt.assignZrotationDegrees (0),
    Stmt.assignPositionXYZ ⟨0, 5, -10⟩,
    Stmt.SetTransformations,
    Stmt.Draw Mesh.Box,
    -- lines 1484-1490
    Stmt.assignScaleXYZ ⟨8, 0.75, 1⟩,
    Stmt.assignXrotationDegrees (0),
    Stmt.assignYrotationDegrees (0),
    Stmt.assignZrotationDegrees (0),
    Stmt.assignPositionXYZ ⟨0, 15, -10⟩,
    Stmt.SetTransformations,
    Stmt.Draw Mesh.Box,
    -- lines 1492-1498
    Stmt.assignScaleXYZ ⟨0.75, 10.75, 1⟩,
    Stmt.assignXrotationDegrees (0),
    Stmt.assignYrotationDegrees (0),
    Stmt.assignZrotationDegrees (0),
    Stmt.assignPositionXYZ ⟨-4, 10, -10⟩,
    Stmt.SetTransformations,
    Stmt.Draw Mesh.Box
  ]

/-- The statements of lines 1500 to 1599 of `SceneManager.cpp`. -/
def part06 : List (Stmt F) := [
    -- lines 1500-1506
    Stmt.assignScaleXYZ ⟨0.75, 10.75, 1⟩,
    Stmt.assignXrotationDegrees (0),
    Stmt.assignYrotationDegrees (0),
    Stmt.assignZrotationDegrees (0),
    Stmt.assignPositionXYZ ⟨4, 10, -10⟩,
    Stmt.SetTransformations,
    Stmt.Draw Mesh.Box,
    -- lines 1508-1514
    Stmt.assignScaleXYZ ⟨0.35, 8.75, 0.75⟩,
    Stmt.assignXrotationDegrees (0),
    Stmt.assignYrotationDegrees (0),
    Stmt.assignZrotationDegrees (0),
    Stmt.assignPositionXYZ ⟨0.25, 10, -10⟩,
    Stmt.SetTransformations,
    Stmt.Draw Mesh.Box,
    -- lines 1516-1522
    Stmt.assignScaleXYZ ⟨0.35, 8.75, 0.75⟩,
    Stmt.assignXrotationDegrees (0),
    Stmt.assignYrotationDegrees (0),
    Stmt.assignZrotationDegrees (0),
    Stmt.assignPositionXYZ ⟨-0.25, 10, -10⟩,
    Stmt.SetTransformations,
    Stmt.Draw Mesh.Box,
    -- lines 1524-1530
    Stmt.assignScaleXYZ ⟨0.35, 8.75, 0.75⟩,
    Stmt.assignXrotationDegrees (0),
    Stmt.assignYrotationDegrees (0),
    Stmt.assignZrotationDegrees (0),
    Stmt.assignPositionXYZ ⟨-3.25, 10, -10⟩,
    Stmt.SetTransformations,
    Stmt.Draw Mesh.Box,
    -- lines 1532-1538
    Stmt.assignScaleXYZ ⟨0.35, 8.75, 0.75⟩,
    Stmt.assignXrotationDegrees (0),
    Stmt.assignYrotationDegrees (0),
    Stmt.assignZrotationDegrees (0),
    Stmt.assignPositionXYZ ⟨3.25, 10, -10⟩,
    Stmt.SetTransformations,
    Stmt.Draw Mesh.Box,
    -- lines 1540-1546
    Stmt.assignScaleXYZ ⟨3.25, 0.35, 0.75⟩,
    Stmt.assignXrotationDegrees (0),
    Stmt.assignYrotationDegrees (0),
    Stmt.assignZrotationDegrees (0),
    Stmt.assignPositionXYZ ⟨1.75, 10, -10⟩,
    Stmt.SetTransformations,
    Stmt.Draw Mesh.Box,
    -- lines 1548-1554
    Stmt.assignScaleXYZ ⟨3.25, 0.35, 0.75⟩,
    Stmt.assignXrotationDegrees (0),
    Stmt.assignYrotationDegrees (0),
    Stmt.assignZrotationDegrees (0),
    Stmt.assignPositionXYZ ⟨-1.75, 14.25, -10⟩,
    Stmt.SetTransformations,
    Stmt.Draw Mesh.Box,
    -- lines 1556-1562
    Stmt.assignScaleXYZ ⟨3.25, 0.35, 0.75⟩,
    Stmt.assignXrotationDegrees (0),
    Stmt.assignYrotationDegrees (0),
    Stmt.assignZrotationDegrees (0),
    Stmt.assignPositionXYZ ⟨1.75, 5.75, -10⟩,
    Stmt.SetTransformations,
    Stmt.Draw Mesh.Box,
    -- lines 1564-1570
    Stmt.assignScaleXYZ ⟨3.25, 0.35, 0.75⟩,
    Stmt.assignXrotationDegrees (0),
    Stmt.assignYrotationDegrees (0),
    Stmt.assignZrotationDegrees (0),
    Stmt.assignPositionXYZ ⟨-1.75, 5.75, -10⟩,
    Stmt.SetTransformations,
    Stmt.Draw Mesh.Box,
    -- lines 1572-1578
    Stmt.assignScaleXYZ ⟨3.25, 0.35, 0.75⟩,
    Stmt.assignXrotationDegrees (0),
    Stmt.assignYrotationDegrees (0),
    Stmt.assignZrotationDegrees (0),
    Stmt.assignPositionXYZ ⟨1.75, 14.25, -10⟩,
    Stmt.SetTransformations,
    Stmt.Draw Mesh.Box,
    -- lines 1580-1586
    Stmt.assignScaleXYZ ⟨3.25, 0.35, 0.75⟩,
    Stmt.assignXrotationDegrees (0),
    Stmt.assignYrotationDegrees (0),
    Stmt.assignZrotationDegrees (0),
    Stmt.assignPositionXYZ ⟨-1.75, 10, -10⟩,
    Stmt.SetTransformations,
    Stmt.Draw Mesh.Box,
    -- lines 1589-1599
    Stmt.SetShaderMaterial "window_glass",
    Stmt.SetShaderColor (135 / 255) (206 / 255) (235 / 255) (1),
    Stmt.assignScaleXYZ ⟨4, 1, 4.75⟩,
    Stmt.assignXrotationDegrees (90),
    Stmt.assignYrotationDegrees (0),
    Stmt.assignZrotationDegrees (0),
    Stmt.assignPositionXYZ ⟨0, 10, -9.9⟩,
    Stmt.SetTransformations,
    Stmt.Draw Mesh.Plane,
    Stmt.SetUseLighting true
  ]

/-- The statements of lines 1602 to 1697 of `SceneManager.cpp`. -/
def part07 : List (Stmt F) := [
    -- lines 1602-1610
    Stmt.SetShaderMaterial "space_heater",
    Stmt.SetShaderColor (30 / 255) (30 / 255) (30 / 255) (1),
    Stmt.assignScaleXYZ ⟨2, 4, 1.5⟩,
    Stmt.assignXrotationDegrees (0),
    Stmt.assignYrotationDegrees (0),
    Stmt.assignZrotationDegrees (0),
    Stmt.assignPositionXYZ ⟨13.75, 2.01, 6.1⟩,
    Stmt.SetTransformations,
    Stmt.Draw Mesh.Box,
    -- lines 1612-1619
    Stmt.SetShaderMaterial "glowing_orange",
    Stmt.assignScaleXYZ ⟨0.25, 2, 0.25⟩,
    Stmt.assignXrotationDegrees (0),
    Stmt.assignYrotationDegrees (0),
    Stmt.assignZrotationDegrees (0),
    Stmt.assignPositionXYZ ⟨13.75, 1.5, 6.8⟩,
    Stmt.SetTransformations,
    Stmt.Draw Mesh.Box,
    -- lines 1622-1630
    Stmt.SetShaderMaterial "lamp",
    Stmt.SetShaderColor (160 / 255) (161 / 255) (161 / 255) (1),
    Stmt.assignScaleXYZ ⟨0.1, 8, 0.1⟩,
    Stmt.assignXrotationDegrees (0),
    Stmt.assignYrotationDegrees (0),
    Stmt.assignZrotationDegrees (0),
    Stmt.assignPositionXYZ ⟨10, 0, -7⟩,
    Stmt.SetTransformations,
    Stmt.Draw Mesh.Cylinder,
    -- lines 1632-1639
    Stmt.SetShaderColor (160 / 255) (161 / 255) (161 / 255) (1),
    Stmt.assignScaleXYZ ⟨0.9, 0.1, 0.9⟩,
    Stmt.assignXrotationDegrees (0),
    Stmt.assignYrotationDegrees (0),
    Stmt.assignZrotationDegrees (0),
    Stmt.assignPositionXYZ ⟨10, 0, -7⟩,
    Stmt.SetTransformations,
    Stmt.Draw Mesh.Cylinder,
    -- lines 1641-1648
    Stmt.SetShaderColor (160 / 255) (161 / 255) (161 / 255) (1),
    Stmt.assignScaleXYZ ⟨0.1, 1, 0.1⟩,
    Stmt.assignXrotationDegrees (45),
    Stmt.assignYrotationDegrees (90),
    Stmt.assignZrotationDegrees (0),
    Stmt.assignPositionXYZ ⟨10, 8, -7⟩,
    Stmt.SetTransformations,
    Stmt.Draw Mesh.Cylinder,
    -- lines 1650-1657
    Stmt.SetShaderColor (160 / 255) (161 / 255) (161 / 255) (1),
    Stmt.assignScaleXYZ ⟨0.1, 1, 0.1⟩,
    Stmt.assignXrotationDegrees (45),
    Stmt.assignYrotationDegrees (-90),
    Stmt.assignZrotationDegrees (0),
    Stmt.assignPositionXYZ ⟨10, 8, -7⟩,
    Stmt.SetTransformations,
    Stmt.Draw Mesh.Cylinder,
    -- lines 1659-1667
    Stmt.SetShaderMaterial "lamp_light",
    Stmt.SetShaderColor (255 / 255) (200 / 255) (124 / 255) (0.6),
    Stmt.assignScaleXYZ ⟨1.5, 1.5, 1.5⟩,
    Stmt.assignXrotationDegrees (0),
    Stmt.assignYrotationDegrees (0),
    Stmt.assignZrotationDegrees (0),
    Stmt.assignPositionXYZ ⟨10, 8.5, -7⟩,
    Stmt.SetTransformations,
    Stmt.Draw Mesh.TaperedCylinder,
    -- lines 1669-1677
    Stmt.SetShaderMaterial "lamp",
    Stmt.SetShaderColor (160 / 255) (161 / 255) (161 / 255) (1),
    Stmt.assignScaleXYZ ⟨0.1, 7, 0.1⟩,
    Stmt.assignXrotationDegrees (0),
    Stmt.assignYrotationDegrees (0),
    Stmt.assignZrotationDegrees (0),
    Stmt.assignPositionXYZ ⟨-12, 0, -7⟩,
    Stmt.SetTransformations,
    Stmt.Draw Mesh.Cylinder,
    -- lines 1679-1686
    Stmt.SetShaderColor (160 / 255) (161 / 255) (161 / 255) (1),
    Stmt.assignScaleXYZ ⟨0.9, 0.1, 0.9⟩,
    Stmt.assignXrotationDegrees (0),
    Stmt.assignYrotationDegrees (0),
    Stmt.assignZrotationDegrees (0),
    Stmt.assignPositionXYZ ⟨-12, 0, -7⟩,
    Stmt.SetTransformations,
    Stmt.Draw Mesh.Cylinder,
    -- lines 1689-1697
    Stmt.SetShaderMaterial "lamp_light",
    Stmt.SetShaderColor (255 / 255) (165 / 255) (0 / 255) (0.98),
    Stmt.assignScaleXYZ ⟨1.5, 2.5, 1.5⟩,
    Stmt.assignXrotationDegrees (0),
    Stmt.assignYrotationDegrees (0),
    Stmt.assignZrotationDegrees (0),
    Stmt.assignPositionXYZ ⟨-12, 6, -7⟩,
    Stmt.SetTransformations,
    Stmt.Draw Mesh.TaperedCylinder
  ]

/-- The statements of lines 1700 to 1805 of `SceneManager.cpp`. -/
def part08 : List (Stmt F) := [
    -- lines 1700-1708
    Stmt.SetShaderColor (242 / 255) (243 / 255) (244 / 255) (1),
    Stmt.SetShaderMaterial "drawer",
    Stmt.assignScaleXYZ ⟨0.1, 4, 0.1⟩,
    Stmt.assignXrotationDegrees (-10),
    Stmt.assignYrotationDegrees (0),
    Stmt.assignZrotationDegrees (-10),
    Stmt.assignPositionXYZ ⟨-8, 0, -6⟩,
    Stmt.SetTransformations,
    Stmt.Draw Mesh.Cylinder,
    -- lines 1710-1716
    Stmt.assignScaleXYZ ⟨0.1, 4, 0.1⟩,
    Stmt.assignXrotationDegrees (10),
    Stmt.assignYrotationDegrees (0),
    Stmt.assignZrotationDegrees (-10),
    Stmt.assignPositionXYZ ⟨-8, 0, -8⟩,
    Stmt.SetTransformations,
    Stmt.Draw Mesh.Cylinder,
    -- lines 1718-1724
    Stmt.assignScaleXYZ ⟨0.1, 4, 0.1⟩,
    Stmt.assignXrotationDegrees (-10),
    Stmt.assignYrotationDegrees (0),
    Stmt.assignZrotationDegrees (10),
    Stmt.assignPositionXYZ ⟨2, 0, -6⟩,
    Stmt.SetTransformations,
    Stmt.Draw Mesh.Cylinder,
    -- lines 1726-1732
    Stmt.assignScaleXYZ ⟨0.1, 4, 0.1⟩,
    Stmt.assignXrotationDegrees (10),
    Stmt.assignYrotationDegrees (0),
    Stmt.assignZrotationDegrees (10),
    Stmt.assignPositionXYZ ⟨2, 0, -8⟩,
    Stmt.SetTransformations,
    Stmt.Draw Mesh.Cylinder,
    -- lines 1734-1740
    Stmt.assignScaleXYZ ⟨14, 0.4, 4⟩,
    Stmt.assignXrotationDegrees (0),
    Stmt.assignYrotationDegrees (0),
    Stmt.assignZrotationDegrees (0),
    Stmt.assignPositionXYZ ⟨-2, 4, -7.9⟩,
    Stmt.SetTransformations,
    Stmt.Draw Mesh.Box,
    -- lines 1743-1752
    Stmt.SetUseLighting false,
    Stmt.SetShaderColor (0 / 255) (0 / 255) (0 / 255) (1),
    Stmt.assignScaleXYZ ⟨2, 3.5, 3.5⟩,
    Stmt.assignXrotationDegrees (0),
    Stmt.assignYrotationDegrees (0),
    Stmt.assignZrotationDegrees (0),
    Stmt.assignPositionXYZ ⟨4, 1.8, -7.9⟩,
    Stmt.SetTransformations,
    Stmt.Draw Mesh.Box,
    -- lines 1754-1764
    Stmt.assignScaleXYZ ⟨1.9, 3.4, 3.5⟩,
    Stmt.assignXrotationDegrees (0),
    Stmt.assignYrotationDegrees (0),
    Stmt.assignZrotationDegrees (0),
    Stmt.assignPositionXYZ ⟨4, 1.8, -7.8⟩,
    Stmt.SetTransformations,
    Stmt.SetTextureUVScale (1) (1),
    Stmt.SetTextureOffset (0.5) (0.5),
    Stmt.SetShaderTexture "texture6",
    Stmt.Draw Mesh.Box,
    -- lines 1767-1775
    Stmt.SetShaderColor (60 / 255) (60 / 255) (60 / 255) (1),
    Stmt.SetShaderMaterial "frame_material",
    Stmt.assignScaleXYZ ⟨3.7, 0.2, 0.2⟩,
    Stmt.assignXrotationDegrees (0),
    Stmt.assignYrotationDegrees (0),
    Stmt.assignZrotationDegrees (0),
    Stmt.assignPositionXYZ ⟨-8, 5.5, -9.8⟩,
    Stmt.SetTransformations,
    Stmt.Draw Mesh.Box,
    -- lines 1778-1785
    Stmt.SetShaderColor (60 / 255) (60 / 255) (60 / 255) (1),
    Stmt.assignScaleXYZ ⟨3.7, 0.2, 0.2⟩,
    Stmt.assignXrotationDegrees (0),
    Stmt.assignYrotationDegrees (0),
    Stmt.assignZrotationDegrees (0),
    Stmt.assignPositionXYZ ⟨-8, 11.1, -9.8⟩,
    Stmt.SetTransformations,
    Stmt.Draw Mesh.Box,
    -- lines 1788-1795
    Stmt.SetShaderColor (60 / 255) (60 / 255) (60 / 255) (1),
    Stmt.assignScaleXYZ ⟨0.2, 5.7, 0.2⟩,
    Stmt.assignXrotationDegrees (0),
    Stmt.assignYrotationDegrees (0),
    Stmt.assignZrotationDegrees (0),
    Stmt.assignPositionXYZ ⟨-9.75, 8.3, -9.8⟩,
    Stmt.SetTransformations,
    Stmt.Draw Mesh.Box,
    -- lines 1798-1805
    Stmt.SetShaderColor (60 / 255) (60 / 255) (60 / 255) (1),
    Stmt.assignScaleXYZ ⟨0.2, 5.7, 0.2⟩,
    Stmt.assignXrotationDegrees (0),
    Stmt.assignYrotationDegrees (0),
    Stmt.assignZrotationDegrees (0),
    Stmt.assignPositionXYZ ⟨-6.25, 8.3, -9.8⟩,
    Stmt.SetTransformations,
    Stmt.Draw Mesh.Box
  ]

/-- The statements of lines 1808 to 1904 of `SceneManager.cpp`. -/
def part09 : List (Stmt F) := [
    -- lines 1808-1819
    Stmt.SetShaderColor (1) (1) (1) (1),
    Stmt.SetShaderMaterial "canvas_material",
    Stmt.assignScaleXYZ ⟨3.5, 5.5, 0.1⟩,
    Stmt.assignXrotationDegrees (0),
    Stmt.assignYrotationDegrees (0),
    Stmt.assignZrotationDegrees (0),
    Stmt.assignPositionXYZ ⟨-8, 8.3, -9.85⟩,
    Stmt.SetTransformations,
    Stmt.SetShaderTexture "texture5",
    Stmt.SetTextureUVScale (1) (1),
    Stmt.SetTextureOffset (0.5) (0.5),
    Stmt.Draw Mesh.Box,
    -- lines 1821-1830
    Stmt.SetShaderColor (0 / 255) (0 / 255) (0 / 255) (1),
    Stmt.SetShaderMaterial "default",
    Stmt.assignScaleXYZ ⟨9.5, 3.75, 0.2⟩,
    Stmt.assignXrotationDegrees (0),
    Stmt.assignYrotationDegrees (0),
    Stmt.assignZrotationDegrees (0),
    Stmt.assignPositionXYZ ⟨-0.5, 7.3, -8.85⟩,
    Stmt.SetTransformations,
    Stmt.Draw Mesh.Box,
    -- lines 1832-1842
    Stmt.assignScaleXYZ ⟨9.45, 3.72, 0.1⟩,
    Stmt.assignXrotationDegrees (0),
    Stmt.assignYrotationDegrees (0),
    Stmt.assignZrotationDegrees (0),
    Stmt.assignPositionXYZ ⟨-0.5, 7.3, -8.78⟩,
    Stmt.SetTextureUVScale (1) (1),
    Stmt.SetTextureOffset (0.5) (0.5),
    Stmt.SetShaderTexture "texture8",
    Stmt.SetTransformations,
    Stmt.Draw Mesh.Box,
    -- lines 1844-1852
    Stmt.SetShaderMaterial "default",
    Stmt.SetShaderColor (30 / 255) (30 / 255) (30 / 255) (1),
    Stmt.assignScaleXYZ ⟨1, 2, 0.2⟩,
    Stmt.assignXrotationDegrees (0),
    Stmt.assignYrotationDegrees (0),
    Stmt.assignZrotationDegrees (0),
    Stmt.assignPositionXYZ ⟨-0.5, 5.3, -9.45⟩,
    Stmt.SetTransformations,
    Stmt.Draw Mesh.Box,
    -- lines 1854-1860
    Stmt.assignScaleXYZ ⟨6, 0.25, 2⟩,
    Stmt.assignXrotationDegrees (10),
    Stmt.assignYrotationDegrees (0),
    Stmt.assignZrotationDegrees (0),
    Stmt.assignPositionXYZ ⟨-0.5, 4.3, -7.45⟩,
    Stmt.SetTransformations,
    Stmt.Draw Mesh.Box,
    -- lines 1862-1868
    Stmt.assignScaleXYZ ⟨6, 0.25, 2⟩,
    Stmt.assignXrotationDegrees (10),
    Stmt.assignYrotationDegrees (0),
    Stmt.assignZrotationDegrees (0),
    Stmt.assignPositionXYZ ⟨-0.5, 4.3, -7.45⟩,
    Stmt.SetTransformations,
    Stmt.Draw Mesh.Box,
    -- lines 1870-1879
    Stmt.SetShaderMaterial "default",
    Stmt.SetShaderColor (50 / 255) (50 / 255) (50 / 255) (1),
    Stmt.assignScaleXYZ ⟨4, 0.25, 1.8⟩,
    Stmt.assignXrotationDegrees (10),
    Stmt.assignYrotationDegrees (0),
    Stmt.assignZrotationDegrees (0),
    Stmt.assignPositionXYZ ⟨-0.5, 4.5, -7.45⟩,
    Stmt.SetTransformations,
    Stmt.SetTextureUVScale (1) (1),
    Stmt.Draw Mesh.Box,
    -- lines 1882-1893
    Stmt.SetUseLighting false,
    Stmt.assignScaleXYZ ⟨3.9, 0.25, 1.7⟩,
    Stmt.assignXrotationDegrees (10),
    Stmt.assignYrotationDegrees (0),
    Stmt.assignZrotationDegrees (0),
    Stmt.assignPositionXYZ ⟨-0.5, 4.51, -7.45⟩,
    Stmt.SetTransformations,
    Stmt.SetShaderTexture "texture7",
    Stmt.SetTextureUVScale (1) (1),
    Stmt.Draw Mesh.Box,
    Stmt.SetUseLighting true,
    -- lines 1896-1904
    Stmt.SetShaderColor (200 / 255) (200 / 255) (200 / 255) (1),
    Stmt.SetShaderMaterial "pot_material",
    Stmt.assignScaleXYZ ⟨0.5, 0.75, 0.5⟩,
    Stmt.assignPositionXYZ ⟨12, 5, -7⟩,
    Stmt.assignXrotationDegrees (0),
    Stmt.assignYrotationDegrees (0),
    Stmt.assignZrotationDegrees (0),
    Stmt.SetTransformations,
    Stmt.Draw Mesh.Cylinder
  ]

/-- The statements of lines 1906 to 1968 of `SceneManager.cpp`. -/
def part10 : List (Stmt F) := [
    -- lines 1906-1915
    Stmt.SetShaderColor (0 / 255) (140 / 255) (30 / 255) (1),
    Stmt.SetShaderMaterial "stem_material",
    Stmt.assignScaleXYZ ⟨0.1, 1, 0.1⟩,
    Stmt.assignPositionXYZ ⟨12, 5.25, -7⟩,
    Stmt.assignXrotationDegrees (0),
    Stmt.assignYrotationDegrees (0),
    Stmt.assignZrotationDegrees (0),
    Stmt.SetTransformations,
    Stmt.Draw Mesh.Cylinder,
    -- line 1918
    Stmt.SetShaderMaterial "leaf_material",
    -- lines 1921-1927
    Stmt.assignScaleXYZ ⟨0.3, 0.3, 0.3⟩,
    Stmt.assignPositionXYZ ⟨11.7, 6.25, -7⟩,
    Stmt.assignXrotationDegrees (0),
    Stmt.assignYrotationDegrees (0),
    Stmt.assignZrotationDegrees (0),
    Stmt.SetTransformations,
    Stmt.Draw Mesh.Sphere,
    -- lines 1930-1935
    Stmt.assignPositionXYZ ⟨12.3, 6.25, -7⟩,
    Stmt.assignXrotationDegrees (0),
    Stmt.assignYrotationDegrees (0),
    Stmt.assignZrotationDegrees (0),
    Stmt.SetTransformations,
    Stmt.Draw Mesh.Sphere,
    -- lines 1938-1943
    Stmt.assignPositionXYZ ⟨12, 6.75, -7⟩,
    Stmt.assignXrotationDegrees (0),
    Stmt.assignYrotationDegrees (0),
    Stmt.assignZrotationDegrees (0),
    Stmt.SetTransformations,
    Stmt.Draw Mesh.Sphere,
    -- lines 1946-1954
    Stmt.SetShaderColor (200 / 255) (200 / 255) (200 / 255) (1),
    Stmt.SetShaderMaterial "pot_material",
    Stmt.assignScaleXYZ ⟨0.5, 0.75, 0.5⟩,
    Stmt.assignPositionXYZ ⟨13, 5, -5⟩,
    Stmt.assignXrotationDegrees (0),
    Stmt.assignYrotationDegrees (0),
    Stmt.assignZrotationDegrees (0),
    Stmt.SetTransformations,
    Stmt.Draw Mesh.Cylinder,
    -- lines 1957-1965
    Stmt.SetShaderColor (0 / 255) (140 / 255) (30 / 255) (1),
    Stmt.SetShaderMaterial "stem_material",
    Stmt.assignScaleXYZ ⟨0.05, 2, 0.05⟩,
    Stmt.assignPositionXYZ ⟨13, 5, -5⟩,
    Stmt.assignXrotationDegrees (0),
    Stmt.assignYrotationDegrees (0),
    Stmt.assignZrotationDegrees (0),
    Stmt.SetTransformations,
    Stmt.Draw Mesh.Cylinder,
    -- line 1968
    Stmt.SetShaderMaterial "leaf_material"
  ]

/-- The statements of lines 1989 to 2011 of `SceneManager.cpp`. -/
def part11 : List (Stmt F) := [
    -- lines 1989-1997
    Stmt.SetShaderColor (200 / 255) (200 / 255) (200 / 255) (1),
    Stmt.SetShaderMaterial "pot_material",
    Stmt.assignScaleXYZ ⟨0.5, 0.75, 0.5⟩,
    Stmt.assignPositionXYZ ⟨12.4, 5, -3⟩,
    Stmt.assignXrotationDegrees (0),
    Stmt.assignYrotationDegrees (0),
    Stmt.assignZrotationDegrees (0),
    Stmt.SetTransformations,
    Stmt.Draw Mesh.Cylinder,
    -- lines 2000-2008
    Stmt.SetShaderColor (0 / 255) (140 / 255) (30 / 255) (1),
    Stmt.SetShaderMaterial "stem_material",
    Stmt.assignScaleXYZ ⟨0.05, 2, 0.05⟩,
    Stmt.assignPositionXYZ ⟨12.4, 5, -3⟩,
    Stmt.assignXrotationDegrees (0),
    Stmt.assignYrotationDegrees (0),
    Stmt.assignZrotationDegrees (0),
    Stmt.SetTransformations,
    Stmt.Draw Mesh.Cylinder,
    -- line 2011
    Stmt.SetShaderMaterial "leaf_material"
  ]

/-- The statements of lines 2031 to 2043 of `SceneManager.cpp`. -/
def part12 : List (Stmt F) := [
    -- lines 2031-2039
    Stmt.SetShaderColor (200 / 255) (200 / 255) (200 / 255) (1),
    Stmt.SetShaderMaterial "pot_material",
    Stmt.assignXrotationDegrees (180),
    Stmt.assignYrotationDegrees (0),
    Stmt.assignZrotationDegrees (0),
    Stmt.SetTransformationsWith ⟨1, 3.5, 1⟩ ⟨-13, 3.55, -5⟩,
    Stmt.Draw Mesh.TaperedCylinder,
    -- lines 2042-2043
    Stmt.SetShaderColor (0 / 255) (140 / 255) (30 / 255) (1),
    Stmt.SetShaderMaterial "stem_material"
  ]

/-- The statements of lines 2113 to 2214 of `SceneManager.cpp`. -/
def part13 : List (Stmt F) := [
    -- lines 2113-2121
    Stmt.SetShaderMaterial "default",
    Stmt.SetShaderColor (30 / 255) (30 / 255) (30 / 255) (1),
    Stmt.assignScaleXYZ ⟨1.9, 0.75, 0.75⟩,
    Stmt.assignPositionXYZ ⟨-2, 6, -3⟩,
    Stmt.assignXrotationDegrees (10),
    Stmt.assignYrotationDegrees (-35),
    Stmt.assignZrotationDegrees (0),
    Stmt.SetTransformations,
    Stmt.Draw Mesh.Torus,
    -- lines 2123-2129
    Stmt.assignScaleXYZ ⟨01.25, 0.65, 0.75⟩,
    Stmt.assignPositionXYZ ⟨-2, 7, -3⟩,
    Stmt.assignXrotationDegrees (10),
    Stmt.assignYrotationDegrees (-35),
    Stmt.assignZrotationDegrees (0),
    Stmt.SetTransformations,
    Stmt.Draw Mesh.Torus,
    -- lines 2132-2138
    Stmt.assignScaleXYZ ⟨1.25, 0.15, 0.55⟩,
    Stmt.assignPositionXYZ ⟨-2, 7, -3⟩,
    Stmt.assignXrotationDegrees (100),
    Stmt.assignYrotationDegrees (-35),
    Stmt.assignZrotationDegrees (0),
    Stmt.SetTransformations,
    Stmt.Draw Mesh.Cylinder,
    -- lines 2140-2146
    Stmt.assignScaleXYZ ⟨01.25, 0.65, 0.15⟩,
    Stmt.assignPositionXYZ ⟨-2, 6, -3⟩,
    Stmt.assignXrotationDegrees (10),
    Stmt.assignYrotationDegrees (-35),
    Stmt.assignZrotationDegrees (0),
    Stmt.SetTransformations,
    Stmt.Draw Mesh.Box,
    -- lines 2148-2154
    Stmt.assignScaleXYZ ⟨2.75, 0.5, 0.05⟩,
    Stmt.assignPositionXYZ ⟨-2, 5.5, -3⟩,
    Stmt.assignXrotationDegrees (10),
    Stmt.assignYrotationDegrees (-35),
    Stmt.assignZrotationDegrees (0),
    Stmt.SetTransformations,
    Stmt.Draw Mesh.Box,
    -- lines 2156-2162
    Stmt.assignScaleXYZ ⟨1.5, 0.55, 0.05⟩,
    Stmt.assignPositionXYZ ⟨-3.1, 6.1, -3.8⟩,
    Stmt.assignXrotationDegrees (-15),
    Stmt.assignYrotationDegrees (-35),
    Stmt.assignZrotationDegrees (45),
    Stmt.SetTransformations,
    Stmt.Draw Mesh.Box,
    -- lines 2164-2170
    Stmt.assignScaleXYZ ⟨1.5, 0.55, 0.05⟩,
    Stmt.assignPositionXYZ ⟨-1, 6.1, -2.4⟩,
    Stmt.assignXrotationDegrees (25),
    Stmt.assignYrotationDegrees (-15),
    Stmt.assignZrotationDegrees (-45),
    Stmt.SetTransformations,
    Stmt.Draw Mesh.Box,
    -- lines 2172-2178
    Stmt.assignScaleXYZ ⟨1.95, 0.95, 0.75⟩,
    Stmt.assignPositionXYZ ⟨-2, 4.2, -3.2⟩,
    Stmt.assignXrotationDegrees (10),
    Stmt.assignYrotationDegrees (-35),
    Stmt.assignZrotationDegrees (0),
    Stmt.SetTransformations,
    Stmt.Draw Mesh.Torus,
    -- lines 2181-2187
    Stmt.assignScaleXYZ ⟨1.75, 0.15, 0.75⟩,
    Stmt.assignPositionXYZ ⟨-2, 4.2, -3.3⟩,
    Stmt.assignXrotationDegrees (90),
    Stmt.assignYrotationDegrees (-35),
    Stmt.assignZrotationDegrees (0),
    Stmt.SetTransformations,
    Stmt.Draw Mesh.Cylinder,
    -- lines 2190-2196
    Stmt.assignScaleXYZ ⟨2.55, 0.15, 0.75⟩,
    Stmt.assignPositionXYZ ⟨-2, 3.2, -3.35⟩,
    Stmt.assignXrotationDegrees (100),
    Stmt.assignYrotationDegrees (-35),
    Stmt.assignZrotationDegrees (0),
    Stmt.SetTransformations,
    Stmt.Draw Mesh.Box,
    -- lines 2199-2205
    Stmt.assignScaleXYZ ⟨2.55, 2.3, 0.75⟩,
    Stmt.assignPositionXYZ ⟨-1.35, 2.8, -4.25⟩,
    Stmt.assignXrotationDegrees (100),
    Stmt.assignYrotationDegrees (-35),
    Stmt.assignZrotationDegrees (0),
    Stmt.SetTransformations,
    Stmt.Draw Mesh.Box,
    -- lines 2208-2214
    Stmt.assignScaleXYZ ⟨0.25, 0.15, 1⟩,
    Stmt.assignPositionXYZ ⟨-0.65, 3.4, -3.25⟩,
    Stmt.assignXrotationDegrees (100),
    Stmt.assignYrotationDegrees (-35),
    Stmt.assignZrotationDegrees (0),
    Stmt.SetTransformations,
    Stmt.Draw Mesh.Box
  ]

/-- The statements of lines 2217 to 2291 of `SceneManager.cpp`. -/
def part14 : List (Stmt F) := [
    -- lines 2217-2223
    Stmt.assignScaleXYZ ⟨0.1, 0.65, 0.1⟩,
    Stmt.assignPositionXYZ ⟨-0.25, 3.9, -3.75⟩,
    Stmt.assignXrotationDegrees (100),
    Stmt.assignYrotationDegrees (-35),
    Stmt.assignZrotationDegrees (0),
    Stmt.SetTransformations,
    Stmt.Draw Mesh.Cylinder,
    -- lines 2226-2232
    Stmt.assignScaleXYZ ⟨0.25, 0.15, 1⟩,
    Stmt.assignPositionXYZ ⟨-0.65, 3.4, -3.25⟩,
    Stmt.assignXrotationDegrees (100),
    Stmt.assignYrotationDegrees (-35),
    Stmt.assignZrotationDegrees (0),
    Stmt.SetTransformations,
    Stmt.Draw Mesh.Box,
    -- lines 2234-2240
    Stmt.assignScaleXYZ ⟨0.2, 2, 0.2⟩,
    Stmt.assignPositionXYZ ⟨-1.5, 1, -3.75⟩,
    Stmt.assignXrotationDegrees (0),
    Stmt.assignYrotationDegrees (0),
    Stmt.assignZrotationDegrees (0),
    Stmt.SetTransformations,
    Stmt.Draw Mesh.Cylinder,
    -- lines 2242-2248
    Stmt.assignScaleXYZ ⟨0.1, 3.65, 0.1⟩,
    Stmt.assignPositionXYZ ⟨0.5, 1, -3.75⟩,
    Stmt.assignXrotationDegrees (0),
    Stmt.assignYrotationDegrees (0),
    Stmt.assignZrotationDegrees (90),
    Stmt.SetTransformations,
    Stmt.Draw Mesh.Cylinder,
    -- lines 2250-2256
    Stmt.assignScaleXYZ ⟨0.1, 3.65, 0.1⟩,
    Stmt.assignPositionXYZ ⟨-1.5, 1, -5.65⟩,
    Stmt.assignXrotationDegrees (90),
    Stmt.assignYrotationDegrees (0),
    Stmt.assignZrotationDegrees (0),
    Stmt.SetTransformations,
    Stmt.Draw Mesh.Cylinder,
    -- lines 2258-2264
    Stmt.assignScaleXYZ ⟨0.4, 0.4, 0.4⟩,
    Stmt.assignPositionXYZ ⟨-1.45, 0.4, -5.65⟩,
    Stmt.assignXrotationDegrees (0),
    Stmt.assignYrotationDegrees (0),
    Stmt.assignZrotationDegrees (0),
    Stmt.SetTransformations,
    Stmt.Draw Mesh.Sphere,
    -- lines 2266-2272
    Stmt.assignScaleXYZ ⟨0.4, 0.4, 0.4⟩,
    Stmt.assignPositionXYZ ⟨-3.15, 0.7, -3.65⟩,
    Stmt.assignXrotationDegrees (0),
    Stmt.assignYrotationDegrees (0),
    Stmt.assignZrotationDegrees (0),
    Stmt.SetTransformations,
    Stmt.Draw Mesh.Sphere,
    -- lines 2274-2280
    Stmt.assignScaleXYZ ⟨0.4, 0.4, 0.4⟩,
    Stmt.assignPositionXYZ ⟨-1.45, 0.7, -1.85⟩,
    Stmt.assignXrotationDegrees (0),
    Stmt.assignYrotationDegrees (0),
    Stmt.assignZrotationDegrees (0),
    Stmt.SetTransformations,
    Stmt.Draw Mesh.Sphere,
    -- lines 2282-2288
    Stmt.assignScaleXYZ ⟨0.4, 0.4, 0.4⟩,
    Stmt.assignPositionXYZ ⟨0.6, 0.7, -3.65⟩,
    Stmt.assignXrotationDegrees (0),
    Stmt.assignYrotationDegrees (0),
    Stmt.assignZrotationDegrees (0),
    Stmt.SetTransformations,
    Stmt.Draw Mesh.Sphere,
    -- line 2291
    Stmt.SetShaderMaterial "default"
  ]

/-- The number of rows of the local table `stemOffsets[3][2]`. -/
def stemOffsetsRows : Nat := 3

/-- A read `stemOffsets[s][j]` of the local table
`{ {0.0f, 0.0f}, {0.15f, 0.15f}, {-0.15f, -0.15f} }`. A read of a row `s` that the table does
not have is out of bounds, which is undefined behaviour; in an execution that goes on as if
the read had answered a value, `beyond s j` is that value. -/
def stemOffsets (beyond : Nat → Nat → F) (s j : Nat) : F :=
  match s, j with
  | 0, 0 => 0
  | 0, 1 => 0
  | 1, 0 => 0.15
  | 1, 1 => 0.15
  | 2, 0 => -0.15
  | 2, 1 => -0.15
  | s, j => beyond s j

/-- A read `stemOffsets[s][j]` of a row the table has (`s < 3`, `j < 2`): the entry of the
table. It is used for such reads only, for which `stemOffsets` does not consult its first
argument. -/
def stemOffsets.inTable (s j : Nat) : F :=
  stemOffsets (fun _ _ => 0) s j

/-- The loop of lines 1972 to 1985, which lines 2015 to 2028 repeat: ten leaves around
`stemPosition`. -/
def grassLeaves (cm : CMath F) (stemPosition : vec3 F) : List (Stmt F) :=
  (List.range 10).flatMap fun i =>
    let angle : F := glm.radians ((i : F) * 36)
    let offsetX : F := 0.3 * cm.cos angle + stemPosition.x
    let offsetY : F := 1.2 + 0.4 * cm.sin angle + stemPosition.y
    let offsetZ : F := 0.3 * cm.sin angle + stemPosition.z
    [ Stmt.assignScaleXYZ ⟨0.05, 0.5, 0.05⟩,
      Stmt.assignXrotationDegrees (45 * cm.sin angle),
      Stmt.assignYrotationDegrees (glm.degrees angle),
      Stmt.assignZrotationDegrees 0,
      Stmt.assignPositionXYZ ⟨offsetX, offsetY, offsetZ⟩,
      Stmt.SetTransformations,
      Stmt.Draw Mesh.Cylinder ]

/-- The value of `numStems` in the loop of lines 2047 to 2076. -/
def numStems1 : Nat := 3

/-- The value of `numStems` in the loop of lines 2080 to 2110. -/
def numStems2 : Nat := 6

/-- The loop of lines 2047 to 2076: `numStems` is 3, so every read of `stemOffsets` is inside
the table. -/
def plant1 (cm : CMath F) : List (Stmt F) :=
  (List.range numStems1).flatMap fun s =>
    let baseX : F := stemOffsets.inTable s 0
    let baseZ : F := stemOffsets.inTable s 1
    let stemScale : vec3 F := ⟨0.1, 2, 0.1⟩
    let stemPosition : vec3 F := ⟨13 + baseX, 6, -5 + baseZ⟩
    let numLeaves : Nat := 20
    [ Stmt.SetTransformationsOf stemScale 0 0 0 stemPosition,
      Stmt.Draw Mesh.Cylinder,
      Stmt.SetShaderMaterial "leaf_material" ] ++
    (List.range numLeaves).flatMap fun i =>
      let angle : F := glm.radians ((i : F) * 18)
      let offsetX : F := 13 + baseX + 0.3 * cm.cos angle
      let offsetY : F := 6 + ((i % 10 : Nat) : F) * 0.2
      let offsetZ : F := -5 + baseZ + 0.3 * cm.sin angle
      let leafPosition : vec3 F := ⟨offsetX, offsetY, offsetZ⟩
      let leafScale : vec3 F := ⟨0.05, 0.5, 0.1⟩
      let XrotationDegrees : F := 0
      let YrotationDegrees : F := glm.degrees angle
      let ZrotationDegrees : F := 45
      [ Stmt.SetTransformationsOf leafScale XrotationDegrees YrotationDegrees ZrotationDegrees
          leafPosition,
        Stmt.Draw Mesh.Box ]

/-- One iteration of the loop of lines 2080 to 2110, for the index `s`: the statements of lines
2084 to 2109, `baseX` and `baseZ` being what the reads `stemOffsets[s][0]` and
`stemOffsets[s][1]` of lines 2081 and 2082 answered. -/
def plant2.iteration (cm : CMath F) (s : Nat) (baseX baseZ : F) : List (Stmt F) :=
  let stemScale : vec3 F := ⟨0.15, 3, 0.15⟩
  let rotationAngle : F := (s : F) * (-10)
  let stemPosition : vec3 F := ⟨-13 + baseX, 3.25, -5 + baseZ⟩
  let numLeaves : Nat := 20
  [ Stmt.SetTransformationsOf stemScale rotationAngle rotationAngle 0 stemPosition,
    Stmt.Draw Mesh.Cylinder,
    Stmt.SetShaderMaterial "leaf_material" ] ++
  (List.range numLeaves).flatMap fun i =>
    let angle : F := glm.radians ((i : F) * 18 + (s : F) * 60)
    let offsetX : F := baseX + 0.5 * cm.cos angle
    let offsetY : F := 4.25 + ((i % 10 : Nat) : F) * 0.4
    let offsetZ : F := baseZ + 0.5 * cm.sin angle
    let leafPosition : vec3 F := ⟨-13 + offsetX, offsetY, -5 + offsetZ⟩
    let leafScale : vec3 F := ⟨0.1, 0.8, 0.2⟩
    let XrotationDegrees : F := 0
    let YrotationDegrees : F := glm.degrees angle
    let ZrotationDegrees : F := 45
    [ Stmt.SetTransformationsOf leafScale XrotationDegrees YrotationDegrees ZrotationDegrees
        leafPosition,
      Stmt.Draw Mesh.Box ]

/-- The loop of lines 2080 to 2110 as the source text reads: `numStems` is 6, and the reads of
the rows 3, 4 and 5 answer `beyond`. -/
def plant2 (cm : CMath F) (beyond : Nat → Nat → F) : List (Stmt F) :=
  (List.range numStems2).flatMap fun s =>
    plant2.iteration cm s (stemOffsets beyond s 0) (stemOffsets beyond s 1)

/-- The iterations of the loop of lines 2080 to 2110 whose reads are inside the table: `s` is
0, 1 and 2. -/
def plant2.inBounds (cm : CMath F) : List (Stmt F) :=
  (List.range stemOffsetsRows).flatMap fun s =>
    plant2.iteration cm s (stemOffsets.inTable s 0) (stemOffsets.inTable s 1)

/-- The iterations of the loop of lines 2080 to 2110 from the first read past the table on, in
an execution in which these reads answer `beyond` and the loop ends at `numStems`: `s` is 3, 4
and 5. -/
def plant2.past (cm : CMath F) (beyond : Nat → Nat → F) : List (Stmt F) :=
  ((List.range numStems2).drop stemOffsetsRows).flatMap fun s =>
    plant2.iteration cm s (stemOffsets beyond s 0) (stemOffsets beyond s 1)

/-- The body of `RenderScene` from line 916 to its end as the source text reads, in source
order, the loops unrolled; `beyond` is what the reads past the table `stemOffsets` answer. -/
def script (cm : CMath F) (beyond : Nat → Nat → F) : List (Stmt F) :=
  part01 ++ part02 ++ part03 ++ part04 ++ part05 ++ part06 ++ part07 ++ part08 ++ part09 ++ part10 ++
  grassLeaves cm ⟨13, 5, -5⟩ ++ part11 ++
  grassLeaves cm ⟨12.4, 5, -3⟩ ++ part12 ++
  plant1 cm ++ plant2 cm beyond ++ part13 ++ part14

/-- The statements of `RenderScene` from line 916 up to the first read past the table
`stemOffsets`, the read `stemOffsets[3][0]` of line 2081 in the fourth iteration of the second
plant loop. -/
def scriptInBounds (cm : CMath F) : List (Stmt F) :=
  part01 ++ part02 ++ part03 ++ part04 ++ part05 ++ part06 ++ part07 ++ part08 ++ part09 ++ part10 ++
  grassLeaves cm ⟨13, 5, -5⟩ ++ part11 ++
  grassLeaves cm ⟨12.4, 5, -3⟩ ++ part12 ++
  plant1 cm ++ plant2.inBounds cm

/-- The statements of `RenderScene` from the first read past the table to the end of the
function, in an execution in which the reads past the table answer `beyond` and the loop ends
at `numStems`. -/
def scriptPast (cm : CMath F) (beyond : Nat → Nat → F) : List (Stmt F) :=
  plant2.past cm beyond ++ part13 ++ part14

/-- The five shared locals as declared at lines 908 to 912. `scaleXYZ` and `positionXYZ` are
declared without an initial value and assigned (lines 917 and 921) before they are first read;
the zero vector stands for their unread initial content. -/
def initialLocals : Locals F :=
  { scaleXYZ := ⟨0, 0, 0⟩
    XrotationDegrees := 0
    YrotationDegrees := 0
    ZrotationDegrees := 0
    positionXYZ := ⟨0, 0, 0⟩ }

end RenderScene

/-- Model of `RenderScene()`: the statements up to the light animation (`RenderScene.setup`),
then the statements of the body up to the first read past the table `stemOffsets`
(`RenderScene.scriptInBounds`). That read is undefined behaviour, and the source defines
nothing from there on: what the execution does is the argument `afterUndefinedRead`, which
receives the shared locals and the state reached and answers the state `RenderScene` returns
with, or `none` when it does not return. `timeValue` is the answer of `glfwGetTime()` and
`material` the content of the uninitialised local of `SetShaderMaterial`. The result is `none`
also when a null `m_pShaderManager` is dereferenced. -/
def RenderScene (cm : CMath F) (timeValue : F) (material : OBJECT_MATERIAL F)
    (afterUndefinedRead : RenderScene.Locals F × SceneManager F → Option (SceneManager F))
    (s : SceneManager F) : Option (SceneManager F) :=
  match RenderScene.setup cm timeValue s with
  | none => none
  | some s1 =>
    match RenderScene.run cm material (RenderScene.scriptInBounds cm)
        (RenderScene.initialLocals, s1) with
    | some st => afterUndefinedRead st
    | none => none

/-- One behaviour after the undefined read: the reads past the table answer the values
`beyond` and the execution goes on as the source text reads, so the second plant loop ends at
`s = 6`, the statements of lines 2113 to 2293 follow and `RenderScene` returns. A build that
compiles the loop as written behaves so; the source does not guarantee it. -/
def RenderScene.asWritten (cm : CMath F) (material : OBJECT_MATERIAL F)
    (beyond : Nat → Nat → F) :
    RenderScene.Locals F × SceneManager F → Option (SceneManager F) :=
  fun st =>
    match RenderScene.run cm material (RenderScene.scriptPast cm beyond) st with
    | some st2 => some st2.2
    | none => none

/-- Another behaviour after the undefined read: the execution does not return. -/
def RenderScene.neverReturns :
    RenderScene.Locals F × SceneManager F → Option (SceneManager F) :=
  fun _ => none

/-- Model of `RenderSceneWithShadows()`. The two calls of `RenderScene()`, the one inside
`RenderSceneFromLightPerspective()` and the one at the end, are the arguments `depthRun` and
`colorRun`. -/
def RenderSceneWithShadows (cm : CMath F)
    (depthRun colorRun : SceneManager F → Option (SceneManager F)) (s : SceneManager F) :
    Option (SceneManager F) :=
  match RenderSceneFromLightPerspective cm depthRun s with
  | none => none
  | some s1 =>
    let s2 : SceneManager F :=
      { s1 with gl := glClear true true (glViewport 0 0 s1.m_ScreenWidth s1.m_ScreenHeight s1.gl) }
    match s2.m_pShaderManager with
    | none => none
    | some sh =>
      let s3 : SceneManager F := { s2 with m_pShaderManager := some sh.use }
      match SetShaderLights cm s3 with
      | none => none
      | some s4 =>
        let s5 : SceneManager F :=
          { s4 with gl := glBindTexture s4.depthMap (glActiveTexture 1 s4.gl) }
        match s5.m_pShaderManager with
        | none => none
        | some sh5 =>
          let s6 : SceneManager F :=
            { s5 with m_pShaderManager := some (sh5.setSampler2DValue g_ShadowMapName 1) }
          colorRun (BindGLTextures s6)

/-! ## The materials of the scene -/

namespace DefineObjectMaterials

/-- The local `defaultMaterial` of `DefineObjectMaterials` (lines 235 to 244). -/
def defaultMaterial (tint : vec3 F) : OBJECT_MATERIAL F :=
  { tag := "default"
    ambientColor := ⟨1, 1, 1⟩
    ambientStrength := 0.1
    diffuseColor := ⟨1, 1, 1⟩
    specularColor := ⟨1, 1, 1⟩
    shininess := 32
    emissiveColor := ⟨0, 0, 0⟩
    tint := tint }

/-- The local `glowingOrangeMaterial` of `DefineObjectMaterials` (lines 246 to 255). -/
def glowingOrangeMaterial (tint : vec3 F) : OBJECT_MATERIAL F :=
  { tag := "glowing_orange"
    ambientColor := ⟨1, 0.5, 0⟩
    ambientStrength := 0.5
    diffuseColor := ⟨1, 0.5, 0⟩
    specularColor := ⟨1, 1, 1⟩
    shininess := 32
    emissiveColor := ⟨1, 0.5, 0⟩
    tint := tint }

/-- The local `floorMaterial` of `DefineObjectMaterials` (lines 257 to 266). -/
def floorMaterial (tint : vec3 F) : OBJECT_MATERIAL F :=
  { tag := "floor"
    ambientColor := ⟨117 / 255, 64 / 255, 28 / 255⟩
    ambientStrength := 0.1
    diffuseColor := ⟨117 / 255, 64 / 255, 28 / 255⟩
    specularColor := ⟨1, 1, 1⟩
    shininess := 32
    emissiveColor := ⟨0, 0, 0⟩
    tint := tint }

/-- The local `wallMaterial` of `DefineObjectMaterials` (lines 268 to 277). -/
def wallMaterial (tint : vec3 F) : OBJECT_MATERIAL F :=
  { tag := "wall"
    ambientColor := ⟨180 / 255, 180 / 255, 180 / 255⟩
    ambientStrength := 0.1
    diffuseColor := ⟨180 / 255, 180 / 255, 180 / 255⟩
    specularColor := ⟨1, 1, 1⟩
    shininess := 32
    emissiveColor := ⟨0, 0, 0⟩
    tint := tint }

/-- The local `ceilingMaterial` of `DefineObjectMaterials` (lines 279 to 288). -/
def ceilingMaterial (tint : vec3 F) : OBJECT_MATERIAL F :=
  { tag := "ceiling"
    ambientColor := ⟨90 / 255, 90 / 255, 90 / 255⟩
    ambientStrength := 0.1
    diffuseColor := ⟨90 / 255, 90 / 255, 90 / 255⟩
    specularColor := ⟨1, 1, 1⟩
    shininess := 32
    emissiveColor := ⟨0, 0, 0⟩
    tint := tint }

/-- The local `glowingBeamMaterial` of `DefineObjectMaterials` (lines 290 to 299). -/
def glowingBeamMaterial (tint : vec3 F) : OBJECT_MATERIAL F :=
  { tag := "glowing_beam"
    ambientColor := ⟨1, 0.5, 0⟩
    ambientStrength := 0.1
    diffuseColor := ⟨1, 0.5, 0⟩
    specularColor := ⟨1, 1, 1⟩
    shininess := 32
    emissiveColor := ⟨1, 0.5, 0⟩
    tint := tint }

/-- The local `sofaMaterial` of `DefineObjectMaterials` (lines 301 to 310). -/
def sofaMaterial (tint : vec3 F) : OBJECT_MATERIAL F :=
  { tag := "sofa"
    ambientColor := ⟨90 / 255, 90 / 255, 90 / 255⟩
    ambientStrength := 0.1
    diffuseColor := ⟨90 / 255, 90 / 255, 90 / 255⟩
    specularColor := ⟨1, 1, 1⟩
    shininess := 32
    emissiveColor := ⟨0, 0, 0⟩
    tint := tint }

/-- The local `sofaFeetMaterial` of `DefineObjectMaterials` (lines 312 to 321). -/
def sofaFeetMaterial (tint : vec3 F) : OBJECT_MATERIAL F :=
  { tag := "sofa_feet"
    ambientColor := ⟨60 / 255, 60 / 255, 60 / 255⟩
    ambientStrength := 0.1
    diffuseColor := ⟨60 / 255, 60 / 255, 60 / 255⟩
    specularColor := ⟨1, 1, 1⟩
    shininess := 32
    emissiveColor := ⟨0, 0, 0⟩
    tint := tint }

/-- The local `rugMaterial` of `DefineObjectMaterials` (lines 323 to 333). -/
def rugMaterial (tint : vec3 F) : OBJECT_MATERIAL F :=
  { tag := "rug"
    ambientColor := ⟨180 / 255, 180 / 255, 180 / 255⟩
    ambientStrength := 0.1
    diffuseColor := ⟨180 / 255, 180 / 255, 180 / 255⟩
    specularColor := ⟨1, 1, 1⟩
    shininess := 32
    emissiveColor := ⟨0, 0, 0⟩
    tint := ⟨0.9, 0.9, 0.9⟩ }

/-- The local `drawerMaterial` of `DefineObjectMaterials` (lines 335 to 344). -/
def drawerMaterial (tint : vec3 F) : OBJECT_MATERIAL F :=
  { tag := "drawer"
    ambientColor := ⟨180 / 255, 180 / 255, 180 / 255⟩
    ambientStrength := 0.1
    diffuseColor := ⟨180 / 255, 180 / 255, 180 / 255⟩
    specularColor := ⟨1, 1, 1⟩
    shininess := 32
    emissiveColor := ⟨0, 0, 0⟩
    tint := tint }

/-- The local `spaceHeaterMaterial` of `DefineObjectMaterials` (lines 346 to 355). -/
def spaceHeaterMaterial (tint : vec3 F) : OBJECT_MATERIAL F :=
  { tag := "space_heater"
    ambientColor := ⟨35 / 255, 35 / 255, 35 / 255⟩
    ambientStrength := 0.1
    diffuseColor := ⟨35 / 255, 35 / 255, 35 / 255⟩
    specularColor := ⟨1, 1, 1⟩
    shininess := 32
    emissiveColor := ⟨0, 0, 0⟩
    tint := tint }

/-- The local `windowGlassMaterial` of `DefineObjectMaterials` (lines 357 to 366). -/
def windowGlassMaterial (tint : vec3 F) : OBJECT_MATERIAL F :=
  { tag := "window_glass"
    ambientColor := ⟨137 / 255, 196 / 255, 244 / 255⟩
    ambientStrength := 0.1
    diffuseColor := ⟨137 / 255, 196 / 255, 244 / 255⟩
    specularColor := ⟨1, 1, 1⟩
    shininess := 32
    emissiveColor := ⟨0.7, 0.7, 0.7⟩
    tint := tint }

/-- The local `windowMaterial` of `DefineObjectMaterials` (lines 369 to 378). -/
def windowMaterial (tint : vec3 F) : OBJECT_MATERIAL F :=
  { tag := "window"
    ambientColor := ⟨180 / 255, 180 / 255, 180 / 255⟩
    ambientStrength := 0.1
    diffuseColor := ⟨180 / 255, 180 / 255, 180 / 255⟩
    specularColor := ⟨1, 1, 1⟩
    shininess := 0
    emissiveColor := ⟨0, 0, 0⟩
    tint := tint }

/-- The local `beamMaterial` of `DefineObjectMaterials` (lines 380 to 389). -/
def beamMaterial (tint : vec3 F) : OBJECT_MATERIAL F :=
  { tag := "beam"
    ambientColor := ⟨180 / 255, 180 / 255, 180 / 255⟩
    ambientStrength := 0.1
    diffuseColor := ⟨180 / 255, 180 / 255, 180 / 255⟩
    specularColor := ⟨1, 1, 1⟩
    shininess := 32
    emissiveColor := ⟨0, 0, 0⟩
    tint := tint }

/-- The local `lampMaterial` of `DefineObjectMaterials` (lines 391 to 400). -/
def lampMaterial (tint : vec3 F) : OBJECT_MATERIAL F :=
  { tag := "lamp"
    ambientColor := ⟨180 / 255, 180 / 255, 180 / 255⟩
    ambientStrength := 0.1
    diffuseColor := ⟨180 / 255, 180 / 255, 180 / 255⟩
    specularColor := ⟨1, 1, 1⟩
    shininess := 100
    emissiveColor := ⟨0, 0, 0⟩
    tint := tint }

/-- The local `lamplitMaterial` of `DefineObjectMaterials` (lines 402 to 411). -/
def lamplitMaterial (tint : vec3 F) : OBJECT_MATERIAL F :=
  { tag := "lamp_light"
    ambientColor := ⟨1, 0.6, 0.4⟩
    ambientStrength := 0.1
    diffuseColor := ⟨1, 0.6, 0.4⟩
    specularColor := ⟨1, 1, 1⟩
    shininess := 10
    emissiveColor := ⟨1, 0.6, 0.4⟩
    tint := tint }

/-- The local `frameMaterial` of `DefineObjectMaterials` (lines 414 to 422). -/
def frameMaterial (tint : vec3 F) : OBJECT_MATERIAL F :=
  { tag := "frame_material"
    ambientColor := ⟨30 / 255, 30 / 255, 30 / 255⟩
    ambientStrength := 0.1
    diffuseColor := ⟨30 / 255, 30 / 255, 30 / 255⟩
    specularColor := ⟨0.5, 0.5, 0.5⟩
    shininess := 0
    emissiveColor := ⟨0, 0, 0⟩
    tint := tint }

/-- The local `canvasMaterial` of `DefineObjectMaterials` (lines 425 to 433). -/
def canvasMaterial (tint : vec3 F) : OBJECT_MATERIAL F :=
  { tag := "canvas_material"
    ambientColor := ⟨1, 1, 1⟩
    ambientStrength := 0.1
    diffuseColor := ⟨1, 1, 1⟩
    specularColor := ⟨0.5, 0.5, 0.5⟩
    shininess := 0
    emissiveColor := ⟨0.01, 0.01, 0.01⟩
    tint := tint }

/-- The local `potMaterial` of `DefineObjectMaterials` (lines 435 to 445). -/
def potMaterial (tint : vec3 F) : OBJECT_MATERIAL F :=
  { tag := "pot_material"
    ambientColor := ⟨0.5, 0.5, 0.5⟩
    ambientStrength := 0.1
    diffuseColor := ⟨0.5, 0.5, 0.5⟩
    specularColor := ⟨1, 1, 1⟩
    shininess := 64
    emissiveColor := ⟨0, 0, 0⟩
    tint := tint }

/-- The local `stemMaterial` of `DefineObjectMaterials` (lines 447 to 456). -/
def stemMaterial (tint : vec3 F) : OBJECT_MATERIAL F :=
  { tag := "stem_material"
    ambientColor := ⟨0.13, 0.55, 0.13⟩
    ambientStrength := 0.1
    diffuseColor := ⟨0.13, 0.55, 0.13⟩
    specularColor := ⟨0.2, 0.2, 0.2⟩
    shininess := 16
    emissiveColor := ⟨0, 0, 0⟩
    tint := tint }

/-- The local `leafMaterial` of `DefineObjectMaterials` (lines 458 to 467). -/
def leafMaterial (tint : vec3 F) : OBJECT_MATERIAL F :=
  { tag := "leaf_material"
    ambientColor := ⟨0, 1, 0⟩
    ambientStrength := 0.1
    diffuseColor := ⟨0, 1, 0⟩
    specularColor := ⟨0.2, 0.2, 0.2⟩
    shininess := 16
    emissiveColor := ⟨0, 0, 0⟩
    tint := tint }

end DefineObjectMaterials

/-- Model of `DefineObjectMaterials()`: the 21 materials are appended in source order. `tint`
is the content of the field `tint` of the locals that the source does not assign (all but
`rugMaterial`). -/
def DefineObjectMaterials (tint : vec3 F) (s : SceneManager F) : SceneManager F :=
  { s with
    m_objectMaterials := s.m_objectMaterials ++
     [DefineObjectMaterials.defaultMaterial tint,
      DefineObjectMaterials.glowingOrangeMaterial tint,
      DefineObjectMaterials.floorMaterial tint,
      DefineObjectMaterials.wallMaterial tint,
      DefineObjectMaterials.ceilingMaterial tint,
      DefineObjectMaterials.glowingBeamMaterial tint,
      DefineObjectMaterials.sofaMaterial tint,
      DefineObjectMaterials.sofaFeetMaterial tint,
      DefineObjectMaterials.rugMaterial tint,
      DefineObjectMaterials.drawerMaterial tint,
      DefineObjectMaterials.spaceHeaterMaterial tint,
      DefineObjectMaterials.windowGlassMaterial tint,
      DefineObjectMaterials.windowMaterial tint,
      DefineObjectMaterials.beamMaterial tint,
      DefineObjectMaterials.lampMaterial tint,
      DefineObjectMaterials.lamplitMaterial tint,
      DefineObjectMaterials.frameMaterial tint,
      DefineObjectMaterials.canvasMaterial tint,
      DefineObjectMaterials.potMaterial tint,
      DefineObjectMaterials.stemMaterial tint,
      DefineObjectMaterials.leafMaterial tint] }

/-- Model of `PrepareScene()`: `LoadSceneTextures()`, then `DefineObjectMaterials()`. The six
`Load<Shape>Mesh()` calls that follow act on the mesh library only, of which the state keeps
nothing. -/
def PrepareScene (stbi_load : String → Option stbi_image) (glGenTextures : Nat → GLuint)
    (tint : vec3 F) (s : SceneManager F) : SceneManager F :=
  DefineObjectMaterials tint (LoadSceneTextures stbi_load glGenTextures s)

end Arithmetic

/-- The point `p` is a convex combination of `a` and `b`: it lies on the segment between
them. -/
def onSegment [LinearOrderedField F] (a b p : vec3 F) : Prop :=
  ∃ w : F, 0 ≤ w ∧ w ≤ 1 ∧ p = a * (1 - w) + b * w

/-- A scene like `emptyScene` but with a shader manager attached that has received no write. -/
def shaderScene (F : Type) : SceneManager F :=
  { emptyScene F with m_pShaderManager := some { writes := [] } }

/-- The name of the `bActive` uniform of point light `i`. -/
def pointLightActiveName (i : Nat) : String :=
  "pointLights[" ++ toString i ++ "].bActive"

/-- The `bActive` flag of point light `i` as last written, `none` when it was never written. -/
def pointLightActive (sh : ShaderManager F) (i : Nat) : Option Bool :=
  match sh.uniform (pointLightActiveName i) with
  | some (UniformValue.boolValue b) => some b
  | _ => none

/-- The `bActive` flags of the point lights 0 to 5. -/
def pointLightFlags (sh : ShaderManager F) : List (Option Bool) :=
  (List.range TOTAL_LIGHTS).map (pointLightActive sh)

/-- Those among the writes `ws` that go to the `bActive` uniform of a point light 0 to 5. -/
def pointLightActiveWrites (ws : List (String × UniformValue F)) :
    List (String × UniformValue F) :=
  ws.filter (fun w => decide (w.1 ∈ (List.range TOTAL_LIGHTS).map pointLightActiveName))

/-- The uniform writes one call of `SetShaderLights` performs, most recent first: what the
call leaves in a shader manager that had received no write. -/
def SetShaderLights.writes [Field F] (cm : CMath F) : List (String × UniformValue F) :=
  match SetShaderLights cm (shaderScene F) with
  | some s2 =>
    match s2.m_pShaderManager with
    | some sh2 => sh2.writes
    | none => []
  | none => []

/-! ## Notions used to state the properties of the scene script -/

/-- The value of the uniform `name` as last written through a `glUniform*` call, `none` when no
such call named it. -/
def programUniform (s : SceneManager F) (name : String) : Option (UniformValue F) :=
  (s.programUniforms.find? (fun w => decide (w.1 = name))).map Prod.snd

/-- The value of the uniform `name` as last written through the shader manager, `none` when
there is no shader manager or it received no write of that name. -/
def shaderUniform (s : SceneManager F) (name : String) : Option (UniformValue F) :=
  s.m_pShaderManager.bind (fun sh => sh.uniform name)

namespace RenderScene

/-- The material tags the statements pass to `SetShaderMaterial`, in order. -/
def materialTags : List (Stmt F) → List String
  | [] => []
  | Stmt.SetShaderMaterial tag :: rest => tag :: materialTags rest
  | _ :: rest => materialTags rest

/-- The uniform writes the statements issue through `glUniform*` calls, in order. -/
def programWrites : List (Stmt F) → List (String × UniformValue F)
  | [] => []
  | Stmt.SetUseLighting b :: rest =>
    ("bUseLighting", UniformValue.intValue (if b then 1 else 0)) :: programWrites rest
  | Stmt.SetTextureOffset x y :: rest =>
    ("textureOffset", UniformValue.vec2Value ⟨x, y⟩) :: programWrites rest
  | Stmt.glUniform1f name v :: rest => (name, UniformValue.floatValue v) :: programWrites rest
  | _ :: rest => programWrites rest

/-- The shapes of the draw calls among the statements, in order. -/
def meshes : List (Stmt F) → List Mesh
  | [] => []
  | Stmt.Draw mesh :: rest => mesh :: meshes rest
  | _ :: rest => meshes rest

variable [Field F]

/-- The value `SetTransformations` leaves in the `model` uniform for the given arguments: what
the call writes to a shader manager that had received no write. -/
def modelOf (cm : CMath F) (scaleXYZ : vec3 F) (x y z : F) (positionXYZ : vec3 F) :
    Option (UniformValue F) :=
  shaderUniform (SetTransformations cm scaleXYZ x y z positionXYZ (shaderScene F)) g_ModelName

/-- The effect of one statement on the shared locals and on the value of the `model`
uniform. -/
def Stmt.track (cm : CMath F) :
    Stmt F → Locals F × Option (UniformValue F) → Locals F × Option (UniformValue F)
  | Stmt.assignScaleXYZ v, (l, m) => ({ l with scaleXYZ := v }, m)
  | Stmt.assignXrotationDegrees v, (l, m) => ({ l with XrotationDegrees := v }, m)
  | Stmt.assignYrotationDegrees v, (l, m) => ({ l with YrotationDegrees := v }, m)
  | Stmt.assignZrotationDegrees v, (l, m) => ({ l with ZrotationDegrees := v }, m)
  | Stmt.assignPositionXYZ v, (l, m) => ({ l with positionXYZ := v }, m)
  | Stmt.SetTransformations, (l, _) =>
    (l, modelOf cm l.scaleXYZ l.XrotationDegrees l.YrotationDegrees l.ZrotationDegrees
      l.positionXYZ)
  | Stmt.SetTransformationsWith scale position, (l, _) =>
    (l, modelOf cm scale l.XrotationDegrees l.YrotationDegrees l.ZrotationDegrees position)
  | Stmt.SetTransformationsOf scale x y z position, (l, _) =>
    (l, modelOf cm scale x y z position)
  | _, st => st

/-- The shared locals and the `model` uniform after a sequence of statements. -/
def trackAll (cm : CMath F) :
    List (Stmt F) → Locals F × Option (UniformValue F) → Locals F × Option (UniformValue F)
  | [], st => st
  | c :: rest, st => trackAll cm rest (c.track cm st)

/-- The draw calls of a sequence of statements, each with the value the `model` uniform has
when it is issued; the argument is the locals and the `model` uniform at the start. -/
def drawsFrom (cm : CMath F) :
    List (Stmt F) → Locals F × Option (UniformValue F) → List (Mesh × Option (UniformValue F))
  | [], _ => []
  | Stmt.Draw mesh :: rest, st => (mesh, st.2) :: drawsFrom cm rest st
  | c :: rest, st => drawsFrom cm rest (c.track cm st)

/-- The draw calls of the scene script as the source text reads, with their model matrices,
for a `model` uniform that was never written before the script starts. -/
def sceneDraws (cm : CMath F) (beyond : Nat → Nat → F) :
    List (Mesh × Option (UniformValue F)) :=
  drawsFrom cm (script cm beyond) (initialLocals, none)

/-- The draw calls of the scene script up to the first read past the table `stemOffsets`, with
their model matrices. -/
def drawsInBounds (cm : CMath F) : List (Mesh × Option (UniformValue F)) :=
  drawsFrom cm (scriptInBounds cm) (initialLocals, none)

end RenderScene

end SceneManager

/-! # ViewManager: camera speed and orthogonal views

A shallow embedding of `Mouse_Scroll_Callback` and `ProcessKeyboardEvents` of
`3Dscene/Source/ViewManager.cpp`. The file-level globals the two functions read or write are
the fields of `ViewManager.State`. -/

namespace ViewManager

open SceneManager (vec3)

/-- The enum `OrthogonalView`. -/
inductive OrthogonalView where
  | TOP_DOWN
  | SIDE
  | FRONT
  deriving DecidableEq, Repr

/-- Modelled from the spec: the class `Camera` is declared outside the sources. The fields are
the ones the constructor of `ViewManager` assigns. -/
structure Camera (F : Type) where
  Position : vec3 F
  Front : vec3 F
  Up : vec3 F
  Zoom : F
  MovementSpeed : F
  deriving DecidableEq, Repr

/-- Modelled from the spec: the enum of camera movements that `ProcessKeyboardEvents` passes to
`Camera::ProcessKeyboard`, declared with the class `Camera` outside the sources. -/
inductive Camera_Movement where
  | FORWARD
  | BACKWARD
  | LEFT
  | RIGHT
  | UP
  | DOWN
  deriving DecidableEq, Repr

/-- What `glfwGetKey(m_pWindow, key) == GLFW_PRESS` answers for each key that
`ProcessKeyboardEvents` polls. -/
structure Keys where
  P : Bool
  O : Bool
  L : Bool
  ESCAPE : Bool
  W : Bool
  S : Bool
  A : Bool
  D : Bool
  Q : Bool
  E : Bool
  deriving DecidableEq, Repr

/-- The globals of `ViewManager.cpp` that the two functions use: the camera `*g_pCamera` (which
the constructor allocates), `currentOrthogonalView`, `bOrthographicProjection`, `gDeltaTime`,
and the close flag of the window `m_pWindow`. -/
structure State (F : Type) where
  g_pCamera : Camera F
  currentOrthogonalView : OrthogonalView
  bOrthographicProjection : Bool
  gDeltaTime : F
  windowShouldClose : Bool
  deriving DecidableEq, Repr

section Functions

variable {F : Type} [LinearOrderedField F]

/-- The constant `SPEED_INCREMENT`. -/
def SPEED_INCREMENT : F := 1

/-- Model of `Mouse_Scroll_Callback(window, xOffset, yOffset)`. -/
def Mouse_Scroll_Callback (xOffset yOffset : F) (st : State F) : State F :=
  let st1 : State F :=
    { st with
      g_pCamera :=
        { st.g_pCamera with
          MovementSpeed := st.g_pCamera.MovementSpeed + yOffset * SPEED_INCREMENT } }
  if st1.g_pCamera.MovementSpeed < SPEED_INCREMENT then
    { st1 with g_pCamera := { st1.g_pCamera with MovementSpeed := SPEED_INCREMENT } }
  else st1

/-- Model of `ProcessKeyboardEvents()`. `keys` is what `glfwGetKey` answers and
`ProcessKeyboard` stands for `Camera::ProcessKeyboard`, which is defined outside the
sources. -/
def ProcessKeyboardEvents (ProcessKeyboard : Camera_Movement → F → Camera F → Camera F)
    (keys : Keys) (st : State F) : State F :=
  let st : State F :=
    if keys.P then
      { st with
        bOrthographicProjection := false
        g_pCamera := { st.g_pCamera with Position := ⟨0.5, 5.5, 10⟩, Front := ⟨0, 0, -1⟩ } }
    else st
  let st : State F :=
    if keys.O then
      { st with
        bOrthographicProjection := true
        currentOrthogonalView := OrthogonalView.TOP_DOWN
        g_pCamera := { st.g_pCamera with Position := ⟨0, 20, 0⟩, Front := ⟨0, -1, 0⟩ } }
    else st
  let st : State F :=
    if keys.L && st.bOrthographicProjection then
      match st.currentOrthogonalView with
      | OrthogonalView.TOP_DOWN =>
        { st with
          currentOrthogonalView := OrthogonalView.SIDE
          g_pCamera := { st.g_pCamera with Position := ⟨20, 5, 0⟩, Front := ⟨-1, 0, 0⟩ } }
      | OrthogonalView.SIDE =>
        { st with
          currentOrthogonalView := OrthogonalView.FRONT
          g_pCamera := { st.g_pCamera with Position := ⟨0, 5, 20⟩, Front := ⟨0, 0, -1⟩ } }
      | OrthogonalView.FRONT =>
        { st with
          currentOrthogonalView := OrthogonalView.TOP_DOWN
          g_pCamera := { st.g_pCamera with Position := ⟨0, 20, 0⟩, Front := ⟨0, -1, 0⟩ } }
    else st
  let st : State F := if keys.ESCAPE then { st with windowShouldClose := true } else st
  let st : State F :=
    if keys.W then
      { st with g_pCamera := ProcessKeyboard Camera_Movement.FORWARD st.gDeltaTime st.g_pCamera }
    else st
  let st : State F :=
    if keys.S then
      { st with g_pCamera := ProcessKeyboard Camera_Movement.BACKWARD st.gDeltaTime st.g_pCamera }
    else st
  let st : State F :=
    if keys.A then
      { st with g_pCamera := ProcessKeyboard Camera_Movement.LEFT st.gDeltaTime st.g_pCamera }
    else st
  let st : State F :=
    if keys.D then
      { st with g_pCamera := ProcessKeyboard Camera_Movement.RIGHT st.gDeltaTime st.g_pCamera }
    else st
  let st : State F :=
    if keys.Q then
      { st with g_pCamera := ProcessKeyboard Camera_Movement.UP st.gDeltaTime st.g_pCamera }
    else st
  let st : State F :=
    if keys.E then
      { st with g_pCamera := ProcessKeyboard Camera_Movement.DOWN st.gDeltaTime st.g_pCamera }
    else st
  st

/-- The camera position and front direction that `ProcessKeyboardEvents` sets for a view. -/
def viewPreset : OrthogonalView → vec3 F × vec3 F
  | OrthogonalView.TOP_DOWN => (⟨0, 20, 0⟩, ⟨0, -1, 0⟩)
  | OrthogonalView.SIDE => (⟨20, 5, 0⟩, ⟨-1, 0, 0⟩)
  | OrthogonalView.FRONT => (⟨0, 5, 20⟩, ⟨0, 0, -1⟩)

/-- The view that follows `v` in the cycle of the L key. -/
def nextView : OrthogonalView → OrthogonalView
  | OrthogonalView.TOP_DOWN => OrthogonalView.SIDE
  | OrthogonalView.SIDE => OrthogonalView.FRONT
  | OrthogonalView.FRONT => OrthogonalView.TOP_DOWN

/-- No key is pressed. -/
def noKeys : Keys :=
  { P := false, O := false, L := false, ESCAPE := false, W := false, S := false, A := false,
    D := false, Q := false, E := false }

/-- Only the L key is pressed. -/
def keyL : Keys := { noKeys with L := true }

/-- Only the O key is pressed. -/
def keyO : Keys := { noKeys with O := true }

/-- A sequence of scroll events (`xOffset`, `yOffset`), delivered in order. -/
def scrollAll : List (F × F) → State F → State F
  | [], st => st
  | e :: rest, st => scrollAll rest (Mouse_Scroll_Callback e.1 e.2 st)

/-- The state the constructor of `ViewManager` leaves: the default camera, speed 20,
perspective projection, top-down as the stored orthogonal view. -/
def initialState : State F :=
  { g_pCamera :=
      { Position := ⟨0, 5, 12⟩, Front := ⟨0, -0.5, -2⟩, Up := ⟨0, 1, 0⟩, Zoom := 80,
        MovementSpeed := 20 }
    currentOrthogonalView := OrthogonalView.TOP_DOWN
    bOrthographicProjection := false
    gDeltaTime := 0
    windowShouldClose := false }

end Functions

end ViewManager

namespace SceneManager

variable {F : Type}

/-! ## Lemmas on the lookup loops -/

theorem FindTextureSlot.loop_eq_neg_one_iff (tag : String) (l : List TEXTURE_INFO) (i : Nat) :
    FindTextureSlot.loop tag l i = -1 ↔ ∀ e ∈ l, e.tag ≠ tag := by
  induction l generalizing i with
  | nil => simp [FindTextureSlot.loop]
  | cons e rest ih =>
    by_cases h : e.tag = tag
    · have hi : ¬ ((i : Int) = -1) := by omega
      simp [FindTextureSlot.loop, h, hi]
    · simp [FindTextureSlot.loop, h, ih]

theorem FindTextureSlot.loop_bounds (tag : String) (l : List TEXTURE_INFO) (i : Nat) :
    FindTextureSlot.loop tag l i = -1 ∨
      ((i : Int) ≤ FindTextureSlot.loop tag l i ∧
        FindTextureSlot.loop tag l i < (i : Int) + (l.length : Int)) := by
  induction l generalizing i with
  | nil => simp [FindTextureSlot.loop]
  | cons e rest ih =>
    by_cases h : e.tag = tag
    · right
      simp [FindTextureSlot.loop, h]
    · simp only [FindTextureSlot.loop, h, if_false]
      rcases ih (i + 1) with h1 | ⟨h1, h2⟩
      · exact Or.inl h1
      · right
        simp only [List.length_cons]
        push_cast at h1 h2 ⊢
        omega

theorem FindTextureSlot.loop_eq_iff (tag : String) (l : List TEXTURE_INFO) (i n : Nat) :
    FindTextureSlot.loop tag l i = (n : Int) ↔
      ∃ k, n = i + k ∧ (l[k]?).map (fun e => e.tag) = some tag ∧
        ∀ j, j < k → (l[j]?).map (fun e => e.tag) ≠ some tag := by
  induction l generalizing i with
  | nil => simp [FindTextureSlot.loop]
  | cons e rest ih =>
    by_cases h : e.tag = tag
    · simp only [FindTextureSlot.loop, h, if_true]
      constructor
      · intro hn
        refine ⟨0, by omega, by simp [h], ?_⟩
        intro j hj
        omega
      · rintro ⟨k, hk, _, hfirst⟩
        rcases Nat.eq_zero_or_pos k with h0 | hpos
        · subst h0
          omega
        · exact absurd (by simp [h]) (hfirst 0 hpos)
    · simp only [FindTextureSlot.loop, h, if_false, ih]
      constructor
      · rintro ⟨k, hk, hat, hfirst⟩
        refine ⟨k + 1, by omega, by simpa using hat, ?_⟩
        intro j hj
        cases j with
        | zero => simpa using h
        | succ j => simpa using hfirst j (by omega)
      · rintro ⟨k, hk, hat, hfirst⟩
        cases k with
        | zero => simp [h] at hat
        | succ k =>
          refine ⟨k, by omega, by simpa using hat, ?_⟩
          intro j hj
          simpa using hfirst (j + 1) (by omega)

theorem FindTextureSlot.loop_append (tag : String) (l l2 : List TEXTURE_INFO) (i : Nat) :
    FindTextureSlot.loop tag (l ++ l2) i =
      if FindTextureSlot.loop tag l i = -1 then FindTextureSlot.loop tag l2 (i + l.length)
      else FindTextureSlot.loop tag l i := by
  induction l generalizing i with
  | nil => simp [FindTextureSlot.loop]
  | cons e rest ih =>
    by_cases h : e.tag = tag
    · have hi : ¬ ((i : Int) = -1) := by omega
      simp [FindTextureSlot.loop, h, hi]
    · have hlen : i + 1 + rest.length = i + (rest.length + 1) := by omega
      have hrec := ih (i + 1)
      rw [hlen] at hrec
      simpa [FindTextureSlot.loop, h] using hrec

theorem FindTexture_loops_agree (tag : String) (l : List TEXTURE_INFO) (i : Nat) :
    (FindTextureSlot.loop tag l i = -1 → FindTextureID.loop tag l = -1) ∧
      ∀ k : Nat, FindTextureSlot.loop tag l i = ((i + k : Nat) : Int) →
        ∃ e, l[k]? = some e ∧ e.tag = tag ∧ FindTextureID.loop tag l = GLuint.toInt e.ID := by
  induction l generalizing i with
  | nil =>
    refine ⟨fun _ => rfl, ?_⟩
    intro k hk
    simp only [FindTextureSlot.loop] at hk
    omega
  | cons e rest ih =>
    by_cases h : e.tag = tag
    · simp only [FindTextureSlot.loop, FindTextureID.loop, h, if_true]
      refine ⟨fun hi => by omega, ?_⟩
      intro k hk
      have hk0 : k = 0 := by omega
      subst hk0
      exact ⟨e, by simp, h, rfl⟩
    · simp only [FindTextureSlot.loop, FindTextureID.loop, h, if_false]
      refine ⟨(ih (i + 1)).1, ?_⟩
      intro k hk
      cases k with
      | zero =>
        rcases FindTextureSlot.loop_bounds tag rest (i + 1) with hb | ⟨hb, _⟩
        · omega
        · push_cast at hb hk
          omega
      | succ k =>
        have hk2 : FindTextureSlot.loop tag rest (i + 1) = ((i + 1 + k : Nat) : Int) := by
          rw [hk]
          push_cast
          omega
        obtain ⟨e2, he2, htag, hid⟩ := (ih (i + 1)).2 k hk2
        exact ⟨e2, by simpa using he2, htag, hid⟩

theorem CreateGLTexture_result (filename tag : String) (image : Option stbi_image)
    (textureID : GLuint) (s : SceneManager F) :
    (CreateGLTexture filename tag image textureID s).1 = loadSucceeds image := by
  cases image with
  | none => rfl
  | some img =>
    by_cases h : img.colorChannels = 3 ∨ img.colorChannels = 4
    · simp [CreateGLTexture, loadSucceeds, h]
    · simp [CreateGLTexture, loadSucceeds, h]

theorem CreateGLTexture_textures (filename tag : String) (image : Option stbi_image)
    (textureID : GLuint) (s : SceneManager F) :
    (CreateGLTexture filename tag image textureID s).2.m_textureIDs =
      if loadSucceeds image then s.m_textureIDs ++ [{ tag := tag, ID := textureID }]
      else s.m_textureIDs := by
  cases image with
  | none => rfl
  | some img =>
    by_cases h : img.colorChannels = 3 ∨ img.colorChannels = 4
    · simp [CreateGLTexture, loadSucceeds, h]
    · simp [CreateGLTexture, loadSucceeds, h]

/-! ## Texture registry: loading -/

/-- C1, as stated, fails: in the registry `LoadSceneTextures` has built after five loads, the
sixth call (`"textures/roof.jpg"`, tag `"texture4"`, a three-channel image) returns true, yet
`FindTextureSlot "texture4"` is 3 afterwards, not the count 5 of textures registered before
the call. -/
theorem C1_counterexample :
    (CreateGLTexture "textures/roof.jpg" "texture4" (allRGB "textures/roof.jpg") 6
        afterFiveLoads).1 = true ∧
      m_loadedTextures afterFiveLoads = 5 ∧
      FindTextureSlot (CreateGLTexture "textures/roof.jpg" "texture4"
        (allRGB "textures/roof.jpg") 6 afterFiveLoads).2 "texture4" = 3 ∧
      FindTextureSlot (CreateGLTexture "textures/roof.jpg" "texture4"
        (allRGB "textures/roof.jpg") 6 afterFiveLoads).2 "texture4"
        ≠ m_loadedTextures afterFiveLoads := by
  decide

/-- C1 (amended): when the image decodes with 3 or 4 channels, `CreateGLTexture` returns true,
raises the registered-texture count by one and stores the entry at the index equal to the
previous count. Afterwards `FindTextureSlot tag` is non-negative; it equals the previous count
when the tag was not registered before the call, and it is still the earlier (smaller) slot
when the tag was already registered. -/
theorem C1_load_success_slot (s : SceneManager F) (filename tag : String) (img : stbi_image)
    (textureID : GLuint) (hch : img.colorChannels = 3 ∨ img.colorChannels = 4) :
    (CreateGLTexture filename tag (some img) textureID s).1 = true ∧
      m_loadedTextures (CreateGLTexture filename tag (some img) textureID s).2
        = m_loadedTextures s + 1 ∧
      (CreateGLTexture filename tag (some img) textureID s).2.m_textureIDs
        = s.m_textureIDs ++ [{ tag := tag, ID := textureID }] ∧
      0 ≤ FindTextureSlot (CreateGLTexture filename tag (some img) textureID s).2 tag ∧
      (FindTextureSlot s tag = -1 →
        FindTextureSlot (CreateGLTexture filename tag (some img) textureID s).2 tag
          = m_loadedTextures s) ∧
      (FindTextureSlot s tag ≠ -1 →
        FindTextureSlot (CreateGLTexture filename tag (some img) textureID s).2 tag
          = FindTextureSlot s tag ∧
        FindTextureSlot s tag < m_loadedTextures s) := by
  have hsucc : loadSucceeds (some img) = true := by simp [loadSucceeds, hch]
  have hres := CreateGLTexture_result filename tag (some img) textureID s
  have htex := CreateGLTexture_textures filename tag (some img) textureID s
  rw [hsucc] at hres
  rw [hsucc, if_pos rfl] at htex
  have hnew : FindTextureSlot.loop tag [({ tag := tag, ID := textureID } : TEXTURE_INFO)]
      (0 + s.m_textureIDs.length) = (s.m_textureIDs.length : Int) := by
    simp [FindTextureSlot.loop]
  have happ := FindTextureSlot.loop_append tag s.m_textureIDs
    [({ tag := tag, ID := textureID } : TEXTURE_INFO)] 0
  rw [hnew] at happ
  refine ⟨hres, ?_, htex, ?_, ?_, ?_⟩
  · simp [m_loadedTextures, htex]
  · unfold FindTextureSlot
    rw [htex, happ]
    split
    · exact Int.natCast_nonneg _
    · rcases FindTextureSlot.loop_bounds tag s.m_textureIDs 0 with hb | ⟨hb, _⟩
      · contradiction
      · simpa using hb
  · intro hmiss
    unfold FindTextureSlot at hmiss ⊢
    rw [htex, happ, if_pos hmiss]
    rfl
  · intro hhit
    unfold FindTextureSlot at hhit ⊢
    rw [htex, happ, if_neg hhit]
    refine ⟨rfl, ?_⟩
    rcases FindTextureSlot.loop_bounds tag s.m_textureIDs 0 with hb | ⟨_, hb⟩
    · contradiction
    · simpa [m_loadedTextures] using hb

/-- Witness for `C1_load_success_slot`: a first load of `"texture1"` into the empty registry. -/
theorem C1_load_success_slot_witness :
    ((⟨64, 64, 3⟩ : stbi_image).colorChannels = 3 ∨
        (⟨64, 64, 3⟩ : stbi_image).colorChannels = 4) ∧
      (CreateGLTexture "textures/floor.jpg" "texture1" (some ⟨64, 64, 3⟩) 1
        (emptyScene Int)).1 = true ∧
      FindTextureSlot (CreateGLTexture "textures/floor.jpg" "texture1" (some ⟨64, 64, 3⟩) 1
        (emptyScene Int)).2 "texture1" = m_loadedTextures (emptyScene Int) :=
  ⟨Or.inl rfl,
    (C1_load_success_slot (emptyScene Int) "textures/floor.jpg" "texture1" ⟨64, 64, 3⟩ 1
      (Or.inl rfl)).1,
    (C1_load_success_slot (emptyScene Int) "textures/floor.jpg" "texture1" ⟨64, 64, 3⟩ 1
      (Or.inl rfl)).2.2.2.2.1 (by decide)⟩

/-- C2: a load that fails, because the image cannot be decoded or reports a channel count other
than 3 or 4, returns false and leaves the registry as it was: the entries and their count are
unchanged, and `FindTextureSlot` and `FindTextureID` answer as before for every tag. -/
theorem C2_failed_load_leaves_registry (s : SceneManager F) (filename tag : String)
    (image : Option stbi_image) (textureID : GLuint)
    (hfail : image = none ∨
      ∃ img, image = some img ∧ img.colorChannels ≠ 3 ∧ img.colorChannels ≠ 4) :
    (CreateGLTexture filename tag image textureID s).1 = false ∧
      (CreateGLTexture filename tag image textureID s).2.m_textureIDs = s.m_textureIDs ∧
      m_loadedTextures (CreateGLTexture filename tag image textureID s).2
        = m_loadedTextures s ∧
      (∀ t, FindTextureSlot (CreateGLTexture filename tag image textureID s).2 t
        = FindTextureSlot s t) ∧
      (∀ t, FindTextureID (CreateGLTexture filename tag image textureID s).2 t
        = FindTextureID s t) := by
  have hsucc : loadSucceeds image = false := by
    rcases hfail with h | ⟨img, h, h3, h4⟩
    · subst h
      rfl
    · subst h
      simp [loadSucceeds, h3, h4]
  have hres := CreateGLTexture_result filename tag image textureID s
  have htex := CreateGLTexture_textures filename tag image textureID s
  rw [hsucc] at hres
  rw [hsucc] at htex
  simp only [Bool.false_eq_true, if_false] at htex
  refine ⟨hres, htex, ?_, ?_, ?_⟩
  · simp [m_loadedTextures, htex]
  · intro t
    simp [FindTextureSlot, htex]
  · intro t
    simp [FindTextureID, htex]

/-- Witness for `C2_failed_load_leaves_registry`: a one-channel image offered to a registry of
five textures. -/
theorem C2_failed_load_leaves_registry_witness :
    (CreateGLTexture "textures/mask.png" "texture6" (some ⟨64, 64, 1⟩) 6 afterFiveLoads).1
        = false ∧
      m_loadedTextures (CreateGLTexture "textures/mask.png" "texture6" (some ⟨64, 64, 1⟩) 6
        afterFiveLoads).2 = 5 :=
  have h := C2_failed_load_leaves_registry afterFiveLoads "textures/mask.png" "texture6"
    (some ⟨64, 64, 1⟩) 6 (Or.inr ⟨⟨64, 64, 1⟩, rfl, by decide, by decide⟩)
  ⟨h.1, h.2.2.1.trans (by decide)⟩

/-! ## Texture registry: lookup -/

/-- C3: `FindTextureSlot tag` is the index of the first registered entry whose tag equals the
argument; it is -1 exactly when no registered entry has that tag; and a result other than -1
is non-negative and below the registered-texture count. -/
theorem C3_FindTextureSlot_first_match (s : SceneManager F) (tag : String) :
    (∀ k : Nat, FindTextureSlot s tag = (k : Int) ↔ FirstTextureWithTag s tag k) ∧
      (FindTextureSlot s tag = -1 ↔ ∀ e ∈ s.m_textureIDs, e.tag ≠ tag) ∧
      (FindTextureSlot s tag = -1 ∨
        (0 ≤ FindTextureSlot s tag ∧ FindTextureSlot s tag < m_loadedTextures s)) := by
  refine ⟨?_, FindTextureSlot.loop_eq_neg_one_iff tag s.m_textureIDs 0, ?_⟩
  · intro k
    unfold FindTextureSlot FirstTextureWithTag textureTagAt
    rw [FindTextureSlot.loop_eq_iff]
    constructor
    · rintro ⟨k2, hk, h⟩
      have : k = k2 := by omega
      subst this
      exact h
    · intro h
      exact ⟨k, by omega, h⟩
  · rcases FindTextureSlot.loop_bounds tag s.m_textureIDs 0 with hb | ⟨hb1, hb2⟩
    · exact Or.inl hb
    · right
      unfold FindTextureSlot m_loadedTextures
      constructor
      · simpa using hb1
      · simpa using hb2

/-- C4, as stated, fails: with the handle 4294967295 registered under `"texture1"`,
`FindTextureSlot "texture1"` is 0 while `FindTextureID "texture1"` is -1 (the handle converted
to `int`), which is neither the stored handle nor a sign that the tag is unregistered. -/
theorem C4_counterexample :
    FindTextureSlot maxHandleScene "texture1" = 0 ∧
      FindTextureID maxHandleScene "texture1" = -1 ∧
      FindTextureID maxHandleScene "texture1" ≠ 4294967295 ∧
      ¬ (FindTextureID maxHandleScene "texture1" = -1 ↔
        FindTextureSlot maxHandleScene "texture1" = -1) := by
  decide

/-- C4 (amended): `FindTextureID` and `FindTextureSlot` stop at the same entry. When
`FindTextureSlot tag` is -1 so is `FindTextureID tag`; when it is an index `k`, `FindTextureID
tag` is the handle of entry `k` converted from `GLuint` to `int`, which is the handle itself
when the handle is below 2^31 and is -1 only for the handle 4294967295. Hence, in a registry
that does not hold the handle 4294967295, `FindTextureID tag` is -1 exactly when
`FindTextureSlot tag` is -1. -/
theorem C4_FindTextureID_agrees (s : SceneManager F) (tag : String) :
    (FindTextureSlot s tag = -1 → FindTextureID s tag = -1) ∧
      (∀ k : Nat, FindTextureSlot s tag = (k : Int) →
        ∃ e, s.m_textureIDs[k]? = some e ∧ e.tag = tag ∧
          FindTextureID s tag = GLuint.toInt e.ID ∧
          (e.ID.val < 2147483648 → FindTextureID s tag = (e.ID.val : Int)) ∧
          (FindTextureID s tag = -1 → e.ID = 4294967295)) ∧
      ((∀ e ∈ s.m_textureIDs, e.ID ≠ 4294967295) →
        (FindTextureID s tag = -1 ↔ FindTextureSlot s tag = -1)) := by
  have hagree := FindTexture_loops_agree tag s.m_textureIDs 0
  have hstep : ∀ k : Nat, FindTextureSlot s tag = (k : Int) →
      ∃ e, s.m_textureIDs[k]? = some e ∧ e.tag = tag ∧
        FindTextureID s tag = GLuint.toInt e.ID ∧
        (e.ID.val < 2147483648 → FindTextureID s tag = (e.ID.val : Int)) ∧
        (FindTextureID s tag = -1 → e.ID = 4294967295) := by
    intro k hk
    obtain ⟨e, he, htag, hid⟩ := hagree.2 k (by simpa [FindTextureSlot] using hk)
    refine ⟨e, he, htag, hid, ?_, ?_⟩
    · intro hsmall
      rw [FindTextureID, hid, GLuint.toInt, if_pos hsmall]
    · intro hneg
      rw [FindTextureID, hid, GLuint.toInt] at hneg
      have hlt := e.ID.isLt
      apply Fin.ext
      split at hneg
      · omega
      · have : (e.ID.val : Int) = 4294967295 := by omega
        have h2 : e.ID.val = 4294967295 := by exact_mod_cast this
        simpa using h2
  refine ⟨hagree.1, hstep, ?_⟩
  intro hno
  constructor
  · intro hneg
    rcases FindTextureSlot.loop_bounds tag s.m_textureIDs 0 with hb | ⟨hb, _⟩
    · exact hb
    · exfalso
      have hnn : 0 ≤ FindTextureSlot s tag := by simpa [FindTextureSlot] using hb
      obtain ⟨k, hk⟩ := Int.eq_ofNat_of_zero_le hnn
      obtain ⟨e, he, _, _, _, hmax⟩ := hstep k hk
      exact hno e (List.getElem?_mem he) (hmax hneg)
  · exact hagree.1

/-- Witness for `C4_FindTextureID_agrees`: in the registry of five textures with handles 1
to 5, `"texture4"` is found at slot 3 and its handle 4 is returned. -/
theorem C4_FindTextureID_agrees_witness :
    FindTextureSlot afterFiveLoads "texture4" = 3 ∧
      ∃ e, afterFiveLoads.m_textureIDs[3]? = some e ∧ e.tag = "texture4" ∧
        FindTextureID afterFiveLoads "texture4" = GLuint.toInt e.ID ∧
        (e.ID.val < 2147483648 → FindTextureID afterFiveLoads "texture4" = (e.ID.val : Int)) ∧
        (FindTextureID afterFiveLoads "texture4" = -1 → e.ID = 4294967295) :=
  ⟨by decide, (C4_FindTextureID_agrees afterFiveLoads "texture4").2.1 3 (by decide)⟩

theorem FindTextureSlot_CreateGLTexture_of_found (s : SceneManager F) (tag : String)
    (hfound : FindTextureSlot s tag ≠ -1) (filename tag2 : String)
    (image : Option stbi_image) (textureID : GLuint) :
    FindTextureSlot (CreateGLTexture filename tag2 image textureID s).2 tag
      = FindTextureSlot s tag := by
  have htex := CreateGLTexture_textures filename tag2 image textureID s
  unfold FindTextureSlot at hfound ⊢
  rw [htex]
  split
  · rw [FindTextureSlot.loop_append, if_neg hfound]
  · rfl

/-- C5: slot indices are stable. If `FindTextureSlot tag` is `k ≥ 0`, it is still `k` after any
further call of `CreateGLTexture`, whatever the file, the tag, the decoder's answer and the
outcome of the call; and so it is after any sequence of such calls. -/
theorem C5_slot_stable (s : SceneManager F) (tag : String) (k : Int) (hk : 0 ≤ k)
    (hslot : FindTextureSlot s tag = k) :
    (∀ (filename tag2 : String) (image : Option stbi_image) (textureID : GLuint),
        FindTextureSlot (CreateGLTexture filename tag2 image textureID s).2 tag = k) ∧
      ∀ calls : List LoadCall, FindTextureSlot (loadAll calls s) tag = k := by
  constructor
  · intro filename tag2 image textureID
    rw [FindTextureSlot_CreateGLTexture_of_found s tag (by omega), hslot]
  · intro calls
    induction calls generalizing s with
    | nil => exact hslot
    | cons c rest ih =>
      rw [loadAll]
      apply ih
      rw [FindTextureSlot_CreateGLTexture_of_found s tag (by omega), hslot]

/-- Witness for `C5_slot_stable`: `"texture4"` keeps slot 3 when `"texture4"` is loaded again. -/
theorem C5_slot_stable_witness :
    (0 : Int) ≤ 3 ∧ FindTextureSlot afterFiveLoads "texture4" = 3 ∧
      FindTextureSlot (CreateGLTexture "textures/roof.jpg" "texture4"
        (allRGB "textures/roof.jpg") 6 afterFiveLoads).2 "texture4" = 3 :=
  ⟨by decide, by decide,
    (C5_slot_stable afterFiveLoads "texture4" 3 (by decide) (by decide)).1 "textures/roof.jpg"
      "texture4" (allRGB "textures/roof.jpg") 6⟩

/-! ## Texture registry: uniqueness of tags -/

theorem loadAll_textures (calls : List LoadCall) (s : SceneManager F) :
    (loadAll calls s).m_textureIDs =
      s.m_textureIDs ++ (calls.filter (fun c => loadSucceeds c.image)).map
        (fun c => ({ tag := c.tag, ID := c.textureID } : TEXTURE_INFO)) := by
  induction calls generalizing s with
  | nil => simp [loadAll]
  | cons c rest ih =>
    rw [loadAll, ih, CreateGLTexture_textures]
    by_cases h : loadSucceeds c.image = true
    · simp [h, List.filter_cons]
    · simp [h, List.filter_cons]

/-- C6, as stated, fails: starting from the empty registry with every image decoded
successfully, `LoadSceneTextures` registers ten textures, and the entries at indices 3 and 5
both carry the tag `"texture4"`. -/
theorem C6_counterexample :
    m_loadedTextures (LoadSceneTextures allRGB sequentialNames (emptyScene Int)) = 10 ∧
      textureTagAt (LoadSceneTextures allRGB sequentialNames (emptyScene Int)) 3
        = some "texture4" ∧
      textureTagAt (LoadSceneTextures allRGB sequentialNames (emptyScene Int)) 5
        = some "texture4" ∧
      ¬ ((LoadSceneTextures allRGB sequentialNames (emptyScene Int)).m_textureIDs.map
        (fun e => e.tag)).Nodup := by
  decide

/-- C6 (amended): the registry records tags, it does not make them unique. After any sequence
of loads starting from the empty registry, the registered tags are the tags of the loads that
returned true, in call order; so no two registered entries carry the same tag exactly when
those tags are pairwise distinct, and in particular whenever the caller passes pairwise
distinct tags. -/
theorem C6_tags_unique_when_loaded_tags_distinct (calls : List LoadCall) (s : SceneManager F)
    (hempty : s.m_textureIDs = []) :
    (∀ c ∈ calls, ∀ s2 : SceneManager F,
        (CreateGLTexture c.filename c.tag c.image c.textureID s2).1 = loadSucceeds c.image) ∧
      (loadAll calls s).m_textureIDs.map (fun e => e.tag) = registeredTags calls ∧
      (((loadAll calls s).m_textureIDs.map (fun e => e.tag)).Nodup ↔
        (registeredTags calls).Nodup) ∧
      ((calls.map (fun c => c.tag)).Nodup →
        ((loadAll calls s).m_textureIDs.map (fun e => e.tag)).Nodup) := by
  have htags : (loadAll calls s).m_textureIDs.map (fun e => e.tag) = registeredTags calls := by
    rw [loadAll_textures, hempty]
    simp [registeredTags, List.map_map, Function.comp_def]
  refine ⟨?_, htags, by rw [htags], ?_⟩
  · intro c _ s2
    exact CreateGLTexture_result c.filename c.tag c.image c.textureID s2
  · intro hnodup
    rw [htags]
    unfold registeredTags
    exact List.Nodup.sublist (List.Sublist.map _ (List.filter_sublist _)) hnodup

/-- Witness for `C6_tags_unique_when_loaded_tags_distinct`: two loads with distinct tags. -/
theorem C6_tags_unique_when_loaded_tags_distinct_witness :
    (emptyScene Int).m_textureIDs = [] ∧
      ((loadAll [⟨"textures/floor.jpg", "texture1", allRGB "textures/floor.jpg", 1⟩,
          ⟨"textures/roof.jpg", "texture4", allRGB "textures/roof.jpg", 2⟩]
        (emptyScene Int)).m_textureIDs.map (fun e => e.tag)).Nodup :=
  ⟨rfl,
    (C6_tags_unique_when_loaded_tags_distinct
      [⟨"textures/floor.jpg", "texture1", allRGB "textures/floor.jpg", 1⟩,
        ⟨"textures/roof.jpg", "texture4", allRGB "textures/roof.jpg", 2⟩]
      (emptyScene Int) rfl).2.2.2 (by decide)⟩

/-! ## Shader texture selection -/

/-- C7: with a shader manager attached, `SetShaderTexture tag` performs exactly two uniform
writes: `bUseTexture` receives 1 (the `int` of `true`) and the sampler `objectTexture` receives
`FindTextureSlot tag`, which is -1 for a tag that is not registered. The registry is left as it
was. -/
theorem C7_SetShaderTexture_uniforms (s : SceneManager F) (tag : String)
    (sh : ShaderManager F) (hsh : s.m_pShaderManager = some sh) :
    ∃ sh2 : ShaderManager F,
      (SetShaderTexture tag s).m_pShaderManager = some sh2 ∧
      sh2.writes = ("objectTexture", UniformValue.sampler2DValue (FindTextureSlot s tag)) ::
        ("bUseTexture", UniformValue.intValue (boolToInt true)) :: sh.writes ∧
      sh2.uniform "bUseTexture" = some (UniformValue.intValue 1) ∧
      sh2.uniform "objectTexture"
        = some (UniformValue.sampler2DValue (FindTextureSlot s tag)) ∧
      ((∀ e ∈ s.m_textureIDs, e.tag ≠ tag) →
        sh2.uniform "objectTexture" = some (UniformValue.sampler2DValue (-1))) ∧
      (SetShaderTexture tag s).m_textureIDs = s.m_textureIDs := by
  have hset : SetShaderTexture tag s =
      { s with
        m_pShaderManager := some
          ((sh.setIntValue g_UseTextureName (boolToInt true)).setSampler2DValue
            g_TextureValueName (FindTextureSlot s tag)) } := by
    simp [SetShaderTexture, hsh]
  have huni : ((sh.setIntValue g_UseTextureName (boolToInt true)).setSampler2DValue
      g_TextureValueName (FindTextureSlot s tag)).uniform "objectTexture"
        = some (UniformValue.sampler2DValue (FindTextureSlot s tag)) := by
    simp [ShaderManager.uniform, ShaderManager.setSampler2DValue, ShaderManager.setIntValue,
      ShaderManager.setValue, g_TextureValueName]
  refine ⟨(sh.setIntValue g_UseTextureName (boolToInt true)).setSampler2DValue
    g_TextureValueName (FindTextureSlot s tag), by rw [hset], rfl, ?_, huni, ?_, by rw [hset]⟩
  · simp [ShaderManager.uniform, ShaderManager.setSampler2DValue, ShaderManager.setIntValue,
      ShaderManager.setValue, g_TextureValueName, g_UseTextureName, boolToInt]
  · intro hmiss
    have hneg : FindTextureSlot s tag = -1 :=
      (FindTextureSlot.loop_eq_neg_one_iff tag s.m_textureIDs 0).2 hmiss
    rw [huni, hneg]

/-- Witness for `C7_SetShaderTexture_uniforms`: in `twoWallScene`, which has a shader and no
textures, the sampler sent for `"texture1"` is -1. -/
theorem C7_SetShaderTexture_uniforms_witness :
    twoWallScene.m_pShaderManager = some { writes := [] } ∧
      ∃ sh2 : ShaderManager Int,
        (SetShaderTexture "texture1" twoWallScene).m_pShaderManager = some sh2 ∧
        sh2.uniform "bUseTexture" = some (UniformValue.intValue 1) ∧
        sh2.uniform "objectTexture" = some (UniformValue.sampler2DValue (-1)) :=
  ⟨rfl,
    match C7_SetShaderTexture_uniforms twoWallScene "texture1" { writes := [] } rfl with
    | ⟨sh2, h1, _, h3, _, h5, _⟩ => ⟨sh2, h1, h3, h5 (by decide)⟩⟩

/-! ## Material registry -/

theorem FindMaterial.loop_miss (tag : String) (l : List (OBJECT_MATERIAL F))
    (material : OBJECT_MATERIAL F) (hmiss : ∀ m ∈ l, m.tag ≠ tag) :
    FindMaterial.loop tag l material = material := by
  induction l with
  | nil => rfl
  | cons m rest ih =>
    have hm : m.tag ≠ tag := hmiss m (List.mem_cons_self _ _)
    simp only [FindMaterial.loop, hm, if_false]
    exact ih (fun m2 hm2 => hmiss m2 (List.mem_cons_of_mem _ hm2))

theorem FindMaterial.loop_first (tag : String) (l : List (OBJECT_MATERIAL F))
    (material m : OBJECT_MATERIAL F) (k : Nat) (hk : l[k]? = some m) (htag : m.tag = tag)
    (hfirst : ∀ j, j < k → (l[j]?).map (fun m2 => m2.tag) ≠ some tag) :
    FindMaterial.loop tag l material =
      { material with
        ambientColor := m.ambientColor
        ambientStrength := m.ambientStrength
        diffuseColor := m.diffuseColor
        specularColor := m.specularColor
        shininess := m.shininess
        emissiveColor := m.emissiveColor } := by
  induction l generalizing k with
  | nil => simp at hk
  | cons m0 rest ih =>
    cases k with
    | zero =>
      have h0 : m0 = m := by simpa using hk
      subst h0
      simp [FindMaterial.loop, htag]
    | succ k =>
      have hm0 : m0.tag ≠ tag := by simpa using hfirst 0 (by omega)
      simp only [FindMaterial.loop, hm0, if_false]
      refine ih k (by simpa using hk) ?_
      intro j hj
      simpa using hfirst (j + 1) (by omega)

theorem exists_first_material (tag : String) (l : List (OBJECT_MATERIAL F))
    (hmem : ∃ m ∈ l, m.tag = tag) :
    ∃ (k : Nat) (m : OBJECT_MATERIAL F), l[k]? = some m ∧ m.tag = tag ∧
      ∀ j, j < k → (l[j]?).map (fun m2 => m2.tag) ≠ some tag := by
  induction l with
  | nil => simp at hmem
  | cons m0 rest ih =>
    by_cases h0 : m0.tag = tag
    · exact ⟨0, m0, by simp, h0, fun j hj => by omega⟩
    · obtain ⟨m, hm, hmtag⟩ := hmem
      have hrest : ∃ m ∈ rest, m.tag = tag := by
        rcases List.mem_cons.1 hm with h | h
        · subst h
          exact absurd hmtag h0
        · exact ⟨m, h, hmtag⟩
      obtain ⟨k, m1, hk, htag, hfirst⟩ := ih hrest
      refine ⟨k + 1, m1, by simpa using hk, htag, ?_⟩
      intro j hj
      cases j with
      | zero => simpa using h0
      | succ j => simpa using hfirst j (by omega)

/-- What `SetShaderMaterial` does once `FindMaterial` has returned true with `material` filled
in as `mat`: five uniform writes. -/
theorem SetShaderMaterial_of_nonempty (s : SceneManager F) (tag : String)
    (material : OBJECT_MATERIAL F) (sh : ShaderManager F)
    (hsh : s.m_pShaderManager = some sh) (hne : s.m_objectMaterials ≠ []) :
    SetShaderMaterial tag material s = some
      { s with
        m_pShaderManager := some
          { writes :=
              ("bUseTexture", UniformValue.intValue (boolToInt (isTexturedTag tag))) ::
              ("material.emissiveColor", UniformValue.vec3Value
                (FindMaterial.loop tag s.m_objectMaterials material).emissiveColor) ::
              ("material.shininess", UniformValue.floatValue
                (FindMaterial.loop tag s.m_objectMaterials material).shininess) ::
              ("material.specularColor", UniformValue.vec3Value
                (FindMaterial.loop tag s.m_objectMaterials material).specularColor) ::
              ("material.diffuseColor", UniformValue.vec3Value
                (FindMaterial.loop tag s.m_objectMaterials material).diffuseColor) ::
              sh.writes } } := by
  have hlen : s.m_objectMaterials.length ≠ 0 := by
    simpa [List.length_eq_zero] using hne
  have hpos : s.m_objectMaterials.length > 0 := Nat.pos_of_ne_zero hlen
  by_cases htex : tag = "floor" ∨ tag = "wall" ∨ tag = "ceiling" ∨ tag = "sofa" ∨ tag = "rug"
  · have hb : isTexturedTag tag = true := by simp [isTexturedTag, htex]
    simp [SetShaderMaterial, FindMaterial, hlen, hpos, hsh, htex, hb, g_UseTextureName,
      ShaderManager.setVec3Value, ShaderManager.setFloatValue, ShaderManager.setIntValue,
      ShaderManager.setValue]
  · have hb : isTexturedTag tag = false := by simp [isTexturedTag, htex]
    simp [SetShaderMaterial, FindMaterial, hlen, hpos, hsh, htex, hb, g_UseTextureName,
      ShaderManager.setVec3Value, ShaderManager.setFloatValue, ShaderManager.setIntValue,
      ShaderManager.setValue]

/-- C8: `FindMaterial` returns true exactly when the material registry is non-empty. The result
is the same for every tag, and on a non-empty registry that holds no entry with the tag it is
still true, with `material` handed back untouched. -/
theorem C8_FindMaterial_true_iff_nonempty (s : SceneManager F) (tag : String)
    (material : OBJECT_MATERIAL F) :
    ((FindMaterial s tag material).1 = true ↔ s.m_objectMaterials ≠ []) ∧
      (∀ (tag2 : String) (material2 : OBJECT_MATERIAL F),
        (FindMaterial s tag2 material2).1 = (FindMaterial s tag material).1) ∧
      (s.m_objectMaterials ≠ [] → (∀ m ∈ s.m_objectMaterials, m.tag ≠ tag) →
        FindMaterial s tag material = (true, material)) := by
  refine ⟨?_, ?_, ?_⟩
  · by_cases h : s.m_objectMaterials = []
    · simp [FindMaterial, h]
    · have hlen : s.m_objectMaterials.length ≠ 0 := by simpa [List.length_eq_zero] using h
      simp [FindMaterial, h, hlen]
  · intro tag2 material2
    by_cases h : s.m_objectMaterials.length = 0
    · simp [FindMaterial, h]
    · simp [FindMaterial, h]
  · intro hne hmiss
    have hlen : s.m_objectMaterials.length ≠ 0 := by simpa [List.length_eq_zero] using hne
    simp [FindMaterial, hlen, FindMaterial.loop_miss tag _ material hmiss]

/-- Witness for `C8_FindMaterial_true_iff_nonempty`: `twoWallScene` has no `"sofa"`, and
`FindMaterial "sofa"` returns true there. -/
theorem C8_FindMaterial_true_iff_nonempty_witness :
    twoWallScene.m_objectMaterials ≠ [] ∧
      FindMaterial twoWallScene "sofa" (flatMaterial "" 7) = (true, flatMaterial "" 7) :=
  ⟨by decide,
    (C8_FindMaterial_true_iff_nonempty twoWallScene "sofa" (flatMaterial "" 7)).2.2
      (by decide) (by decide)⟩

/-- C9: when the material registry holds at least one entry with the given tag (and a shader
manager is attached), there is a first entry carrying that tag, `SetShaderMaterial tag` returns
normally, and afterwards the uniforms `material.diffuseColor`, `material.specularColor`,
`material.shininess` and `material.emissiveColor` hold the values of that first entry,
whatever the later entries are and whatever the local `material` held before. -/
theorem C9_SetShaderMaterial_first_entry (s : SceneManager F) (tag : String)
    (material : OBJECT_MATERIAL F) (sh : ShaderManager F)
    (hsh : s.m_pShaderManager = some sh)
    (hmem : ∃ m ∈ s.m_objectMaterials, m.tag = tag) :
    (∃ (k : Nat) (m : OBJECT_MATERIAL F), FirstMaterialWithTag s tag k m) ∧
      ∀ (k : Nat) (m : OBJECT_MATERIAL F), FirstMaterialWithTag s tag k m →
        ∃ (s2 : SceneManager F) (sh2 : ShaderManager F),
          SetShaderMaterial tag material s = some s2 ∧
          s2.m_pShaderManager = some sh2 ∧
          sh2.uniform "material.diffuseColor" = some (UniformValue.vec3Value m.diffuseColor) ∧
          sh2.uniform "material.specularColor"
            = some (UniformValue.vec3Value m.specularColor) ∧
          sh2.uniform "material.shininess" = some (UniformValue.floatValue m.shininess) ∧
          sh2.uniform "material.emissiveColor"
            = some (UniformValue.vec3Value m.emissiveColor) := by
  have hne : s.m_objectMaterials ≠ [] := by
    obtain ⟨m0, hm0, _⟩ := hmem
    exact List.ne_nil_of_mem hm0
  refine ⟨exists_first_material tag s.m_objectMaterials hmem, ?_⟩
  rintro k m ⟨hk, htag, hfirst⟩
  have hrun := SetShaderMaterial_of_nonempty s tag material sh hsh hne
  rw [FindMaterial.loop_first tag s.m_objectMaterials material m k hk htag hfirst] at hrun
  refine ⟨_, _, hrun, rfl, ?_, ?_, ?_, ?_⟩ <;> simp [ShaderManager.uniform]

/-- Witness for `C9_SetShaderMaterial_first_entry`: `twoWallScene` holds two `"wall"` entries,
with colours (1,1,1) and (2,2,2); the first one, at index 0, is the one applied. -/
theorem C9_SetShaderMaterial_first_entry_witness :
    twoWallScene.m_pShaderManager = some { writes := [] } ∧
      (∃ m ∈ twoWallScene.m_objectMaterials, m.tag = "wall") ∧
      FirstMaterialWithTag twoWallScene "wall" 0 (flatMaterial "wall" 1) ∧
      ∃ (s2 : SceneManager Int) (sh2 : ShaderManager Int),
        SetShaderMaterial "wall" (flatMaterial "" 7) twoWallScene = some s2 ∧
        s2.m_pShaderManager = some sh2 ∧
        sh2.uniform "material.diffuseColor" = some (UniformValue.vec3Value ⟨1, 1, 1⟩) ∧
        sh2.uniform "material.specularColor" = some (UniformValue.vec3Value ⟨1, 1, 1⟩) ∧
        sh2.uniform "material.shininess" = some (UniformValue.floatValue 1) ∧
        sh2.uniform "material.emissiveColor" = some (UniformValue.vec3Value ⟨1, 1, 1⟩) :=
  ⟨rfl, ⟨flatMaterial "wall" 1, by decide, rfl⟩, by decide,
    (C9_SetShaderMaterial_first_entry twoWallScene "wall" (flatMaterial "" 7) { writes := [] }
      rfl ⟨flatMaterial "wall" 1, by decide, rfl⟩).2 0 (flatMaterial "wall" 1) (by decide)⟩

/-- C10: the code at the failing input. The registry holds the `"default"` material, the
shader has `bUseTexture` at 1 and `material.diffuseColor` at (1,1,1), and no entry is tagged
`"nonexistent"`. Whatever the uninitialised local `material` holds, `SetShaderMaterial
"nonexistent"` performs five uniform writes: `bUseTexture` drops to 0 and the material
uniforms receive the content of the local; they do not keep their prior values. -/
theorem C10_lookup_miss_overwrites_uniforms (material : OBJECT_MATERIAL ℚ) :
    (∀ m ∈ texturedScene.m_objectMaterials, m.tag ≠ "nonexistent") ∧
      ∃ (sh sh2 : ShaderManager ℚ) (s2 : SceneManager ℚ),
        texturedScene.m_pShaderManager = some sh ∧
        SetShaderMaterial "nonexistent" material texturedScene = some s2 ∧
        s2.m_pShaderManager = some sh2 ∧
        sh.uniform "bUseTexture" = some (UniformValue.intValue 1) ∧
        sh2.uniform "bUseTexture" = some (UniformValue.intValue 0) ∧
        sh.uniform "material.diffuseColor" = some (UniformValue.vec3Value ⟨1, 1, 1⟩) ∧
        sh2.uniform "material.diffuseColor"
          = some (UniformValue.vec3Value material.diffuseColor) ∧
        sh2.uniform "material.specularColor"
          = some (UniformValue.vec3Value material.specularColor) ∧
        sh2.uniform "material.shininess" = some (UniformValue.floatValue material.shininess) ∧
        sh2.uniform "material.emissiveColor"
          = some (UniformValue.vec3Value material.emissiveColor) ∧
        sh2.writes.length = sh.writes.length + 5 := by
  have hmiss : ∀ m ∈ texturedScene.m_objectMaterials, m.tag ≠ "nonexistent" := by
    simp [texturedScene, defaultMaterial]
  have hne : texturedScene.m_objectMaterials ≠ [] := by simp [texturedScene]
  have hrun := SetShaderMaterial_of_nonempty texturedScene "nonexistent" material
    { writes := [("bUseTexture", UniformValue.intValue 1),
        ("material.diffuseColor", UniformValue.vec3Value ⟨1, 1, 1⟩)] } rfl hne
  rw [FindMaterial.loop_miss "nonexistent" _ material hmiss] at hrun
  refine ⟨hmiss, _, _, _, rfl, hrun, rfl, ?_, ?_, ?_, ?_, ?_, ?_, ?_, ?_⟩ <;>
    simp [ShaderManager.uniform, isTexturedTag, boolToInt]

/-! ## Material application: empty registry and texture toggle -/

/-- C11: with an empty material registry, `SetShaderMaterial tag` returns normally for every
tag (also without a shader manager), leaves the shader manager and so every uniform untouched,
and appends exactly one line, `No materials defined.`, to the output. -/
theorem C11_empty_registry_logs_once (s : SceneManager F) (tag : String)
    (material : OBJECT_MATERIAL F) (hempty : s.m_objectMaterials = []) :
    ∃ s2 : SceneManager F,
      SetShaderMaterial tag material s = some s2 ∧
      s2.m_pShaderManager = s.m_pShaderManager ∧
      s2.stdout = s.stdout ++ ["No materials defined."] ∧
      s2.m_objectMaterials = s.m_objectMaterials ∧
      s2.m_textureIDs = s.m_textureIDs := by
  refine ⟨{ s with stdout := s.stdout ++ ["No materials defined."] }, ?_, rfl, rfl, rfl, rfl⟩
  simp [SetShaderMaterial, hempty]

/-- Witness for `C11_empty_registry_logs_once`: the empty scene, which has no shader manager
either, asked for `"nonexistent"`. -/
theorem C11_empty_registry_logs_once_witness :
    (emptyScene Int).m_objectMaterials = [] ∧
      ∃ s2 : SceneManager Int,
        SetShaderMaterial "nonexistent" (flatMaterial "" 7) (emptyScene Int) = some s2 ∧
        s2.m_pShaderManager = (emptyScene Int).m_pShaderManager ∧
        s2.stdout = (emptyScene Int).stdout ++ ["No materials defined."] ∧
        s2.m_objectMaterials = (emptyScene Int).m_objectMaterials ∧
        s2.m_textureIDs = (emptyScene Int).m_textureIDs :=
  ⟨rfl, C11_empty_registry_logs_once (emptyScene Int) "nonexistent" (flatMaterial "" 7) rfl⟩

/-- C12: for a tag that matches a registry entry (and with a shader manager attached),
`SetShaderMaterial tag` leaves `bUseTexture` at 1 (true) when the tag is one of `floor`,
`wall`, `ceiling`, `sofa`, `rug`, and at 0 (false) for every other tag. -/
theorem C12_texture_toggle_by_tag (s : SceneManager F) (tag : String)
    (material : OBJECT_MATERIAL F) (sh : ShaderManager F)
    (hsh : s.m_pShaderManager = some sh)
    (hmem : ∃ m ∈ s.m_objectMaterials, m.tag = tag) :
    ∃ (s2 : SceneManager F) (sh2 : ShaderManager F),
      SetShaderMaterial tag material s = some s2 ∧
      s2.m_pShaderManager = some sh2 ∧
      ((tag = "floor" ∨ tag = "wall" ∨ tag = "ceiling" ∨ tag = "sofa" ∨ tag = "rug") →
        sh2.uniform "bUseTexture" = some (UniformValue.intValue 1)) ∧
      (¬ (tag = "floor" ∨ tag = "wall" ∨ tag = "ceiling" ∨ tag = "sofa" ∨ tag = "rug") →
        sh2.uniform "bUseTexture" = some (UniformValue.intValue 0)) ∧
      (sh2.uniform "bUseTexture" = some (UniformValue.intValue 1) ↔
        (tag = "floor" ∨ tag = "wall" ∨ tag = "ceiling" ∨ tag = "sofa" ∨ tag = "rug")) := by
  have hne : s.m_objectMaterials ≠ [] := by
    obtain ⟨m0, hm0, _⟩ := hmem
    exact List.ne_nil_of_mem hm0
  have hrun := SetShaderMaterial_of_nonempty s tag material sh hsh hne
  refine ⟨_, _, hrun, rfl, ?_, ?_, ?_⟩
  · intro h
    simp [ShaderManager.uniform, isTexturedTag, h, boolToInt]
  · intro h
    simp [ShaderManager.uniform, isTexturedTag, h, boolToInt]
  · by_cases h : tag = "floor" ∨ tag = "wall" ∨ tag = "ceiling" ∨ tag = "sofa" ∨ tag = "rug"
    · simp [ShaderManager.uniform, isTexturedTag, h, boolToInt]
    · simp [ShaderManager.uniform, isTexturedTag, h, boolToInt]

/-- Witness for `C12_texture_toggle_by_tag`: `"wall"` is registered in `twoWallScene`, and
applying it switches texturing on. -/
theorem C12_texture_toggle_by_tag_witness :
    twoWallScene.m_pShaderManager = some { writes := [] } ∧
      (∃ m ∈ twoWallScene.m_objectMaterials, m.tag = "wall") ∧
      ∃ (s2 : SceneManager Int) (sh2 : ShaderManager Int),
        SetShaderMaterial "wall" (flatMaterial "" 7) twoWallScene = some s2 ∧
        s2.m_pShaderManager = some sh2 ∧
        sh2.uniform "bUseTexture" = some (UniformValue.intValue 1) :=
  ⟨rfl, ⟨flatMaterial "wall" 1, by decide, rfl⟩,
    match C12_texture_toggle_by_tag twoWallScene "wall" (flatMaterial "" 7) { writes := [] }
      rfl ⟨flatMaterial "wall" 1, by decide, rfl⟩ with
    | ⟨s2, sh2, h1, h2, h3, _, _⟩ => ⟨s2, sh2, h1, h2, h3 (by decide)⟩⟩

/-! ## The model matrix -/

section ModelMatrix

variable [Field F]

theorem vec4_add_def (a b : vec4 F) :
    a + b = ⟨a.x + b.x, a.y + b.y, a.z + b.z, a.w + b.w⟩ := rfl

theorem vec4_mul_def (a : vec4 F) (k : F) : a * k = ⟨a.x * k, a.y * k, a.z * k, a.w * k⟩ := rfl

theorem vec3_add_def (a b : vec3 F) : a + b = ⟨a.x + b.x, a.y + b.y, a.z + b.z⟩ := rfl

theorem vec3_sub_def (a b : vec3 F) : a - b = ⟨a.x - b.x, a.y - b.y, a.z - b.z⟩ := rfl

theorem vec3_mul_def (a : vec3 F) (k : F) : a * k = ⟨a.x * k, a.y * k, a.z * k⟩ := rfl

theorem vec3_smul_def (k : F) (a : vec3 F) : k * a = ⟨k * a.x, k * a.y, k * a.z⟩ := rfl

theorem mat4_mul_def (a b : mat4 F) : a * b = mat4.mul a b := rfl

/-- Applying a product of two matrices is applying the right factor first. -/
theorem mat4.mulVec_mul (a b : mat4 F) (v : vec4 F) :
    (a * b).mulVec v = a.mulVec (b.mulVec v) := by
  simp only [mat4_mul_def, mat4.mul, mat4.mulVec, vec4_add_def, vec4_mul_def, vec4.mk.injEq]
  refine ⟨?_, ?_, ?_, ?_⟩ <;> ring

/-- The rotation `glm::rotate(angle, (1,0,0))`, once the axis normalises to itself. -/
theorem glm.rotate_x (cm : CMath F) (hsqrt : cm.sqrt 1 = 1) (angle : F) :
    glm.rotate cm angle ⟨1, 0, 0⟩ =
      { c0 := ⟨1, 0, 0, 0⟩
        c1 := ⟨0, cm.cos angle, cm.sin angle, 0⟩
        c2 := ⟨0, -cm.sin angle, cm.cos angle, 0⟩
        c3 := ⟨0, 0, 0, 1⟩ } := by
  simp [glm.rotate, glm.rotateM, glm.normalize, glm.inversesqrt, glm.dot, mat4.identity,
    vec4_add_def, vec4_mul_def, vec3_mul_def, vec3_smul_def, hsqrt]

/-- The rotation `glm::rotate(angle, (0,1,0))`, once the axis normalises to itself. -/
theorem glm.rotate_y (cm : CMath F) (hsqrt : cm.sqrt 1 = 1) (angle : F) :
    glm.rotate cm angle ⟨0, 1, 0⟩ =
      { c0 := ⟨cm.cos angle, 0, -cm.sin angle, 0⟩
        c1 := ⟨0, 1, 0, 0⟩
        c2 := ⟨cm.sin angle, 0, cm.cos angle, 0⟩
        c3 := ⟨0, 0, 0, 1⟩ } := by
  simp [glm.rotate, glm.rotateM, glm.normalize, glm.inversesqrt, glm.dot, mat4.identity,
    vec4_add_def, vec4_mul_def, vec3_mul_def, vec3_smul_def, hsqrt]

/-- The rotation `glm::rotate(angle, (0,0,1))`, once the axis normalises to itself. -/
theorem glm.rotate_z (cm : CMath F) (hsqrt : cm.sqrt 1 = 1) (angle : F) :
    glm.rotate cm angle ⟨0, 0, 1⟩ =
      { c0 := ⟨cm.cos angle, cm.sin angle, 0, 0⟩
        c1 := ⟨-cm.sin angle, cm.cos angle, 0, 0⟩
        c2 := ⟨0, 0, 1, 0⟩
        c3 := ⟨0, 0, 0, 1⟩ } := by
  simp [glm.rotate, glm.rotateM, glm.normalize, glm.inversesqrt, glm.dot, mat4.identity,
    vec4_add_def, vec4_mul_def, vec3_mul_def, vec3_smul_def, hsqrt]

theorem glm.scale_eq (v : vec3 F) :
    glm.scale v =
      { c0 := ⟨v.x, 0, 0, 0⟩, c1 := ⟨0, v.y, 0, 0⟩, c2 := ⟨0, 0, v.z, 0⟩, c3 := ⟨0, 0, 0, 1⟩ } := by
  simp [glm.scale, glm.scaleM, mat4.identity, vec4_mul_def]

theorem glm.translate_eq (v : vec3 F) :
    glm.translate v =
      { c0 := ⟨1, 0, 0, 0⟩, c1 := ⟨0, 1, 0, 0⟩, c2 := ⟨0, 0, 1, 0⟩,
        c3 := ⟨v.x, v.y, v.z, 1⟩ } := by
  simp [glm.translate, glm.translateM, mat4.identity, vec4_mul_def, vec4_add_def]

/-- The single write of `SetTransformations` when a shader manager is attached. -/
theorem SetTransformations_write (cm : CMath F) (scaleXYZ : vec3 F) (x y z : F)
    (positionXYZ : vec3 F) (s : SceneManager F) (sh : ShaderManager F)
    (hsh : s.m_pShaderManager = some sh) :
    (SetTransformations cm scaleXYZ x y z positionXYZ s).m_pShaderManager = some
      { writes := ("model", UniformValue.mat4Value
          (glm.translate positionXYZ * glm.rotate cm (glm.radians z) ⟨0, 0, 1⟩
            * glm.rotate cm (glm.radians y) ⟨0, 1, 0⟩ * glm.rotate cm (glm.radians x) ⟨1, 0, 0⟩
            * glm.scale scaleXYZ)) :: sh.writes } := by
  simp only [SetTransformations, hsh]
  rfl

/-- C13: with a shader manager attached, `SetTransformations` makes one write, to `model`,
of the matrix `Translate(position) * RotateZ(radians(z)) * RotateY(radians(y)) *
RotateX(radians(x)) * Scale(scale)`, the rotations being `glm::rotate` about (0,0,1), (0,1,0)
and (1,0,0). Applied to a vertex, this matrix scales first, then rotates about X, then about
Y, then about Z, then translates; and when the unit axes normalise to themselves the three
rotation factors are the plane rotations about the Z, Y and X axes. The angles are converted
from degrees: `radians(d)` is `d` times 0.01745329251994329576923690768489, so the three
factors are the plane rotations by `x`, `y` and `z` times that constant; the constant is
pi/180 to 20 decimals of pi, 180 degrees being converted to a number within 1/10^20 of the
real number pi. -/
theorem C13_model_matrix_order (cm : CMath F) (scaleXYZ : vec3 F) (x y z : F)
    (positionXYZ : vec3 F) (s : SceneManager F) (sh : ShaderManager F)
    (hsh : s.m_pShaderManager = some sh) :
    ∃ sh2 : ShaderManager F,
      (SetTransformations cm scaleXYZ x y z positionXYZ s).m_pShaderManager = some sh2 ∧
      sh2.writes = ("model", UniformValue.mat4Value
        (glm.translate positionXYZ * glm.rotate cm (glm.radians z) ⟨0, 0, 1⟩
          * glm.rotate cm (glm.radians y) ⟨0, 1, 0⟩ * glm.rotate cm (glm.radians x) ⟨1, 0, 0⟩
          * glm.scale scaleXYZ)) :: sh.writes ∧
      sh2.uniform "model" = some (UniformValue.mat4Value
        (glm.translate positionXYZ * glm.rotate cm (glm.radians z) ⟨0, 0, 1⟩
          * glm.rotate cm (glm.radians y) ⟨0, 1, 0⟩ * glm.rotate cm (glm.radians x) ⟨1, 0, 0⟩
          * glm.scale scaleXYZ)) ∧
      (∀ v : vec4 F,
        (glm.translate positionXYZ * glm.rotate cm (glm.radians z) ⟨0, 0, 1⟩
          * glm.rotate cm (glm.radians y) ⟨0, 1, 0⟩ * glm.rotate cm (glm.radians x) ⟨1, 0, 0⟩
          * glm.scale scaleXYZ).mulVec v =
        (glm.translate positionXYZ).mulVec
          ((glm.rotate cm (glm.radians z) ⟨0, 0, 1⟩).mulVec
            ((glm.rotate cm (glm.radians y) ⟨0, 1, 0⟩).mulVec
              ((glm.rotate cm (glm.radians x) ⟨1, 0, 0⟩).mulVec
                ((glm.scale scaleXYZ).mulVec v))))) ∧
      (∀ v : vec4 F, (glm.scale scaleXYZ).mulVec v
        = ⟨scaleXYZ.x * v.x, scaleXYZ.y * v.y, scaleXYZ.z * v.z, v.w⟩) ∧
      (∀ v : vec4 F, (glm.translate positionXYZ).mulVec v
        = ⟨v.x + positionXYZ.x * v.w, v.y + positionXYZ.y * v.w, v.z + positionXYZ.z * v.w,
            v.w⟩) ∧
      (cm.sqrt 1 = 1 → ∀ (angle : F) (v : vec4 F),
        (glm.rotate cm angle ⟨1, 0, 0⟩).mulVec v
          = ⟨v.x, cm.cos angle * v.y - cm.sin angle * v.z,
              cm.sin angle * v.y + cm.cos angle * v.z, v.w⟩ ∧
        (glm.rotate cm angle ⟨0, 1, 0⟩).mulVec v
          = ⟨cm.cos angle * v.x + cm.sin angle * v.z, v.y,
              -(cm.sin angle * v.x) + cm.cos angle * v.z, v.w⟩ ∧
        (glm.rotate cm angle ⟨0, 0, 1⟩).mulVec v
          = ⟨cm.cos angle * v.x - cm.sin angle * v.y,
              cm.sin angle * v.x + cm.cos angle * v.y, v.z, v.w⟩) ∧
      (∀ d : F, glm.radians d = d * 0.01745329251994329576923690768489) ∧
      (cm.sqrt 1 = 1 → ∀ v : vec4 F,
        (glm.rotate cm (glm.radians x) ⟨1, 0, 0⟩).mulVec v
          = ⟨v.x,
              cm.cos (x * 0.01745329251994329576923690768489) * v.y
                - cm.sin (x * 0.01745329251994329576923690768489) * v.z,
              cm.sin (x * 0.01745329251994329576923690768489) * v.y
                + cm.cos (x * 0.01745329251994329576923690768489) * v.z, v.w⟩ ∧
        (glm.rotate cm (glm.radians y) ⟨0, 1, 0⟩).mulVec v
          = ⟨cm.cos (y * 0.01745329251994329576923690768489) * v.x
                + cm.sin (y * 0.01745329251994329576923690768489) * v.z, v.y,
              -(cm.sin (y * 0.01745329251994329576923690768489) * v.x)
                + cm.cos (y * 0.01745329251994329576923690768489) * v.z, v.w⟩ ∧
        (glm.rotate cm (glm.radians z) ⟨0, 0, 1⟩).mulVec v
          = ⟨cm.cos (z * 0.01745329251994329576923690768489) * v.x
                - cm.sin (z * 0.01745329251994329576923690768489) * v.y,
              cm.sin (z * 0.01745329251994329576923690768489) * v.x
                + cm.cos (z * 0.01745329251994329576923690768489) * v.y, v.z, v.w⟩) ∧
      |glm.radians (180 : ℝ) - Real.pi| < 1 / 10 ^ 20 := by
  have hrot : cm.sqrt 1 = 1 → ∀ (angle : F) (v : vec4 F),
      (glm.rotate cm angle ⟨1, 0, 0⟩).mulVec v
        = ⟨v.x, cm.cos angle * v.y - cm.sin angle * v.z,
            cm.sin angle * v.y + cm.cos angle * v.z, v.w⟩ ∧
      (glm.rotate cm angle ⟨0, 1, 0⟩).mulVec v
        = ⟨cm.cos angle * v.x + cm.sin angle * v.z, v.y,
            -(cm.sin angle * v.x) + cm.cos angle * v.z, v.w⟩ ∧
      (glm.rotate cm angle ⟨0, 0, 1⟩).mulVec v
        = ⟨cm.cos angle * v.x - cm.sin angle * v.y,
            cm.sin angle * v.x + cm.cos angle * v.y, v.z, v.w⟩ := by
    intro hsqrt angle v
    rw [glm.rotate_x cm hsqrt, glm.rotate_y cm hsqrt, glm.rotate_z cm hsqrt]
    simp only [mat4.mulVec, vec4_add_def, vec4_mul_def, vec4.mk.injEq]
    refine ⟨⟨?_, ?_, ?_, ?_⟩, ⟨?_, ?_, ?_, ?_⟩, ⟨?_, ?_, ?_, ?_⟩⟩ <;> ring
  refine ⟨_, SetTransformations_write cm scaleXYZ x y z positionXYZ s sh hsh, rfl,
    ?_, ?_, ?_, ?_, hrot, fun _ => rfl, ?_, ?_⟩
  · simp [ShaderManager.uniform]
  · intro v
    rw [mat4.mulVec_mul, mat4.mulVec_mul, mat4.mulVec_mul, mat4.mulVec_mul]
  · intro v
    simp only [glm.scale_eq, mat4.mulVec, vec4_add_def, vec4_mul_def, vec4.mk.injEq]
    refine ⟨?_, ?_, ?_, ?_⟩ <;> ring
  · intro v
    simp only [glm.translate_eq, mat4.mulVec, vec4_add_def, vec4_mul_def, vec4.mk.injEq]
    refine ⟨?_, ?_, ?_, ?_⟩ <;> ring
  · intro hsqrt v
    exact ⟨(hrot hsqrt (glm.radians x) v).1, (hrot hsqrt (glm.radians y) v).2.1,
      (hrot hsqrt (glm.radians z) v).2.2⟩
  · have h1 := Real.pi_gt_d20
    have h2 := Real.pi_lt_d20
    unfold glm.radians
    rw [abs_lt]
    constructor
    · norm_num at h1 h2 ⊢
      linarith
    · norm_num at h1 h2 ⊢
      linarith

/-- Witness for `C13_model_matrix_order`: the real sine, cosine and square root, a scale
(2,3,4), angles 90, 45 and 30 degrees and a translation (5,6,7); the rotation about X turns
the vertex (0,1,0) by 90 times 0.01745329251994329576923690768489. -/
theorem C13_model_matrix_order_witness :
    (shaderScene ℝ).m_pShaderManager = some { writes := [] } ∧
      ∃ sh2 : ShaderManager ℝ,
        (SetTransformations (CMath.mk Real.sin Real.cos Real.sqrt) ⟨2, 3, 4⟩ 90 45 30 ⟨5, 6, 7⟩
          (shaderScene ℝ)).m_pShaderManager = some sh2 ∧
        sh2.uniform "model" = some (UniformValue.mat4Value
          (glm.translate ⟨5, 6, 7⟩
            * glm.rotate (CMath.mk Real.sin Real.cos Real.sqrt) (glm.radians 30) ⟨0, 0, 1⟩
            * glm.rotate (CMath.mk Real.sin Real.cos Real.sqrt) (glm.radians 45) ⟨0, 1, 0⟩
            * glm.rotate (CMath.mk Real.sin Real.cos Real.sqrt) (glm.radians 90) ⟨1, 0, 0⟩
            * glm.scale ⟨2, 3, 4⟩)) ∧
        (glm.rotate (CMath.mk Real.sin Real.cos Real.sqrt) (glm.radians 90) ⟨1, 0, 0⟩).mulVec
            ⟨0, 1, 0, 1⟩
          = ⟨0,
              Real.cos (90 * 0.01745329251994329576923690768489) * 1
                - Real.sin (90 * 0.01745329251994329576923690768489) * 0,
              Real.sin (90 * 0.01745329251994329576923690768489) * 1
                + Real.cos (90 * 0.01745329251994329576923690768489) * 0, 1⟩ :=
  ⟨rfl,
    match C13_model_matrix_order (CMath.mk Real.sin Real.cos Real.sqrt) ⟨2, 3, 4⟩ 90 45 30
      ⟨5, 6, 7⟩ (shaderScene ℝ) { writes := [] } rfl with
    | ⟨sh2, h1, _, h3, _, _, _, _, _, h9, _⟩ =>
      ⟨sh2, h1, h3, (h9 Real.sqrt_one ⟨0, 1, 0, 1⟩).1⟩⟩

theorem mat4.mul_identity (a : mat4 F) : a * mat4.identity = a := by
  cases a
  simp [mat4_mul_def, mat4.mul, mat4.identity, vec4_add_def, vec4_mul_def]

/-- C14: when the sine of 0 is 0, the cosine of 0 is 1 and the unit axes normalise to
themselves, the three rotation factors of `SetTransformations(s, 0, 0, 0, p)` are the identity
and the matrix written to `model` is `Translate(p) * Scale(s)`: diagonal (s.x, s.y, s.z, 1),
last column (p.x, p.y, p.z, 1), zeros elsewhere. -/
theorem C14_zero_rotation_is_translate_scale (cm : CMath F) (hsin : cm.sin 0 = 0)
    (hcos : cm.cos 0 = 1) (hsqrt : cm.sqrt 1 = 1) (scaleXYZ positionXYZ : vec3 F)
    (s : SceneManager F) (sh : ShaderManager F) (hsh : s.m_pShaderManager = some sh) :
    glm.rotate cm (glm.radians 0) ⟨1, 0, 0⟩ = mat4.identity ∧
      glm.rotate cm (glm.radians 0) ⟨0, 1, 0⟩ = mat4.identity ∧
      glm.rotate cm (glm.radians 0) ⟨0, 0, 1⟩ = mat4.identity ∧
      glm.translate positionXYZ * glm.scale scaleXYZ =
        { c0 := ⟨scaleXYZ.x, 0, 0, 0⟩
          c1 := ⟨0, scaleXYZ.y, 0, 0⟩
          c2 := ⟨0, 0, scaleXYZ.z, 0⟩
          c3 := ⟨positionXYZ.x, positionXYZ.y, positionXYZ.z, 1⟩ } ∧
      ∃ sh2 : ShaderManager F,
        (SetTransformations cm scaleXYZ 0 0 0 positionXYZ s).m_pShaderManager = some sh2 ∧
        sh2.writes = ("model", UniformValue.mat4Value
          (glm.translate positionXYZ * glm.scale scaleXYZ)) :: sh.writes ∧
        sh2.uniform "model" = some (UniformValue.mat4Value
          (glm.translate positionXYZ * glm.scale scaleXYZ)) := by
  have hrad : glm.radians (0 : F) = 0 := by simp [glm.radians]
  have hx : glm.rotate cm (glm.radians 0) ⟨1, 0, 0⟩ = mat4.identity := by
    rw [glm.rotate_x cm hsqrt, hrad, hsin, hcos]
    simp [mat4.identity]
  have hy : glm.rotate cm (glm.radians 0) ⟨0, 1, 0⟩ = mat4.identity := by
    rw [glm.rotate_y cm hsqrt, hrad, hsin, hcos]
    simp [mat4.identity]
  have hz : glm.rotate cm (glm.radians 0) ⟨0, 0, 1⟩ = mat4.identity := by
    rw [glm.rotate_z cm hsqrt, hrad, hsin, hcos]
    simp [mat4.identity]
  have hmodel : glm.translate positionXYZ * glm.rotate cm (glm.radians 0) ⟨0, 0, 1⟩
      * glm.rotate cm (glm.radians 0) ⟨0, 1, 0⟩ * glm.rotate cm (glm.radians 0) ⟨1, 0, 0⟩
      * glm.scale scaleXYZ = glm.translate positionXYZ * glm.scale scaleXYZ := by
    rw [hx, hy, hz, mat4.mul_identity, mat4.mul_identity, mat4.mul_identity]
  refine ⟨hx, hy, hz, ?_, ?_⟩
  · simp [glm.translate_eq, glm.scale_eq, mat4_mul_def, mat4.mul, vec4_add_def, vec4_mul_def]
  · have hwrite := SetTransformations_write cm scaleXYZ 0 0 0 positionXYZ s sh hsh
    rw [hmodel] at hwrite
    refine ⟨_, hwrite, rfl, ?_⟩
    simp [ShaderManager.uniform]

/-- Witness for `C14_zero_rotation_is_translate_scale`: the real sine, cosine and square
root, a scale (2,3,4) and a translation (5,6,7). -/
theorem C14_zero_rotation_is_translate_scale_witness :
    Real.sin 0 = 0 ∧ Real.cos 0 = 1 ∧ Real.sqrt 1 = 1 ∧
      (shaderScene ℝ).m_pShaderManager = some { writes := [] } ∧
      ∃ sh2 : ShaderManager ℝ,
        (SetTransformations (CMath.mk Real.sin Real.cos Real.sqrt) ⟨2, 3, 4⟩ 0 0 0 ⟨5, 6, 7⟩
          (shaderScene ℝ)).m_pShaderManager = some sh2 ∧
        sh2.uniform "model" = some (UniformValue.mat4Value
          (glm.translate ⟨5, 6, 7⟩ * glm.scale ⟨2, 3, 4⟩)) :=
  ⟨Real.sin_zero, Real.cos_zero, Real.sqrt_one, rfl,
    match (C14_zero_rotation_is_translate_scale (CMath.mk Real.sin Real.cos Real.sqrt)
      Real.sin_zero Real.cos_zero Real.sqrt_one ⟨2, 3, 4⟩ ⟨5, 6, 7⟩ (shaderScene ℝ)
      { writes := [] } rfl).2.2.2.2 with
    | ⟨sh2, h1, _, h3⟩ => ⟨sh2, h1, h3⟩⟩

end ModelMatrix

/-! ## The animated lights -/

/-- What `RenderScene.setup` leaves in the four animated position uniforms. -/
theorem RenderScene.setup_positions [Field F] (cm : CMath F) (timeValue : F)
    (s : SceneManager F) (sh : ShaderManager F) (hsh : s.m_pShaderManager = some sh) :
    ∃ (s2 : SceneManager F) (sh2 : ShaderManager F),
      RenderScene.setup cm timeValue s = some s2 ∧
      s2.m_pShaderManager = some sh2 ∧
      sh2.uniform "pointLights[0].position"
        = some (UniformValue.vec3Value (RenderScene.lightPos1 cm timeValue)) ∧
      sh2.uniform "pointLights[1].position"
        = some (UniformValue.vec3Value (RenderScene.lightPos2 cm timeValue)) ∧
      sh2.uniform "pointLights[2].position"
        = some (UniformValue.vec3Value (RenderScene.lightPos2_1 cm timeValue)) ∧
      sh2.uniform "pointLights[3].position"
        = some (UniformValue.vec3Value (RenderScene.lightPos2_2 cm timeValue)) := by
  refine ⟨_, _, by simp only [RenderScene.setup, hsh, SetShaderLights, BindGLTextures]; rfl,
    rfl, ?_, ?_, ?_, ?_⟩ <;> rfl

section AnimatedLights

variable [LinearOrderedField F]

/-- C15: as long as the sine of the elapsed time lies in [-1, 1], the oscillator
`t = (sin(time) + 1) / 2` and `1 - t` lie in [0, 1]; each of the four animated light positions
that `RenderScene` writes is a convex combination of the two endpoints of its path and stays
within the segment between them. -/
theorem C15_oscillator_in_unit_interval (cm : CMath F) (timeValue : F)
    (hsin : -1 ≤ cm.sin timeValue ∧ cm.sin timeValue ≤ 1) :
    (0 ≤ RenderScene.t cm timeValue ∧ RenderScene.t cm timeValue ≤ 1) ∧
      (0 ≤ 1 - RenderScene.t cm timeValue ∧ 1 - RenderScene.t cm timeValue ≤ 1) ∧
      onSegment RenderScene.startPoint1 RenderScene.endPoint1
        (RenderScene.lightPos1 cm timeValue) ∧
      onSegment RenderScene.startPoint1 RenderScene.endPoint1
        (RenderScene.lightPos2 cm timeValue) ∧
      onSegment RenderScene.startPoint2 RenderScene.endPoint2
        (RenderScene.lightPos2_1 cm timeValue) ∧
      onSegment RenderScene.startPoint2 RenderScene.endPoint2
        (RenderScene.lightPos2_2 cm timeValue) ∧
      (∀ p : vec3 F,
        p = RenderScene.lightPos1 cm timeValue ∨ p = RenderScene.lightPos2 cm timeValue →
        0 ≤ p.x ∧ p.x ≤ 14.4 ∧ 13 ≤ p.y ∧ p.y ≤ 15.5 ∧ p.z = -8.9) ∧
      (∀ p : vec3 F,
        p = RenderScene.lightPos2_1 cm timeValue ∨ p = RenderScene.lightPos2_2 cm timeValue →
        -14.4 ≤ p.x ∧ p.x ≤ 0 ∧ 13 ≤ p.y ∧ p.y ≤ 15.5 ∧ p.z = -8.9) ∧
      ∀ (s : SceneManager F) (sh : ShaderManager F), s.m_pShaderManager = some sh →
        ∃ (s2 : SceneManager F) (sh2 : ShaderManager F),
          RenderScene.setup cm timeValue s = some s2 ∧
          s2.m_pShaderManager = some sh2 ∧
          sh2.uniform "pointLights[0].position"
            = some (UniformValue.vec3Value (RenderScene.lightPos1 cm timeValue)) ∧
          sh2.uniform "pointLights[1].position"
            = some (UniformValue.vec3Value (RenderScene.lightPos2 cm timeValue)) ∧
          sh2.uniform "pointLights[2].position"
            = some (UniformValue.vec3Value (RenderScene.lightPos2_1 cm timeValue)) ∧
          sh2.uniform "pointLights[3].position"
            = some (UniformValue.vec3Value (RenderScene.lightPos2_2 cm timeValue)) := by
  obtain ⟨hlo, hhi⟩ := hsin
  have ht0 : 0 ≤ RenderScene.t cm timeValue := by
    unfold RenderScene.t
    apply div_nonneg <;> linarith
  have ht1 : RenderScene.t cm timeValue ≤ 1 := by
    unfold RenderScene.t
    rw [div_le_one (by norm_num)]
    linarith
  have hu0 : 0 ≤ 1 - RenderScene.t cm timeValue := by linarith
  have hu1 : 1 - RenderScene.t cm timeValue ≤ 1 := by linarith
  refine ⟨⟨ht0, ht1⟩, ⟨hu0, hu1⟩, ⟨_, ht0, ht1, rfl⟩, ⟨_, hu0, hu1, rfl⟩, ⟨_, ht0, ht1, rfl⟩,
    ⟨_, hu0, hu1, rfl⟩, ?_, ?_, fun s sh hsh => RenderScene.setup_positions cm timeValue s sh hsh⟩
  · rintro p (hp | hp) <;> subst hp <;>
      simp only [RenderScene.lightPos1, RenderScene.lightPos2, glm.mix,
        RenderScene.startPoint1, RenderScene.endPoint1, vec3_add_def, vec3_mul_def] <;>
      refine ⟨?_, ?_, ?_, ?_, ?_⟩ <;> linarith
  · rintro p (hp | hp) <;> subst hp <;>
      simp only [RenderScene.lightPos2_1, RenderScene.lightPos2_2, glm.mix,
        RenderScene.startPoint2, RenderScene.endPoint2, vec3_add_def, vec3_mul_def] <;>
      refine ⟨?_, ?_, ?_, ?_, ?_⟩ <;> linarith

/-- Witness for `C15_oscillator_in_unit_interval`: the real sine at elapsed time 2. -/
theorem C15_oscillator_in_unit_interval_witness :
    (-1 ≤ Real.sin 2 ∧ Real.sin 2 ≤ 1) ∧
      (0 ≤ RenderScene.t (CMath.mk Real.sin Real.cos Real.sqrt) 2 ∧
        RenderScene.t (CMath.mk Real.sin Real.cos Real.sqrt) 2 ≤ 1) ∧
      (0 ≤ 1 - RenderScene.t (CMath.mk Real.sin Real.cos Real.sqrt) 2 ∧
        1 - RenderScene.t (CMath.mk Real.sin Real.cos Real.sqrt) 2 ≤ 1) :=
  ⟨⟨Real.neg_one_le_sin 2, Real.sin_le_one 2⟩,
    (C15_oscillator_in_unit_interval (CMath.mk Real.sin Real.cos Real.sqrt) 2
      ⟨Real.neg_one_le_sin 2, Real.sin_le_one 2⟩).1,
    (C15_oscillator_in_unit_interval (CMath.mk Real.sin Real.cos Real.sqrt) 2
      ⟨Real.neg_one_le_sin 2, Real.sin_le_one 2⟩).2.1⟩

/-- C16: at elapsed time 0, when the sine of 0 is 0, the oscillator is 1/2 and every animated
light sits at the midpoint of its path: `pointLights[0]` and `pointLights[1]` at
(7.2, 14.25, -8.9), `pointLights[2]` and `pointLights[3]` at (-7.2, 14.25, -8.9). -/
theorem C16_midpoints_at_time_zero (cm : CMath F) (hsin : cm.sin 0 = 0)
    (s : SceneManager F) (sh : ShaderManager F) (hsh : s.m_pShaderManager = some sh) :
    RenderScene.t cm 0 = 1 / 2 ∧
      ∃ (s2 : SceneManager F) (sh2 : ShaderManager F),
        RenderScene.setup cm 0 s = some s2 ∧
        s2.m_pShaderManager = some sh2 ∧
        sh2.uniform "pointLights[0].position"
          = some (UniformValue.vec3Value ⟨7.2, 14.25, -8.9⟩) ∧
        sh2.uniform "pointLights[1].position"
          = some (UniformValue.vec3Value ⟨7.2, 14.25, -8.9⟩) ∧
        sh2.uniform "pointLights[2].position"
          = some (UniformValue.vec3Value ⟨-7.2, 14.25, -8.9⟩) ∧
        sh2.uniform "pointLights[3].position"
          = some (UniformValue.vec3Value ⟨-7.2, 14.25, -8.9⟩) := by
  have ht : RenderScene.t cm 0 = 1 / 2 := by simp [RenderScene.t, hsin]
  have h1 : RenderScene.lightPos1 cm 0 = ⟨7.2, 14.25, -8.9⟩ := by
    simp only [RenderScene.lightPos1, glm.mix, ht, RenderScene.startPoint1,
      RenderScene.endPoint1, vec3_add_def, vec3_mul_def, vec3.mk.injEq]
    norm_num
  have h2 : RenderScene.lightPos2 cm 0 = ⟨7.2, 14.25, -8.9⟩ := by
    simp only [RenderScene.lightPos2, glm.mix, ht, RenderScene.startPoint1,
      RenderScene.endPoint1, vec3_add_def, vec3_mul_def, vec3.mk.injEq]
    norm_num
  have h3 : RenderScene.lightPos2_1 cm 0 = ⟨-7.2, 14.25, -8.9⟩ := by
    simp only [RenderScene.lightPos2_1, glm.mix, ht, RenderScene.startPoint2,
      RenderScene.endPoint2, vec3_add_def, vec3_mul_def, vec3.mk.injEq]
    norm_num
  have h4 : RenderScene.lightPos2_2 cm 0 = ⟨-7.2, 14.25, -8.9⟩ := by
    simp only [RenderScene.lightPos2_2, glm.mix, ht, RenderScene.startPoint2,
      RenderScene.endPoint2, vec3_add_def, vec3_mul_def, vec3.mk.injEq]
    norm_num
  obtain ⟨s2, sh2, hrun, hs2, p0, p1, p2, p3⟩ := RenderScene.setup_positions cm 0 s sh hsh
  rw [h1] at p0
  rw [h2] at p1
  rw [h3] at p2
  rw [h4] at p3
  exact ⟨ht, s2, sh2, hrun, hs2, p0, p1, p2, p3⟩

/-- Witness for `C16_midpoints_at_time_zero`: the real sine, on a scene whose shader manager
has received no write. -/
theorem C16_midpoints_at_time_zero_witness :
    Real.sin 0 = 0 ∧ (shaderScene ℝ).m_pShaderManager = some { writes := [] } ∧
      RenderScene.t (CMath.mk Real.sin Real.cos Real.sqrt) 0 = 1 / 2 ∧
      ∃ (s2 : SceneManager ℝ) (sh2 : ShaderManager ℝ),
        RenderScene.setup (CMath.mk Real.sin Real.cos Real.sqrt) 0 (shaderScene ℝ) = some s2 ∧
        s2.m_pShaderManager = some sh2 ∧
        sh2.uniform "pointLights[0].position"
          = some (UniformValue.vec3Value ⟨7.2, 14.25, -8.9⟩) ∧
        sh2.uniform "pointLights[1].position"
          = some (UniformValue.vec3Value ⟨7.2, 14.25, -8.9⟩) ∧
        sh2.uniform "pointLights[2].position"
          = some (UniformValue.vec3Value ⟨-7.2, 14.25, -8.9⟩) ∧
        sh2.uniform "pointLights[3].position"
          = some (UniformValue.vec3Value ⟨-7.2, 14.25, -8.9⟩) :=
  ⟨Real.sin_zero, rfl,
    C16_midpoints_at_time_zero (CMath.mk Real.sin Real.cos Real.sqrt) Real.sin_zero
      (shaderScene ℝ) { writes := [] } rfl⟩

/-- C17: at an elapsed time whose sine is 1 (pi/2 for the real sine) the oscillator is 1; on
each path the light interpolated with `t` is at the end point and its partner, interpolated
with `1 - t`, at the start point: `pointLights[0]` at (14.4, 13, -8.9) and `pointLights[2]` at
(-14.4, 13, -8.9), `pointLights[1]` and `pointLights[3]` at (0, 15.5, -8.9). -/
theorem C17_endpoints_at_sine_one (cm : CMath F) (timeValue : F)
    (hsin : cm.sin timeValue = 1)
    (s : SceneManager F) (sh : ShaderManager F) (hsh : s.m_pShaderManager = some sh) :
    RenderScene.t cm timeValue = 1 ∧
      ∃ (s2 : SceneManager F) (sh2 : ShaderManager F),
        RenderScene.setup cm timeValue s = some s2 ∧
        s2.m_pShaderManager = some sh2 ∧
        sh2.uniform "pointLights[0].position"
          = some (UniformValue.vec3Value ⟨14.4, 13, -8.9⟩) ∧
        sh2.uniform "pointLights[1].position"
          = some (UniformValue.vec3Value ⟨0, 15.5, -8.9⟩) ∧
        sh2.uniform "pointLights[2].position"
          = some (UniformValue.vec3Value ⟨-14.4, 13, -8.9⟩) ∧
        sh2.uniform "pointLights[3].position"
          = some (UniformValue.vec3Value ⟨0, 15.5, -8.9⟩) := by
  have ht : RenderScene.t cm timeValue = 1 := by
    simp only [RenderScene.t, hsin]
    norm_num
  have h1 : RenderScene.lightPos1 cm timeValue = ⟨14.4, 13, -8.9⟩ := by
    simp only [RenderScene.lightPos1, glm.mix, ht, RenderScene.startPoint1,
      RenderScene.endPoint1, vec3_add_def, vec3_mul_def, vec3.mk.injEq]
    norm_num
  have h2 : RenderScene.lightPos2 cm timeValue = ⟨0, 15.5, -8.9⟩ := by
    simp only [RenderScene.lightPos2, glm.mix, ht, RenderScene.startPoint1,
      RenderScene.endPoint1, vec3_add_def, vec3_mul_def, vec3.mk.injEq]
    norm_num
  have h3 : RenderScene.lightPos2_1 cm timeValue = ⟨-14.4, 13, -8.9⟩ := by
    simp only [RenderScene.lightPos2_1, glm.mix, ht, RenderScene.startPoint2,
      RenderScene.endPoint2, vec3_add_def, vec3_mul_def, vec3.mk.injEq]
    norm_num
  have h4 : RenderScene.lightPos2_2 cm timeValue = ⟨0, 15.5, -8.9⟩ := by
    simp only [RenderScene.lightPos2_2, glm.mix, ht, RenderScene.startPoint2,
      RenderScene.endPoint2, vec3_add_def, vec3_mul_def, vec3.mk.injEq]
    norm_num
  obtain ⟨s2, sh2, hrun, hs2, p0, p1, p2, p3⟩ :=
    RenderScene.setup_positions cm timeValue s sh hsh
  rw [h1] at p0
  rw [h2] at p1
  rw [h3] at p2
  rw [h4] at p3
  exact ⟨ht, s2, sh2, hrun, hs2, p0, p1, p2, p3⟩

/-- Witness for `C17_endpoints_at_sine_one`: the real sine at elapsed time pi/2. -/
theorem C17_endpoints_at_sine_one_witness :
    Real.sin (Real.pi / 2) = 1 ∧ (shaderScene ℝ).m_pShaderManager = some { writes := [] } ∧
      RenderScene.t (CMath.mk Real.sin Real.cos Real.sqrt) (Real.pi / 2) = 1 ∧
      ∃ (s2 : SceneManager ℝ) (sh2 : ShaderManager ℝ),
        RenderScene.setup (CMath.mk Real.sin Real.cos Real.sqrt) (Real.pi / 2) (shaderScene ℝ)
          = some s2 ∧
        s2.m_pShaderManager = some sh2 ∧
        sh2.uniform "pointLights[0].position"
          = some (UniformValue.vec3Value ⟨14.4, 13, -8.9⟩) ∧
        sh2.uniform "pointLights[1].position"
          = some (UniformValue.vec3Value ⟨0, 15.5, -8.9⟩) ∧
        sh2.uniform "pointLights[2].position"
          = some (UniformValue.vec3Value ⟨-14.4, 13, -8.9⟩) ∧
        sh2.uniform "pointLights[3].position"
          = some (UniformValue.vec3Value ⟨0, 15.5, -8.9⟩) :=
  ⟨Real.sin_pi_div_two, rfl,
    C17_endpoints_at_sine_one (CMath.mk Real.sin Real.cos Real.sqrt) (Real.pi / 2)
      Real.sin_pi_div_two (shaderScene ℝ) { writes := [] } rfl⟩

end AnimatedLights

/-- C18: for every elapsed time, the position written to `pointLights[2]` is the position
written to `pointLights[0]` with its x coordinate negated, `pointLights[3]` mirrors
`pointLights[1]` in the same way, and the positions of the two lights that share a path sum to
the sum of that path's start and end points. -/
theorem C18_counter_phase_mirrored [Field F] (cm : CMath F) (timeValue : F)
    (s : SceneManager F) (sh : ShaderManager F) (hsh : s.m_pShaderManager = some sh) :
    ∃ (s2 : SceneManager F) (sh2 : ShaderManager F) (p0 p1 p2 p3 : vec3 F),
      RenderScene.setup cm timeValue s = some s2 ∧
      s2.m_pShaderManager = some sh2 ∧
      sh2.uniform "pointLights[0].position" = some (UniformValue.vec3Value p0) ∧
      sh2.uniform "pointLights[1].position" = some (UniformValue.vec3Value p1) ∧
      sh2.uniform "pointLights[2].position" = some (UniformValue.vec3Value p2) ∧
      sh2.uniform "pointLights[3].position" = some (UniformValue.vec3Value p3) ∧
      p2 = ⟨-p0.x, p0.y, p0.z⟩ ∧
      p3 = ⟨-p1.x, p1.y, p1.z⟩ ∧
      p0 + p1 = RenderScene.startPoint1 + RenderScene.endPoint1 ∧
      p2 + p3 = RenderScene.startPoint2 + RenderScene.endPoint2 := by
  obtain ⟨s2, sh2, hrun, hs2, h0, h1, h2, h3⟩ :=
    RenderScene.setup_positions cm timeValue s sh hsh
  refine ⟨s2, sh2, _, _, _, _, hrun, hs2, h0, h1, h2, h3, ?_, ?_, ?_, ?_⟩ <;>
    simp only [RenderScene.lightPos1, RenderScene.lightPos2, RenderScene.lightPos2_1,
      RenderScene.lightPos2_2, glm.mix, RenderScene.startPoint1, RenderScene.endPoint1,
      RenderScene.startPoint2, RenderScene.endPoint2, vec3_add_def, vec3_mul_def,
      vec3.mk.injEq] <;>
    refine ⟨?_, ?_, ?_⟩ <;> first | trivial | ring1

/-- Witness for `C18_counter_phase_mirrored`: the real sine at elapsed time 2. -/
theorem C18_counter_phase_mirrored_witness :
    (shaderScene ℝ).m_pShaderManager = some { writes := [] } ∧
      ∃ (s2 : SceneManager ℝ) (sh2 : ShaderManager ℝ) (p0 p1 p2 p3 : vec3 ℝ),
        RenderScene.setup (CMath.mk Real.sin Real.cos Real.sqrt) 2 (shaderScene ℝ) = some s2 ∧
        s2.m_pShaderManager = some sh2 ∧
        sh2.uniform "pointLights[0].position" = some (UniformValue.vec3Value p0) ∧
        sh2.uniform "pointLights[1].position" = some (UniformValue.vec3Value p1) ∧
        sh2.uniform "pointLights[2].position" = some (UniformValue.vec3Value p2) ∧
        sh2.uniform "pointLights[3].position" = some (UniformValue.vec3Value p3) ∧
        p2 = ⟨-p0.x, p0.y, p0.z⟩ ∧
        p3 = ⟨-p1.x, p1.y, p1.z⟩ ∧
        p0 + p1 = RenderScene.startPoint1 + RenderScene.endPoint1 ∧
        p2 + p3 = RenderScene.startPoint2 + RenderScene.endPoint2 :=
  ⟨rfl,
    C18_counter_phase_mirrored (CMath.mk Real.sin Real.cos Real.sqrt) 2 (shaderScene ℝ)
      { writes := [] } rfl⟩

/-! ## The baseline light configuration -/

/-- C19, as stated, fails: after `SetShaderLights` on a shader manager that had received no
write, the `bActive` flags of `pointLights[0..5]` are true, false, true, unwritten, unwritten,
true. One flag is false, not four; three are true, not two; and the flags of slots 3 and 4
have not been written. -/
theorem C19_counterexample :
    ((SetShaderLights (CMath.mk Real.sin Real.cos Real.sqrt) (shaderScene ℝ)).bind
        (fun s2 => s2.m_pShaderManager)).map pointLightFlags
        = some [some true, some false, some true, none, none, some true] ∧
      ((SetShaderLights (CMath.mk Real.sin Real.cos Real.sqrt) (shaderScene ℝ)).bind
        (fun s2 => s2.m_pShaderManager)).map
          (fun sh2 => (pointLightFlags sh2).count (some false)) = some 1 ∧
      ((SetShaderLights (CMath.mk Real.sin Real.cos Real.sqrt) (shaderScene ℝ)).bind
        (fun s2 => s2.m_pShaderManager)).map
          (fun sh2 => (pointLightFlags sh2).count (some true)) = some 3 ∧
      ((SetShaderLights (CMath.mk Real.sin Real.cos Real.sqrt) (shaderScene ℝ)).bind
        (fun s2 => s2.m_pShaderManager)).map
          (fun sh2 => (pointLightFlags sh2).count none) = some 2 :=
  ⟨rfl, rfl, rfl, rfl⟩

/-- C19 (amended): with a shader manager attached, `SetShaderLights` makes 62 uniform writes,
six of them to a point light's `bActive`: false for slots 0, 1 and 2 in this order, then true
for slots 2, 0 and 5. After the call `bActive` is true for `pointLights[0]`, `pointLights[2]`
and `pointLights[5]` and false for `pointLights[1]`; the call does not write the flags of
`pointLights[3]` and `pointLights[4]`, which keep whatever value they had. -/
theorem C19_baseline_active_flags [Field F] (cm : CMath F) (s : SceneManager F)
    (sh : ShaderManager F) (hsh : s.m_pShaderManager = some sh) :
    ∃ (s2 : SceneManager F) (sh2 : ShaderManager F),
      SetShaderLights cm s = some s2 ∧
      s2.m_pShaderManager = some sh2 ∧
      sh2.writes = SetShaderLights.writes cm ++ sh.writes ∧
      (SetShaderLights.writes cm).length = 62 ∧
      pointLightActiveWrites (SetShaderLights.writes cm) =
        [("pointLights[5].bActive", UniformValue.boolValue true),
          ("pointLights[0].bActive", UniformValue.boolValue true),
          ("pointLights[2].bActive", UniformValue.boolValue true),
          ("pointLights[2].bActive", UniformValue.boolValue false),
          ("pointLights[1].bActive", UniformValue.boolValue false),
          ("pointLights[0].bActive", UniformValue.boolValue false)] ∧
      pointLightActive sh2 0 = some true ∧
      pointLightActive sh2 1 = some false ∧
      pointLightActive sh2 2 = some true ∧
      pointLightActive sh2 5 = some true ∧
      pointLightActive sh2 3 = pointLightActive sh 3 ∧
      pointLightActive sh2 4 = pointLightActive sh 4 := by
  refine ⟨_, _, by rw [SetShaderLights, hsh], rfl, ?_, ?_, ?_, ?_, ?_, ?_, ?_, ?_, ?_⟩ <;> rfl

/-- Witness for `C19_baseline_active_flags`: the real cosine, on a scene whose shader manager
has received no write. -/
theorem C19_baseline_active_flags_witness :
    (shaderScene ℝ).m_pShaderManager = some { writes := [] } ∧
      ∃ (s2 : SceneManager ℝ) (sh2 : ShaderManager ℝ),
        SetShaderLights (CMath.mk Real.sin Real.cos Real.sqrt) (shaderScene ℝ) = some s2 ∧
        s2.m_pShaderManager = some sh2 ∧
        pointLightActive sh2 0 = some true ∧
        pointLightActive sh2 1 = some false ∧
        pointLightActive sh2 2 = some true ∧
        pointLightActive sh2 5 = some true :=
  ⟨rfl,
    match C19_baseline_active_flags (CMath.mk Real.sin Real.cos Real.sqrt) (shaderScene ℝ)
      { writes := [] } rfl with
    | ⟨s2, sh2, h1, h2, _, _, _, a0, a1, a2, a5, _, _⟩ => ⟨s2, sh2, h1, h2, a0, a1, a2, a5⟩⟩

/-! ## The light-space matrix of the depth pass -/

section LookAt

variable [LinearOrderedField F]

/-- The vector `glm::normalize` answers once the square root of the squared length is known. -/
theorem glm.normalize_eq (cm : CMath F) (v : vec3 F) (r : F)
    (hr : cm.sqrt (glm.dot v v) = r) :
    glm.normalize cm v = ⟨v.x / r, v.y / r, v.z / r⟩ := by
  unfold glm.normalize glm.inversesqrt
  rw [hr]
  simp only [vec3_mul_def, vec3.mk.injEq]
  refine ⟨by ring, by ring, by ring⟩

/-- A square root that is non-negative and squares back answers `c` on `c * c`, for `c`
non-negative. -/
theorem CMath.sqrt_mul_self (cm : CMath F) (hnn : ∀ a : F, 0 ≤ cm.sqrt a)
    (hsq : ∀ a : F, 0 ≤ a → cm.sqrt a * cm.sqrt a = a) (c : F) (hc : 0 ≤ c) :
    cm.sqrt (c * c) = c :=
  (mul_self_inj (hnn _) hc).1 (hsq _ (mul_self_nonneg c))

/-- The view matrix of the light: `lookAt((0, 14, -9.85), (0, 0, 0), (0, 1, 0))` entry by
entry, for a square root that is non-negative and squares back; `d` is the square root of
293.0225, the distance of the eye from the origin. -/
theorem glm.lookAt_light (cm : CMath F) (hnn : ∀ a : F, 0 ≤ cm.sqrt a)
    (hsq : ∀ a : F, 0 ≤ a → cm.sqrt a * cm.sqrt a = a) :
    glm.lookAt cm ⟨0, 14, -9.85⟩ ⟨0, 0, 0⟩ ⟨0, 1, 0⟩ =
      { c0 := ⟨-1, 0, 0, 0⟩
        c1 := ⟨0, 9.85 / cm.sqrt 293.0225, 14 / cm.sqrt 293.0225, 0⟩
        c2 := ⟨0, 14 / cm.sqrt 293.0225, -9.85 / cm.sqrt 293.0225, 0⟩
        c3 := ⟨0, 0, -cm.sqrt 293.0225, 1⟩ } := by
  have hd2 : cm.sqrt 293.0225 * cm.sqrt 293.0225 = 293.0225 := hsq _ (by norm_num)
  have hd0 : cm.sqrt 293.0225 ≠ 0 := by
    intro h
    rw [h] at hd2
    norm_num at hd2
  have hdpos : 0 < cm.sqrt 293.0225 := lt_of_le_of_ne (hnn _) (Ne.symm hd0)
  have hdot : glm.dot ((⟨0, 0, 0⟩ : vec3 F) - ⟨0, 14, -9.85⟩)
      ((⟨0, 0, 0⟩ : vec3 F) - ⟨0, 14, -9.85⟩) = 293.0225 := by
    simp only [glm.dot, vec3_sub_def]
    norm_num
  have hf : glm.normalize cm ((⟨0, 0, 0⟩ : vec3 F) - ⟨0, 14, -9.85⟩)
      = ⟨0, -14 / cm.sqrt 293.0225, 9.85 / cm.sqrt 293.0225⟩ := by
    rw [glm.normalize_eq cm _ (cm.sqrt 293.0225) (by rw [hdot])]
    simp only [vec3_sub_def, vec3.mk.injEq]
    refine ⟨by ring, by ring, by ring⟩
  have hc : glm.cross (⟨0, -14 / cm.sqrt 293.0225, 9.85 / cm.sqrt 293.0225⟩ : vec3 F)
      ⟨0, 1, 0⟩ = ⟨-(9.85 / cm.sqrt 293.0225), 0, 0⟩ := by
    simp only [glm.cross, vec3.mk.injEq]
    refine ⟨by ring, by ring, by ring⟩
  have hq : 0 ≤ 9.85 / cm.sqrt 293.0225 := div_nonneg (by norm_num) (le_of_lt hdpos)
  have hq0 : 9.85 / cm.sqrt 293.0225 ≠ 0 := div_ne_zero (by norm_num) hd0
  have he : cm.sqrt (glm.dot (⟨-(9.85 / cm.sqrt 293.0225), 0, 0⟩ : vec3 F)
      ⟨-(9.85 / cm.sqrt 293.0225), 0, 0⟩) = 9.85 / cm.sqrt 293.0225 := by
    have harg : glm.dot (⟨-(9.85 / cm.sqrt 293.0225), 0, 0⟩ : vec3 F)
        ⟨-(9.85 / cm.sqrt 293.0225), 0, 0⟩
        = 9.85 / cm.sqrt 293.0225 * (9.85 / cm.sqrt 293.0225) := by
      simp only [glm.dot]
      ring
    rw [harg]
    exact CMath.sqrt_mul_self cm hnn hsq _ hq
  have hs : glm.normalize cm (⟨-(9.85 / cm.sqrt 293.0225), 0, 0⟩ : vec3 F) = ⟨-1, 0, 0⟩ := by
    rw [glm.normalize_eq cm _ _ he]
    simp only [vec3.mk.injEq]
    refine ⟨?_, by simp, by simp⟩
    rw [neg_div, div_self hq0]
  simp only [glm.lookAt, hf, hc, hs]
  simp only [glm.cross, glm.dot, mat4.mk.injEq, vec4.mk.injEq]
  refine ⟨⟨?_, ?_, ?_, ?_⟩, ⟨?_, ?_, ?_, ?_⟩, ⟨?_, ?_, ?_, ?_⟩, ⟨?_, ?_, ?_, ?_⟩⟩ <;>
    first
      | trivial
      | ring1
      | skip
  have h3 : (0 : F) * 0 + -14 / cm.sqrt 293.0225 * 14 + 9.85 / cm.sqrt 293.0225 * -9.85
      = -(293.0225 / cm.sqrt 293.0225) := by
    field_simp
    ring
  rw [h3, neg_inj, div_eq_iff hd0, hd2]

/-- The light-space matrix entry by entry, for a square root that is non-negative and squares
back. -/
theorem lightSpaceMatrix_entries (cm : CMath F) (hnn : ∀ a : F, 0 ≤ cm.sqrt a)
    (hsq : ∀ a : F, 0 ≤ a → cm.sqrt a * cm.sqrt a = a) :
    RenderSceneFromLightPerspective.lightSpaceMatrix cm =
      { c0 := ⟨-1 / 10, 0, 0, 0⟩
        c1 := ⟨0, 9.85 / cm.sqrt 293.0225 / 10, -2 / 49 * (14 / cm.sqrt 293.0225), 0⟩
        c2 := ⟨0, 14 / cm.sqrt 293.0225 / 10, 2 / 49 * (9.85 / cm.sqrt 293.0225), 0⟩
        c3 := ⟨0, 0, (2 * cm.sqrt 293.0225 - 51) / 49, 1⟩ } := by
  unfold RenderSceneFromLightPerspective.lightSpaceMatrix
  simp only [glm.lookAt_light cm hnn hsq, glm.ortho, mat4_mul_def, mat4.mul, vec4_mul_def,
    vec4_add_def, mat4.mk.injEq, vec4.mk.injEq]
  refine ⟨⟨?_, ?_, ?_, ?_⟩, ⟨?_, ?_, ?_, ?_⟩, ⟨?_, ?_, ?_, ?_⟩, ⟨?_, ?_, ?_, ?_⟩⟩ <;>
    first
      | trivial
      | ring1

end LookAt

/-- C20: `RenderSceneFromLightPerspective` hands the scene script a shader manager to which it
has written, as `lightSpaceMatrix`, the product of `ortho(-10, 10, -10, 10, 1, 50)` and
`lookAt((0, 14, -9.85), (0, 0, 0), (0, 1, 0))`; the eye is the point `SetShaderLights` writes
as `spotLight.position`. The matrix is built from constants only: it is the same for every
state and takes no time or camera input. The orthographic factor is the diagonal matrix
(1/10, 1/10, -2/49, 1) with last column (0, 0, -51/49, 1). For a square root that is
non-negative and squares back, the look-at factor has the rows (-1, 0, 0 | 0),
(0, 9.85/d, 14/d | 0), (0, 14/d, -9.85/d | -d), (0, 0, 0 | 1), where `d` is the square root
of 293.0225, the distance of the eye from the origin: side axis -x, up axis (0, 9.85, 14)/d,
view direction (0, -14, 9.85)/d; and the product is given entry by entry. -/
theorem C20_light_space_matrix [LinearOrderedField F] (cm : CMath F)
    (RenderScene : SceneManager F → Option (SceneManager F)) (s : SceneManager F)
    (sh : ShaderManager F) (hsh : s.m_pShaderManager = some sh) :
    RenderSceneFromLightPerspective.lightSpaceMatrix cm =
        glm.ortho (-10) 10 (-10) 10 1 50 * glm.lookAt cm ⟨0, 14, -9.85⟩ ⟨0, 0, 0⟩ ⟨0, 1, 0⟩ ∧
      (glm.ortho (-10) 10 (-10) 10 1 50 : mat4 F) =
        { c0 := ⟨1 / 10, 0, 0, 0⟩
          c1 := ⟨0, 1 / 10, 0, 0⟩
          c2 := ⟨0, 0, -2 / 49, 0⟩
          c3 := ⟨0, 0, -51 / 49, 1⟩ } ∧
      ((∀ a : F, 0 ≤ cm.sqrt a) → (∀ a : F, 0 ≤ a → cm.sqrt a * cm.sqrt a = a) →
        glm.lookAt cm ⟨0, 14, -9.85⟩ ⟨0, 0, 0⟩ ⟨0, 1, 0⟩ =
          { c0 := ⟨-1, 0, 0, 0⟩
            c1 := ⟨0, 9.85 / cm.sqrt 293.0225, 14 / cm.sqrt 293.0225, 0⟩
            c2 := ⟨0, 14 / cm.sqrt 293.0225, -9.85 / cm.sqrt 293.0225, 0⟩
            c3 := ⟨0, 0, -cm.sqrt 293.0225, 1⟩ } ∧
        RenderSceneFromLightPerspective.lightSpaceMatrix cm =
          { c0 := ⟨-1 / 10, 0, 0, 0⟩
            c1 := ⟨0, 9.85 / cm.sqrt 293.0225 / 10, -2 / 49 * (14 / cm.sqrt 293.0225), 0⟩
            c2 := ⟨0, 14 / cm.sqrt 293.0225 / 10, 2 / 49 * (9.85 / cm.sqrt 293.0225), 0⟩
            c3 := ⟨0, 0, (2 * cm.sqrt 293.0225 - 51) / 49, 1⟩ }) ∧
      (∃ (s1 : SceneManager F) (sh1 : ShaderManager F),
        RenderSceneFromLightPerspective cm RenderScene s =
          (RenderScene s1).map (fun s3 => { s3 with gl := glBindFramebuffer 0 s3.gl }) ∧
        s1.m_pShaderManager = some sh1 ∧
        sh1.writes = ("lightSpaceMatrix", UniformValue.mat4Value
          (glm.ortho (-10) 10 (-10) 10 1 50
            * glm.lookAt cm ⟨0, 14, -9.85⟩ ⟨0, 0, 0⟩ ⟨0, 1, 0⟩)) :: sh.writes ∧
        sh1.uniform "lightSpaceMatrix" = some (UniformValue.mat4Value
          (glm.ortho (-10) 10 (-10) 10 1 50
            * glm.lookAt cm ⟨0, 14, -9.85⟩ ⟨0, 0, 0⟩ ⟨0, 1, 0⟩)) ∧
        s1.m_textureIDs = s.m_textureIDs ∧
        s1.m_objectMaterials = s.m_objectMaterials) ∧
      ∃ (s4 : SceneManager F) (sh4 : ShaderManager F),
        SetShaderLights cm s = some s4 ∧
        s4.m_pShaderManager = some sh4 ∧
        sh4.uniform "spotLight.position" = some (UniformValue.vec3Value ⟨0, 14, -9.85⟩) := by
  refine ⟨rfl, ?_,
    fun hnn hsq => ⟨glm.lookAt_light cm hnn hsq, lightSpaceMatrix_entries cm hnn hsq⟩, ?_, ?_⟩
  · simp only [glm.ortho, mat4.mk.injEq, vec4.mk.injEq]
    norm_num
  · refine ⟨{ s with
        m_pShaderManager := some
          { writes := ("lightSpaceMatrix", UniformValue.mat4Value
              (RenderSceneFromLightPerspective.lightSpaceMatrix cm)) :: sh.writes }
        gl := glClear false true
          (glBindFramebuffer s.depthMapFBO (glViewport 0 0 SHADOW_WIDTH SHADOW_HEIGHT s.gl)) },
      _, ?_, rfl, rfl, ?_, rfl, rfl⟩
    · have hmap : ∀ r : Option (SceneManager F),
          (match r with
            | none => none
            | some s3 => some { s3 with gl := glBindFramebuffer 0 s3.gl }) =
          r.map (fun s3 => { s3 with gl := glBindFramebuffer 0 s3.gl }) := by
        intro r
        cases r <;> rfl
      simp only [RenderSceneFromLightPerspective, hsh]
      exact hmap _
    · rfl
  · refine ⟨_, _, by rw [SetShaderLights, hsh], rfl, ?_⟩
    rfl

/-- Witness for `C20_light_space_matrix`: the real math functions, the start of `RenderScene`
as the scene script, on a scene whose shader manager has received no write; with the real
square root the look-at factor is the matrix of the statement. -/
theorem C20_light_space_matrix_witness :
    (shaderScene ℝ).m_pShaderManager = some { writes := [] } ∧
      RenderSceneFromLightPerspective.lightSpaceMatrix (CMath.mk Real.sin Real.cos Real.sqrt) =
        glm.ortho (-10) 10 (-10) 10 1 50
          * glm.lookAt (CMath.mk Real.sin Real.cos Real.sqrt) ⟨0, 14, -9.85⟩ ⟨0, 0, 0⟩
            ⟨0, 1, 0⟩ ∧
      (glm.ortho (-10) 10 (-10) 10 1 50 : mat4 ℝ) =
        { c0 := ⟨1 / 10, 0, 0, 0⟩
          c1 := ⟨0, 1 / 10, 0, 0⟩
          c2 := ⟨0, 0, -2 / 49, 0⟩
          c3 := ⟨0, 0, -51 / 49, 1⟩ } ∧
      glm.lookAt (CMath.mk Real.sin Real.cos Real.sqrt) ⟨0, 14, -9.85⟩ ⟨0, 0, 0⟩ ⟨0, 1, 0⟩ =
        { c0 := ⟨-1, 0, 0, 0⟩
          c1 := ⟨0, 9.85 / Real.sqrt 293.0225, 14 / Real.sqrt 293.0225, 0⟩
          c2 := ⟨0, 14 / Real.sqrt 293.0225, -9.85 / Real.sqrt 293.0225, 0⟩
          c3 := ⟨0, 0, -Real.sqrt 293.0225, 1⟩ } :=
  ⟨rfl,
    (C20_light_space_matrix (CMath.mk Real.sin Real.cos Real.sqrt)
      (RenderScene.setup (CMath.mk Real.sin Real.cos Real.sqrt) 0) (shaderScene ℝ)
      { writes := [] } rfl).1,
    (C20_light_space_matrix (CMath.mk Real.sin Real.cos Real.sqrt)
      (RenderScene.setup (CMath.mk Real.sin Real.cos Real.sqrt) 0) (shaderScene ℝ)
      { writes := [] } rfl).2.1,
    ((C20_light_space_matrix (CMath.mk Real.sin Real.cos Real.sqrt)
      (RenderScene.setup (CMath.mk Real.sin Real.cos Real.sqrt) 0) (shaderScene ℝ)
      { writes := [] } rfl).2.2.1 (fun a => Real.sqrt_nonneg a)
      (fun a ha => Real.mul_self_sqrt ha)).1⟩

end SceneManager

namespace ViewManager

variable {F : Type} [LinearOrderedField F]

/-! ## Camera speed -/

theorem Mouse_Scroll_Callback_speed (xOffset yOffset : F) (st : State F) :
    (Mouse_Scroll_Callback xOffset yOffset st).g_pCamera.MovementSpeed
      = max (st.g_pCamera.MovementSpeed + yOffset * 1) 1 := by
  unfold Mouse_Scroll_Callback SPEED_INCREMENT
  by_cases h : st.g_pCamera.MovementSpeed + yOffset * 1 < 1
  · simp only [h, if_true]
    rw [max_eq_right (le_of_lt h)]
  · simp only [h, if_false]
    rw [max_eq_left (not_lt.1 h)]

/-- C30: after `Mouse_Scroll_Callback` the camera speed is `max(oldSpeed + y * 1.0, 1.0)`,
whatever the old speed and the scroll offsets; it is therefore at least 1 after every
non-empty sequence of scroll events, stays at least 1 once it is, and is at least 1 after every
sequence of scroll events that starts from the state the constructor leaves (speed 20); the
callback changes no other field of the camera and no other global. -/
theorem C30_scroll_speed_clamped (xOffset yOffset : F) (st : State F) :
    (Mouse_Scroll_Callback xOffset yOffset st).g_pCamera.MovementSpeed
        = max (st.g_pCamera.MovementSpeed + yOffset * 1) 1 ∧
      1 ≤ (Mouse_Scroll_Callback xOffset yOffset st).g_pCamera.MovementSpeed ∧
      Mouse_Scroll_Callback xOffset yOffset st =
        { st with
          g_pCamera :=
            { st.g_pCamera with
              MovementSpeed := max (st.g_pCamera.MovementSpeed + yOffset * 1) 1 } } ∧
      (∀ events : List (F × F), events ≠ [] →
        1 ≤ (scrollAll events st).g_pCamera.MovementSpeed) ∧
      (∀ events : List (F × F), 1 ≤ st.g_pCamera.MovementSpeed →
        1 ≤ (scrollAll events st).g_pCamera.MovementSpeed) ∧
      (∀ events : List (F × F),
        1 ≤ (scrollAll events (initialState : State F)).g_pCamera.MovementSpeed) := by
  have hstep : ∀ (x y : F) (t : State F),
      1 ≤ (Mouse_Scroll_Callback x y t).g_pCamera.MovementSpeed := by
    intro x y t
    rw [Mouse_Scroll_Callback_speed]
    exact le_max_right _ _
  have hkeep : ∀ (events : List (F × F)) (t : State F), 1 ≤ t.g_pCamera.MovementSpeed →
      1 ≤ (scrollAll events t).g_pCamera.MovementSpeed := by
    intro events
    induction events with
    | nil => intro t ht; exact ht
    | cons e rest ih => intro t _; exact ih _ (hstep e.1 e.2 t)
  refine ⟨Mouse_Scroll_Callback_speed xOffset yOffset st, hstep xOffset yOffset st, ?_, ?_,
    fun events h => hkeep events st h,
    fun events => hkeep events initialState (by simp [initialState])⟩
  · unfold Mouse_Scroll_Callback SPEED_INCREMENT
    by_cases h : st.g_pCamera.MovementSpeed + yOffset * 1 < 1
    · simp only [h, if_true]
      rw [max_eq_right (le_of_lt h)]
    · simp only [h, if_false]
      rw [max_eq_left (not_lt.1 h)]
  · intro events hne
    cases events with
    | nil => exact absurd rfl hne
    | cons e rest => exact hkeep rest _ (hstep e.1 e.2 st)

/-- Witness for `C30_scroll_speed_clamped`: from the constructor's state, scrolling down by 25
and then up by 2 leaves the speed at least 1. -/
theorem C30_scroll_speed_clamped_witness :
    1 ≤ (scrollAll [((0 : ℚ), (-25 : ℚ)), (0, 2)] initialState).g_pCamera.MovementSpeed :=
  (C30_scroll_speed_clamped (0 : ℚ) 0 initialState).2.2.2.1 [(0, -25), (0, 2)] (by simp)

/-! ## Orthogonal views -/

/-- C26: with orthographic projection on, a step with the L key moves the stored view to the
next one of the cycle TOP_DOWN, SIDE, FRONT, TOP_DOWN and sets the camera position and front to
that view's preset, so three L steps come back to the same view; a step with the O key switches
orthographic projection on and selects TOP_DOWN with its preset, whatever the state; and with
orthographic projection off a step with the L key changes nothing. A step is a call of
`ProcessKeyboardEvents` with that one key pressed; for the view itself the movement keys and
ESCAPE may be pressed as well. -/
theorem C26_orthogonal_view_cycle
    (ProcessKeyboard : Camera_Movement → F → Camera F → Camera F) (st : State F) :
    (st.bOrthographicProjection = true →
      (ProcessKeyboardEvents ProcessKeyboard keyL st).currentOrthogonalView
        = nextView st.currentOrthogonalView ∧
      (ProcessKeyboardEvents ProcessKeyboard keyL st).bOrthographicProjection = true ∧
      ((ProcessKeyboardEvents ProcessKeyboard keyL st).g_pCamera.Position,
        (ProcessKeyboardEvents ProcessKeyboard keyL st).g_pCamera.Front)
        = viewPreset (nextView st.currentOrthogonalView)) ∧
      (st.bOrthographicProjection = true →
        (ProcessKeyboardEvents ProcessKeyboard keyL
          (ProcessKeyboardEvents ProcessKeyboard keyL
            (ProcessKeyboardEvents ProcessKeyboard keyL st))).currentOrthogonalView
          = st.currentOrthogonalView) ∧
      ((ProcessKeyboardEvents ProcessKeyboard keyO st).currentOrthogonalView
          = OrthogonalView.TOP_DOWN ∧
        (ProcessKeyboardEvents ProcessKeyboard keyO st).bOrthographicProjection = true ∧
        ((ProcessKeyboardEvents ProcessKeyboard keyO st).g_pCamera.Position,
          (ProcessKeyboardEvents ProcessKeyboard keyO st).g_pCamera.Front)
          = viewPreset OrthogonalView.TOP_DOWN) ∧
      (st.bOrthographicProjection = false →
        ProcessKeyboardEvents ProcessKeyboard keyL st = st) ∧
      (∀ keys : Keys, keys.L = true → keys.P = false → keys.O = false →
        st.bOrthographicProjection = true →
        (ProcessKeyboardEvents ProcessKeyboard keys st).currentOrthogonalView
          = nextView st.currentOrthogonalView) ∧
      (∀ keys : Keys, keys.O = true → keys.L = false →
        (ProcessKeyboardEvents ProcessKeyboard keys st).currentOrthogonalView
          = OrthogonalView.TOP_DOWN) := by
  have hL : ∀ t : State F, t.bOrthographicProjection = true →
      (ProcessKeyboardEvents ProcessKeyboard keyL t).currentOrthogonalView
        = nextView t.currentOrthogonalView ∧
      (ProcessKeyboardEvents ProcessKeyboard keyL t).bOrthographicProjection = true ∧
      ((ProcessKeyboardEvents ProcessKeyboard keyL t).g_pCamera.Position,
        (ProcessKeyboardEvents ProcessKeyboard keyL t).g_pCamera.Front)
        = viewPreset (nextView t.currentOrthogonalView) := by
    intro t ht
    cases hv : t.currentOrthogonalView <;>
      simp [ProcessKeyboardEvents, keyL, noKeys, ht, hv, nextView, viewPreset]
  refine ⟨hL st, ?_, ?_, ?_, ?_, ?_⟩
  · intro ht
    obtain ⟨h1, h1b, _⟩ := hL st ht
    obtain ⟨h2, h2b, _⟩ := hL _ h1b
    obtain ⟨h3, _, _⟩ := hL _ h2b
    rw [h3, h2, h1]
    cases st.currentOrthogonalView <;> rfl
  · simp [ProcessKeyboardEvents, keyO, noKeys, viewPreset]
  · intro ht
    simp [ProcessKeyboardEvents, keyL, noKeys, ht]
  · intro keys hl hp ho ht
    cases hv : st.currentOrthogonalView <;>
      cases hE : keys.ESCAPE <;> cases hW : keys.W <;> cases hS : keys.S <;>
      cases hA : keys.A <;> cases hD : keys.D <;> cases hQ : keys.Q <;>
      cases hEe : keys.E <;>
      simp [ProcessKeyboardEvents, hl, hp, ho, ht, hv, nextView, hE, hW, hS, hA, hD, hQ, hEe]
  · intro keys ho hl
    cases hP : keys.P <;>
      cases hE : keys.ESCAPE <;> cases hW : keys.W <;> cases hS : keys.S <;>
      cases hA : keys.A <;> cases hD : keys.D <;> cases hQ : keys.Q <;>
      cases hEe : keys.E <;>
      simp [ProcessKeyboardEvents, hl, ho, hP, hE, hW, hS, hA, hD, hQ, hEe]

/-- Witness for `C26_orthogonal_view_cycle`: from the top-down view with orthographic
projection on, an L step leads to the side view. -/
theorem C26_orthogonal_view_cycle_witness :
    (ProcessKeyboardEvents (fun _ _ c => c) keyL
        ({ (initialState : State ℚ) with bOrthographicProjection := true })).currentOrthogonalView
      = OrthogonalView.SIDE :=
  ((C26_orthogonal_view_cycle (fun _ _ c => c)
    ({ (initialState : State ℚ) with bOrthographicProjection := true })).1 rfl).1

end ViewManager

namespace SceneManager

variable {F : Type} [Field F]

/-! ## Null shader manager -/

/-- C29: the code on a null shader manager. `SetShaderLights` fails: its first statement,
`m_pShaderManager->setBoolValue(g_UseLightingName, true)`, dereferences the pointer before the
null check of line 643 is reached. `SetTransformations`, `SetShaderColor`, `SetShaderTexture`,
`SetTextureUVScale` and `SetShaderEmissive` return with the state unchanged. -/
theorem C29_SetShaderLights_null_dereference (cm : CMath F) (s : SceneManager F)
    (hnull : s.m_pShaderManager = none) :
    SetShaderLights cm s = none ∧
      (∀ (scaleXYZ positionXYZ : vec3 F) (x y z : F),
        SetTransformations cm scaleXYZ x y z positionXYZ s = s) ∧
      (∀ r g b a : F, SetShaderColor r g b a s = s) ∧
      (∀ textureTag : String, SetShaderTexture textureTag s = s) ∧
      (∀ u v : F, SetTextureUVScale u v s = s) ∧
      (∀ r g b : F, SetShaderEmissive r g b s = s) := by
  refine ⟨?_, ?_, ?_, ?_, ?_, ?_⟩
  · simp [SetShaderLights, hnull]
  · intro scaleXYZ positionXYZ x y z
    simp [SetTransformations, hnull]
  · intro r g b a
    simp [SetShaderColor, hnull]
  · intro textureTag
    simp [SetShaderTexture, hnull]
  · intro u v
    simp [SetTextureUVScale, hnull]
  · intro r g b
    simp [SetShaderEmissive, hnull]

/-- Witness for `C29_SetShaderLights_null_dereference`: the scene without a shader manager. -/
theorem C29_SetShaderLights_null_dereference_witness :
    SetShaderLights (CMath.mk Real.sin Real.cos Real.sqrt) (emptyScene ℝ) = none :=
  (C29_SetShaderLights_null_dereference (CMath.mk Real.sin Real.cos Real.sqrt) (emptyScene ℝ)
    rfl).1

/-! ## The stem-offset table -/

/-- C27: the reads of the table `stemOffsets`. It has 3 rows; the first plant loop reads the
rows 0, 1 and 2, but the second one runs `s` from 0 to 5 and reads the rows 3, 4 and 5, which
the table does not have. What is read there reaches the scene: the transformation of the fourth stem of
the second plant (statement 129 of that loop, counted from 0) is built from the two values
found past the table at row 3. -/
theorem C27_stem_offsets_read_past_table (cm : CMath F) (beyond : Nat → Nat → F) :
    RenderScene.stemOffsetsRows = 3 ∧ RenderScene.numStems1 = 3 ∧ RenderScene.numStems2 = 6 ∧
      (∀ s ∈ List.range RenderScene.numStems1, s < RenderScene.stemOffsetsRows) ∧
      (List.range RenderScene.numStems2).filter
        (fun s => !decide (s < RenderScene.stemOffsetsRows)) = [3, 4, 5] ∧
      RenderScene.stemOffsets beyond 3 0 = beyond 3 0 ∧
      RenderScene.stemOffsets beyond 3 1 = beyond 3 1 ∧
      (RenderScene.plant2 cm beyond)[129]? = some
        (RenderScene.Stmt.SetTransformationsOf ⟨0.15, 3, 0.15⟩ (((3 : Nat) : F) * (-10))
          (((3 : Nat) : F) * (-10)) 0 ⟨-13 + beyond 3 0, 3.25, -5 + beyond 3 1⟩) := by
  refine ⟨rfl, rfl, rfl, ?_, by decide, rfl, rfl, rfl⟩
  intro s hs
  simpa [RenderScene.numStems1, RenderScene.stemOffsetsRows] using hs

end SceneManager

namespace SceneManager

section SceneScript

variable {F : Type}

/-! ## The scene script: frame and trackers -/

theorem BindGLTextures.loop_bound (l : List TEXTURE_INFO) (i : Nat) (gl : GLState) (u : Nat) :
    (BindGLTextures.loop l i gl).boundTexture2D u =
      if i ≤ u then
        match l[u - i]? with
        | some e => e.ID
        | none => gl.boundTexture2D u
      else gl.boundTexture2D u := by
  induction l generalizing i gl with
  | nil => simp [BindGLTextures.loop]
  | cons e rest ih =>
    rw [BindGLTextures.loop, ih]
    by_cases h1 : i + 1 ≤ u
    · have h2 : i ≤ u := by omega
      have h3 : u - i = (u - (i + 1)) + 1 := by omega
      have h4 : u ≠ i := by omega
      simp only [h1, h2, if_true, h3, List.getElem?_cons_succ]
      cases rest[u - (i + 1)]? with
      | some e2 => rfl
      | none => simp [glBindTexture, glActiveTexture, h4]
    · by_cases h2 : i ≤ u
      · have h3 : u = i := by omega
        subst h3
        simp [glBindTexture, glActiveTexture]
      · have h4 : u ≠ i := by omega
        simp [h1, h2, glBindTexture, glActiveTexture, h4]

theorem BindGLTextures.loop_rest (l : List TEXTURE_INFO) (i : Nat) (gl : GLState) :
    (BindGLTextures.loop l i gl).viewport = gl.viewport ∧
      (BindGLTextures.loop l i gl).framebuffer = gl.framebuffer ∧
      (BindGLTextures.loop l i gl).clears = gl.clears := by
  induction l generalizing i gl with
  | nil => exact ⟨rfl, rfl, rfl⟩
  | cons e rest ih =>
    rw [BindGLTextures.loop]
    exact ih _ _

theorem ShaderManager.uniform_setValue (name n : String) (v : UniformValue F)
    (sh : ShaderManager F) :
    (sh.setValue n v).uniform name = if n = name then some v else sh.uniform name := by
  unfold ShaderManager.uniform ShaderManager.setValue
  by_cases h : n = name
  · simp [List.find?, h]
  · simp [List.find?, h]

theorem FindMaterial_fst (s : SceneManager F) (tag : String) (material : OBJECT_MATERIAL F)
    (h : s.m_objectMaterials.length > 0) : (FindMaterial s tag material).1 = true := by
  unfold FindMaterial
  have h2 : ¬ s.m_objectMaterials.length = 0 := by omega
  simp [h2]

theorem RenderScene.materialTags_append (a b : List (RenderScene.Stmt F)) :
    RenderScene.materialTags (a ++ b)
      = RenderScene.materialTags a ++ RenderScene.materialTags b := by
  induction a with
  | nil => rfl
  | cons c rest ih => cases c <;> simp [RenderScene.materialTags, ih]

theorem RenderScene.programWrites_append (a b : List (RenderScene.Stmt F)) :
    RenderScene.programWrites (a ++ b)
      = RenderScene.programWrites a ++ RenderScene.programWrites b := by
  induction a with
  | nil => rfl
  | cons c rest ih => cases c <;> simp [RenderScene.programWrites, ih]

theorem CreateGLTexture_materials (filename tag : String) (image : Option stbi_image)
    (textureID : GLuint) (s : SceneManager F) :
    (CreateGLTexture filename tag image textureID s).2.m_objectMaterials
      = s.m_objectMaterials := by
  unfold CreateGLTexture
  cases image with
  | none => rfl
  | some img =>
    by_cases h : img.colorChannels = 3 ∨ img.colorChannels = 4
    · simp only [h, if_true]
    · simp only [h, if_false]

theorem LoadSceneTextures_materials (stbi_load : String → Option stbi_image)
    (glGenTextures : Nat → GLuint) (s : SceneManager F) :
    (LoadSceneTextures stbi_load glGenTextures s).m_objectMaterials = s.m_objectMaterials := by
  simp only [LoadSceneTextures, BindGLTextures, CreateGLTexture_materials]

/-- What a successful `SetShaderMaterial` leaves as it was. -/
theorem SetShaderMaterial_frame (tag : String) (material : OBJECT_MATERIAL F)
    (s : SceneManager F) (sh : ShaderManager F) (hsh : s.m_pShaderManager = some sh) :
    ∃ (s2 : SceneManager F) (sh2 : ShaderManager F),
      SetShaderMaterial tag material s = some s2 ∧ s2.m_pShaderManager = some sh2 ∧
      s2.gl = s.gl ∧ s2.programUniforms = s.programUniforms ∧ s2.draws = s.draws ∧
      s2.depthMap = s.depthMap ∧ s2.depthMapFBO = s.depthMapFBO ∧
      s2.m_textureIDs = s.m_textureIDs ∧
      (∀ name : String, name = "lightSpaceMatrix" ∨ name = "bUseLighting" ∨ name = "shadowMap"
          ∨ name = "model" →
        sh2.uniform name = sh.uniform name) := by
  unfold SetShaderMaterial
  by_cases hlen : s.m_objectMaterials.length > 0
  · have hfst := FindMaterial_fst s tag material hlen
    simp only [hlen, if_true, hfst, hsh]
    split
    · refine ⟨_, _, rfl, rfl, rfl, rfl, rfl, rfl, rfl, rfl, ?_⟩
      intro name hname
      rcases hname with h | h | h | h <;> subst h <;>
        simp [ShaderManager.setIntValue, ShaderManager.setVec3Value, ShaderManager.setFloatValue,
          ShaderManager.uniform_setValue, g_UseTextureName]
    · refine ⟨_, _, rfl, rfl, rfl, rfl, rfl, rfl, rfl, rfl, ?_⟩
      intro name hname
      rcases hname with h | h | h | h <;> subst h <;>
        simp [ShaderManager.setIntValue, ShaderManager.setVec3Value, ShaderManager.setFloatValue,
          ShaderManager.uniform_setValue, g_UseTextureName]
  · simp only [hlen, if_false]
    exact ⟨_, sh, rfl, hsh, rfl, rfl, rfl, rfl, rfl, rfl, fun _ _ => rfl⟩

variable [Field F]

theorem RenderScene.modelOf_eq (cm : CMath F) (scaleXYZ : vec3 F) (x y z : F)
    (positionXYZ : vec3 F) (s : SceneManager F) (sh : ShaderManager F)
    (hsh : s.m_pShaderManager = some sh) :
    shaderUniform (SetTransformations cm scaleXYZ x y z positionXYZ s) g_ModelName
      = RenderScene.modelOf cm scaleXYZ x y z positionXYZ := by
  unfold RenderScene.modelOf shaderUniform
  rw [SetTransformations_write cm scaleXYZ x y z positionXYZ s sh hsh,
    SetTransformations_write cm scaleXYZ x y z positionXYZ (shaderScene F) { writes := [] } rfl]
  rfl

/-- The frame of one statement of the scene script, on a state with a shader manager. -/
theorem Stmt_exec_frame (cm : CMath F) (material : OBJECT_MATERIAL F)
    (c : RenderScene.Stmt F) (l : RenderScene.Locals F) (s : SceneManager F)
    (sh : ShaderManager F) (hsh : s.m_pShaderManager = some sh) :
    ∃ (l2 : RenderScene.Locals F) (s2 : SceneManager F) (sh2 : ShaderManager F),
      c.exec cm material (l, s) = some (l2, s2) ∧ s2.m_pShaderManager = some sh2 ∧
      s2.gl = s.gl ∧ s2.depthMap = s.depthMap ∧ s2.depthMapFBO = s.depthMapFBO ∧
      s2.m_textureIDs = s.m_textureIDs ∧
      (∀ name : String, name = "lightSpaceMatrix" ∨ name = "bUseLighting" ∨ name = "shadowMap" →
        sh2.uniform name = sh.uniform name) ∧
      s2.programUniforms = (RenderScene.programWrites [c]).reverse ++ s.programUniforms ∧
      s2.draws = s.draws ++ (RenderScene.drawsFrom cm [c] (l, sh.uniform g_ModelName)).map
        (fun d => { mesh := d.1, framebuffer := s.gl.framebuffer, model := d.2 }) ∧
      (l2, sh2.uniform g_ModelName) = c.track cm (l, sh.uniform g_ModelName) := by
  have hT : ∀ (scale position : vec3 F) (x y z : F),
      ∃ sh2 : ShaderManager F,
        (SetTransformations cm scale x y z position s).m_pShaderManager = some sh2 ∧
        (∀ name : String,
          name = "lightSpaceMatrix" ∨ name = "bUseLighting" ∨ name = "shadowMap" →
          sh2.uniform name = sh.uniform name) ∧
        sh2.uniform g_ModelName = RenderScene.modelOf cm scale x y z position := by
    intro scale position x y z
    have hw := SetTransformations_write cm scale x y z position s sh hsh
    have hm := RenderScene.modelOf_eq cm scale x y z position s sh hsh
    rw [shaderUniform, hw] at hm
    refine ⟨_, hw, ?_, hm⟩
    intro name hname
    rcases hname with h | h | h <;> subst h <;> simp [ShaderManager.uniform, List.find?]
  have hTf : ∀ (scale position : vec3 F) (x y z : F),
      (SetTransformations cm scale x y z position s).gl = s.gl ∧
      (SetTransformations cm scale x y z position s).depthMap = s.depthMap ∧
      (SetTransformations cm scale x y z position s).depthMapFBO = s.depthMapFBO ∧
      (SetTransformations cm scale x y z position s).m_textureIDs = s.m_textureIDs ∧
      (SetTransformations cm scale x y z position s).programUniforms = s.programUniforms ∧
      (SetTransformations cm scale x y z position s).draws = s.draws := by
    intro scale position x y z
    simp [SetTransformations, hsh]
  have hkeep : ∀ name : String,
      name = "lightSpaceMatrix" ∨ name = "bUseLighting" ∨ name = "shadowMap" →
      sh.uniform name = sh.uniform name := fun _ _ => rfl
  cases c with
  | assignScaleXYZ v =>
    exact ⟨_, s, sh, rfl, hsh, rfl, rfl, rfl, rfl, hkeep, rfl,
      by simp [RenderScene.drawsFrom], rfl⟩
  | assignXrotationDegrees v =>
    exact ⟨_, s, sh, rfl, hsh, rfl, rfl, rfl, rfl, hkeep, rfl,
      by simp [RenderScene.drawsFrom], rfl⟩
  | assignYrotationDegrees v =>
    exact ⟨_, s, sh, rfl, hsh, rfl, rfl, rfl, rfl, hkeep, rfl,
      by simp [RenderScene.drawsFrom], rfl⟩
  | assignZrotationDegrees v =>
    exact ⟨_, s, sh, rfl, hsh, rfl, rfl, rfl, rfl, hkeep, rfl,
      by simp [RenderScene.drawsFrom], rfl⟩
  | assignPositionXYZ v =>
    exact ⟨_, s, sh, rfl, hsh, rfl, rfl, rfl, rfl, hkeep, rfl,
      by simp [RenderScene.drawsFrom], rfl⟩
  | SetShaderMaterial tag =>
    obtain ⟨s2, sh2, h1, h2, h3, h4, h5, h6, h7, h8, h9⟩ :=
      SetShaderMaterial_frame tag material s sh hsh
    refine ⟨l, s2, sh2, ?_, h2, h3, h6, h7, h8, ?_, ?_, ?_, ?_⟩
    · simp only [RenderScene.Stmt.exec, h1]
    · intro name hname
      rcases hname with h | h | h
      · exact h9 name (Or.inl h)
      · exact h9 name (Or.inr (Or.inl h))
      · exact h9 name (Or.inr (Or.inr (Or.inl h)))
    · simpa [RenderScene.programWrites] using h4
    · simpa [RenderScene.drawsFrom] using h5
    · have hm := h9 "model" (Or.inr (Or.inr (Or.inr rfl)))
      simp only [RenderScene.Stmt.track, g_ModelName, hm]
  | SetTransformations =>
    obtain ⟨sh2, h1, h2, h4⟩ := hT l.scaleXYZ l.positionXYZ l.XrotationDegrees
      l.YrotationDegrees l.ZrotationDegrees
    obtain ⟨f1, f2, f3, f4, f5, f6⟩ := hTf l.scaleXYZ l.positionXYZ l.XrotationDegrees
      l.YrotationDegrees l.ZrotationDegrees
    refine ⟨l, _, sh2, rfl, h1, f1, f2, f3, f4, h2, ?_, ?_, ?_⟩
    · simpa [RenderScene.programWrites] using f5
    · simpa [RenderScene.drawsFrom] using f6
    · simp only [RenderScene.Stmt.track, h4]
  | SetTransformationsWith scale position =>
    obtain ⟨sh2, h1, h2, h4⟩ := hT scale position l.XrotationDegrees
      l.YrotationDegrees l.ZrotationDegrees
    obtain ⟨f1, f2, f3, f4, f5, f6⟩ := hTf scale position l.XrotationDegrees
      l.YrotationDegrees l.ZrotationDegrees
    refine ⟨l, _, sh2, rfl, h1, f1, f2, f3, f4, h2, ?_, ?_, ?_⟩
    · simpa [RenderScene.programWrites] using f5
    · simpa [RenderScene.drawsFrom] using f6
    · simp only [RenderScene.Stmt.track, h4]
  | SetTransformationsOf scale x y z position =>
    obtain ⟨sh2, h1, h2, h4⟩ := hT scale position x y z
    obtain ⟨f1, f2, f3, f4, f5, f6⟩ := hTf scale position x y z
    refine ⟨l, _, sh2, rfl, h1, f1, f2, f3, f4, h2, ?_, ?_, ?_⟩
    · simpa [RenderScene.programWrites] using f5
    · simpa [RenderScene.drawsFrom] using f6
    · simp only [RenderScene.Stmt.track, h4]
  | SetShaderTexture tag =>
    refine ⟨l, SetShaderTexture tag s, _, rfl, (by simp only [SetShaderTexture, hsh]; rfl),
      ?_, ?_, ?_, ?_, ?_, ?_, ?_, ?_⟩
    · simp [SetShaderTexture, hsh]
    · simp [SetShaderTexture, hsh]
    · simp [SetShaderTexture, hsh]
    · simp [SetShaderTexture, hsh]
    · intro name hname
      rcases hname with h | h | h <;> subst h <;>
        simp [ShaderManager.setIntValue, ShaderManager.setSampler2DValue,
          ShaderManager.uniform_setValue, g_UseTextureName, g_TextureValueName]
    · simp [SetShaderTexture, hsh, RenderScene.programWrites]
    · simp [SetShaderTexture, hsh, RenderScene.drawsFrom, RenderScene.Stmt.track]
    · simp [RenderScene.Stmt.track, ShaderManager.setIntValue, ShaderManager.setSampler2DValue,
        ShaderManager.uniform_setValue, g_UseTextureName, g_TextureValueName, g_ModelName]
  | SetTextureUVScale u v =>
    refine ⟨l, SetTextureUVScale u v s, _, rfl, (by simp only [SetTextureUVScale, hsh]; rfl),
      ?_, ?_, ?_, ?_, ?_, ?_, ?_, ?_⟩
    · simp [SetTextureUVScale, hsh]
    · simp [SetTextureUVScale, hsh]
    · simp [SetTextureUVScale, hsh]
    · simp [SetTextureUVScale, hsh]
    · intro name hname
      rcases hname with h | h | h <;> subst h <;>
        simp [ShaderManager.setVec2Value, ShaderManager.uniform_setValue]
    · simp [SetTextureUVScale, hsh, RenderScene.programWrites]
    · simp [SetTextureUVScale, hsh, RenderScene.drawsFrom, RenderScene.Stmt.track]
    · simp [RenderScene.Stmt.track, ShaderManager.setVec2Value,
        ShaderManager.uniform_setValue, g_ModelName]
  | SetTextureOffset x y =>
    refine ⟨l, SetTextureOffset x y s, sh, rfl, hsh, rfl, rfl, rfl, rfl, hkeep, ?_, ?_, rfl⟩
    · simp [SetTextureOffset, glUniform, RenderScene.programWrites]
    · simp [SetTextureOffset, glUniform, RenderScene.drawsFrom, RenderScene.Stmt.track]
  | SetShaderColor r g b a =>
    refine ⟨l, SetShaderColor r g b a s, _, rfl, (by simp only [SetShaderColor, hsh]; rfl),
      ?_, ?_, ?_, ?_, ?_, ?_, ?_, ?_⟩
    · simp [SetShaderColor, hsh]
    · simp [SetShaderColor, hsh]
    · simp [SetShaderColor, hsh]
    · simp [SetShaderColor, hsh]
    · intro name hname
      rcases hname with h | h | h <;> subst h <;>
        simp [ShaderManager.setIntValue, ShaderManager.setVec4Value,
          ShaderManager.uniform_setValue, g_UseTextureName, g_ColorValueName]
    · simp [SetShaderColor, hsh, RenderScene.programWrites]
    · simp [SetShaderColor, hsh, RenderScene.drawsFrom, RenderScene.Stmt.track]
    · simp [RenderScene.Stmt.track, ShaderManager.setIntValue, ShaderManager.setVec4Value,
        ShaderManager.uniform_setValue, g_UseTextureName, g_ColorValueName, g_ModelName]
  | SetUseLighting b =>
    refine ⟨l, SetUseLighting b s, sh, rfl, hsh, rfl, rfl, rfl, rfl, hkeep, ?_, ?_, rfl⟩
    · simp [SetUseLighting, glUniform, RenderScene.programWrites]
    · simp [SetUseLighting, glUniform, RenderScene.drawsFrom, RenderScene.Stmt.track]
  | glUniform1f name v =>
    refine ⟨l, glUniform name (UniformValue.floatValue v) s, sh, rfl, hsh, rfl, rfl, rfl, rfl,
      hkeep, ?_, ?_, rfl⟩
    · simp [glUniform, RenderScene.programWrites]
    · simp [glUniform, RenderScene.drawsFrom, RenderScene.Stmt.track]
  | Draw mesh =>
    refine ⟨l, DrawMesh mesh s, sh, rfl, hsh, rfl, rfl, rfl, rfl, hkeep, ?_, ?_, rfl⟩
    · simp [DrawMesh, RenderScene.programWrites]
    · simp [DrawMesh, RenderScene.drawsFrom, hsh]

theorem RenderScene.trackAll_append (cm : CMath F) (a b : List (RenderScene.Stmt F))
    (st : RenderScene.Locals F × Option (UniformValue F)) :
    RenderScene.trackAll cm (a ++ b) st
      = RenderScene.trackAll cm b (RenderScene.trackAll cm a st) := by
  induction a generalizing st with
  | nil => rfl
  | cons c rest ih => simp [RenderScene.trackAll, ih]

theorem RenderScene.drawsFrom_cons (cm : CMath F) (c : RenderScene.Stmt F)
    (rest : List (RenderScene.Stmt F)) (st : RenderScene.Locals F × Option (UniformValue F)) :
    RenderScene.drawsFrom cm (c :: rest) st
      = RenderScene.drawsFrom cm [c] st ++ RenderScene.drawsFrom cm rest (c.track cm st) := by
  cases c <;> simp [RenderScene.drawsFrom, RenderScene.Stmt.track]

theorem RenderScene.drawsFrom_append (cm : CMath F) (a b : List (RenderScene.Stmt F))
    (st : RenderScene.Locals F × Option (UniformValue F)) :
    RenderScene.drawsFrom cm (a ++ b) st
      = RenderScene.drawsFrom cm a st
        ++ RenderScene.drawsFrom cm b (RenderScene.trackAll cm a st) := by
  induction a generalizing st with
  | nil => rfl
  | cons c rest ih =>
    rw [List.cons_append, RenderScene.drawsFrom_cons, ih, RenderScene.drawsFrom_cons cm c rest,
      RenderScene.trackAll, List.append_assoc]

/-- The frame of a sequence of statements of the scene script, on a state with a shader
manager: the sequence runs to its end; the OpenGL state, the shadow map names and the texture
registry are as before; the shader manager is still there and its uniforms `lightSpaceMatrix`,
`bUseLighting` and `shadowMap` are as before; the `glUniform*` writes and the draw calls are
the ones the statements name, the draws on the framebuffer bound at the start. -/
theorem RenderScene.run_frame (cm : CMath F) (material : OBJECT_MATERIAL F)
    (cmds : List (RenderScene.Stmt F)) (l : RenderScene.Locals F) (s : SceneManager F)
    (sh : ShaderManager F) (hsh : s.m_pShaderManager = some sh) :
    ∃ (l2 : RenderScene.Locals F) (s2 : SceneManager F) (sh2 : ShaderManager F),
      RenderScene.run cm material cmds (l, s) = some (l2, s2) ∧
      s2.m_pShaderManager = some sh2 ∧
      s2.gl = s.gl ∧ s2.depthMap = s.depthMap ∧ s2.depthMapFBO = s.depthMapFBO ∧
      s2.m_textureIDs = s.m_textureIDs ∧
      (∀ name : String, name = "lightSpaceMatrix" ∨ name = "bUseLighting" ∨ name = "shadowMap" →
        sh2.uniform name = sh.uniform name) ∧
      s2.programUniforms = (RenderScene.programWrites cmds).reverse ++ s.programUniforms ∧
      s2.draws = s.draws ++ (RenderScene.drawsFrom cm cmds (l, sh.uniform g_ModelName)).map
        (fun d => { mesh := d.1, framebuffer := s.gl.framebuffer, model := d.2 }) ∧
      (l2, sh2.uniform g_ModelName)
        = RenderScene.trackAll cm cmds (l, sh.uniform g_ModelName) := by
  induction cmds generalizing l s sh with
  | nil =>
    exact ⟨l, s, sh, rfl, hsh, rfl, rfl, rfl, rfl, fun _ _ => rfl,
      by simp [RenderScene.programWrites], by simp [RenderScene.drawsFrom], rfl⟩
  | cons c rest ih =>
    obtain ⟨l1, s1, sh1, e1, e2, e3, e4, e5, e6, e7, e9, e10, e11⟩ :=
      Stmt_exec_frame cm material c l s sh hsh
    obtain ⟨l2, s2, sh2, r1, r2, r3, r4, r5, r6, r7, r9, r10, r11⟩ := ih l1 s1 sh1 e2
    refine ⟨l2, s2, sh2, ?_, r2, r3.trans e3, r4.trans e4, r5.trans e5, r6.trans e6,
      fun name hname => (r7 name hname).trans (e7 name hname), ?_, ?_, ?_⟩
    · simp only [RenderScene.run, e1, r1]
    · rw [r9, e9]
      have hc : RenderScene.programWrites (c :: rest)
          = RenderScene.programWrites [c] ++ RenderScene.programWrites rest :=
        RenderScene.programWrites_append [c] rest
      rw [hc, List.reverse_append, List.append_assoc]
    · rw [r10, e10, e3, e11, RenderScene.drawsFrom_cons cm c rest, List.map_append,
        List.append_assoc]
    · rw [r11, e11, RenderScene.trackAll]

/-- The frame of the statements of `RenderScene` that precede the script. -/
theorem RenderScene.setup_frame (cm : CMath F) (timeValue : F) (s : SceneManager F)
    (sh : ShaderManager F) (hsh : s.m_pShaderManager = some sh) :
    ∃ (s1 : SceneManager F) (sh1 : ShaderManager F),
      RenderScene.setup cm timeValue s = some s1 ∧ s1.m_pShaderManager = some sh1 ∧
      s1.gl = BindGLTextures.loop s.m_textureIDs 0
        (glBindTexture s.depthMap (glActiveTexture 1 s.gl)) ∧
      s1.depthMap = s.depthMap ∧ s1.depthMapFBO = s.depthMapFBO ∧
      s1.m_textureIDs = s.m_textureIDs ∧
      sh1.uniform "lightSpaceMatrix" = sh.uniform "lightSpaceMatrix" ∧
      sh1.uniform "bUseLighting" = some (UniformValue.boolValue true) ∧
      sh1.uniform "shadowMap" = some (UniformValue.sampler2DValue 1) ∧
      sh1.uniform g_ModelName = sh.uniform g_ModelName ∧
      s1.programUniforms = s.programUniforms ∧ s1.draws = s.draws := by
  simp only [RenderScene.setup, hsh, SetShaderLights, BindGLTextures]
  refine ⟨_, _, rfl, rfl, ?_, ?_, ?_, ?_, ?_, ?_, ?_, ?_, ?_, ?_⟩ <;> rfl

theorem RenderScene.drawsFrom_script (cm : CMath F) (beyond : Nat → Nat → F)
    (m0 : Option (UniformValue F)) :
    RenderScene.drawsFrom cm (RenderScene.script cm beyond) (RenderScene.initialLocals, m0)
      = RenderScene.sceneDraws cm beyond := by
  have h1 : RenderScene.drawsFrom cm RenderScene.part01 (RenderScene.initialLocals, m0)
      = RenderScene.drawsFrom cm RenderScene.part01 (RenderScene.initialLocals, none) := rfl
  have h2 : RenderScene.trackAll cm RenderScene.part01 (RenderScene.initialLocals, m0)
      = RenderScene.trackAll cm RenderScene.part01 (RenderScene.initialLocals, none) := rfl
  unfold RenderScene.sceneDraws
  simp only [RenderScene.script, List.append_assoc]
  rw [RenderScene.drawsFrom_append, RenderScene.drawsFrom_append cm RenderScene.part01 _
    (RenderScene.initialLocals, none), h1, h2]

theorem RenderScene.programWrites_script (cm : CMath F) (beyond : Nat → Nat → F) :
    RenderScene.programWrites (RenderScene.script cm beyond) =
      [("tintIntensity", UniformValue.floatValue 0.8),
       ("tintIntensity", UniformValue.floatValue 0),
       ("tintIntensity", UniformValue.floatValue 0.8),
       ("tintIntensity", UniformValue.floatValue 0),
       ("bUseLighting", UniformValue.intValue 0),
       ("bUseLighting", UniformValue.intValue 1),
       ("bUseLighting", UniformValue.intValue 0),
       ("textureOffset", UniformValue.vec2Value ⟨0.5, 0.5⟩),
       ("textureOffset", UniformValue.vec2Value ⟨0.5, 0.5⟩),
       ("textureOffset", UniformValue.vec2Value ⟨0.5, 0.5⟩),
       ("bUseLighting", UniformValue.intValue 0),
       ("bUseLighting", UniformValue.intValue 1)] := by
  have h01 : RenderScene.programWrites (RenderScene.part01 : List (RenderScene.Stmt F)) =
      [] := rfl
  have h02 : RenderScene.programWrites (RenderScene.part02 : List (RenderScene.Stmt F)) =
      [] := rfl
  have h03 : RenderScene.programWrites (RenderScene.part03 : List (RenderScene.Stmt F)) =
      [] := rfl
  have h04 : RenderScene.programWrites (RenderScene.part04 : List (RenderScene.Stmt F)) =
      [("tintIntensity", UniformValue.floatValue 0.8),
        ("tintIntensity", UniformValue.floatValue 0)] := rfl
  have h05 : RenderScene.programWrites (RenderScene.part05 : List (RenderScene.Stmt F)) =
      [("tintIntensity", UniformValue.floatValue 0.8),
        ("tintIntensity", UniformValue.floatValue 0),
        ("bUseLighting", UniformValue.intValue 0)] := rfl
  have h06 : RenderScene.programWrites (RenderScene.part06 : List (RenderScene.Stmt F)) =
      [("bUseLighting", UniformValue.intValue 1)] := rfl
  have h07 : RenderScene.programWrites (RenderScene.part07 : List (RenderScene.Stmt F)) =
      [] := rfl
  have h08 : RenderScene.programWrites (RenderScene.part08 : List (RenderScene.Stmt F)) =
      [("bUseLighting", UniformValue.intValue 0),
        ("textureOffset", UniformValue.vec2Value ⟨0.5, 0.5⟩)] := rfl
  have h09 : RenderScene.programWrites (RenderScene.part09 : List (RenderScene.Stmt F)) =
      [("textureOffset", UniformValue.vec2Value ⟨0.5, 0.5⟩),
        ("textureOffset", UniformValue.vec2Value ⟨0.5, 0.5⟩),
        ("bUseLighting", UniformValue.intValue 0),
        ("bUseLighting", UniformValue.intValue 1)] := rfl
  have h10 : RenderScene.programWrites (RenderScene.part10 : List (RenderScene.Stmt F)) =
      [] := rfl
  have h11 : RenderScene.programWrites (RenderScene.part11 : List (RenderScene.Stmt F)) =
      [] := rfl
  have h12 : RenderScene.programWrites (RenderScene.part12 : List (RenderScene.Stmt F)) =
      [] := rfl
  have h13 : RenderScene.programWrites (RenderScene.part13 : List (RenderScene.Stmt F)) =
      [] := rfl
  have h14 : RenderScene.programWrites (RenderScene.part14 : List (RenderScene.Stmt F)) =
      [] := rfl
  have hg : ∀ p : vec3 F, RenderScene.programWrites (RenderScene.grassLeaves cm p) = [] :=
    fun _ => rfl
  have hp1 : RenderScene.programWrites (RenderScene.plant1 cm) = [] := rfl
  have hp2 : RenderScene.programWrites (RenderScene.plant2 cm beyond) = [] := rfl
  simp only [RenderScene.script, RenderScene.programWrites_append, h01, h02, h03, h04, h05, h06, h07, h08, h09, h10, h11, h12, h13, h14, hg, hp1, hp2]
  rfl

theorem RenderScene.run_append (cm : CMath F) (material : OBJECT_MATERIAL F)
    (a b : List (RenderScene.Stmt F)) (st : RenderScene.Locals F × SceneManager F) :
    RenderScene.run cm material (a ++ b) st
      = (RenderScene.run cm material a st).bind (RenderScene.run cm material b) := by
  induction a generalizing st with
  | nil => rfl
  | cons c rest ih =>
    simp only [List.cons_append, RenderScene.run]
    cases c.exec cm material st with
    | none => rfl
    | some st2 => exact ih st2

/-- The second plant loop as the source text reads is its iterations inside the table followed
by those past it. -/
theorem RenderScene.plant2_split (cm : CMath F) (beyond : Nat → Nat → F) :
    RenderScene.plant2 cm beyond
      = RenderScene.plant2.inBounds cm ++ RenderScene.plant2.past cm beyond := by
  have hr6 : List.range RenderScene.numStems2 = [0, 1, 2, 3, 4, 5] := rfl
  have hr3 : List.range RenderScene.stemOffsetsRows = [0, 1, 2] := rfl
  have hd : ([0, 1, 2, 3, 4, 5] : List Nat).drop RenderScene.stemOffsetsRows = [3, 4, 5] := rfl
  simp only [RenderScene.plant2, RenderScene.plant2.inBounds, RenderScene.plant2.past, hr6, hr3,
    hd, List.flatMap_cons, List.flatMap_nil, List.append_nil, List.append_assoc,
    RenderScene.stemOffsets.inTable, RenderScene.stemOffsets]

/-- The body of `RenderScene` as the source text reads is the statements up to the first read
past the table followed by those after it. -/
theorem RenderScene.script_split (cm : CMath F) (beyond : Nat → Nat → F) :
    RenderScene.script cm beyond
      = RenderScene.scriptInBounds cm ++ RenderScene.scriptPast cm beyond := by
  simp only [RenderScene.script, RenderScene.scriptInBounds, RenderScene.scriptPast,
    RenderScene.plant2_split, List.append_assoc]

theorem RenderScene.programWrites_scriptPast (cm : CMath F) (beyond : Nat → Nat → F) :
    RenderScene.programWrites (RenderScene.scriptPast cm beyond) = [] := by
  have h1 : RenderScene.programWrites (RenderScene.plant2.past cm beyond) = [] := rfl
  have h13 : RenderScene.programWrites (RenderScene.part13 : List (RenderScene.Stmt F)) =
      [] := rfl
  have h14 : RenderScene.programWrites (RenderScene.part14 : List (RenderScene.Stmt F)) =
      [] := rfl
  simp only [RenderScene.scriptPast, RenderScene.programWrites_append, h1, h13, h14,
    List.append_nil]

theorem RenderScene.programWrites_scriptInBounds (cm : CMath F) :
    RenderScene.programWrites (RenderScene.scriptInBounds cm) =
      [("tintIntensity", UniformValue.floatValue 0.8),
       ("tintIntensity", UniformValue.floatValue 0),
       ("tintIntensity", UniformValue.floatValue 0.8),
       ("tintIntensity", UniformValue.floatValue 0),
       ("bUseLighting", UniformValue.intValue 0),
       ("bUseLighting", UniformValue.intValue 1),
       ("bUseLighting", UniformValue.intValue 0),
       ("textureOffset", UniformValue.vec2Value ⟨0.5, 0.5⟩),
       ("textureOffset", UniformValue.vec2Value ⟨0.5, 0.5⟩),
       ("textureOffset", UniformValue.vec2Value ⟨0.5, 0.5⟩),
       ("bUseLighting", UniformValue.intValue 0),
       ("bUseLighting", UniformValue.intValue 1)] := by
  have h := RenderScene.programWrites_script cm (fun _ _ => (0 : F))
  rw [RenderScene.script_split, RenderScene.programWrites_append,
    RenderScene.programWrites_scriptPast, List.append_nil] at h
  exact h

theorem RenderScene.drawsFrom_scriptInBounds (cm : CMath F) (m0 : Option (UniformValue F)) :
    RenderScene.drawsFrom cm (RenderScene.scriptInBounds cm) (RenderScene.initialLocals, m0)
      = RenderScene.drawsInBounds cm := by
  have h1 : RenderScene.drawsFrom cm RenderScene.part01 (RenderScene.initialLocals, m0)
      = RenderScene.drawsFrom cm RenderScene.part01 (RenderScene.initialLocals, none) := rfl
  have h2 : RenderScene.trackAll cm RenderScene.part01 (RenderScene.initialLocals, m0)
      = RenderScene.trackAll cm RenderScene.part01 (RenderScene.initialLocals, none) := rfl
  unfold RenderScene.drawsInBounds
  simp only [RenderScene.scriptInBounds, List.append_assoc]
  rw [RenderScene.drawsFrom_append, RenderScene.drawsFrom_append cm RenderScene.part01 _
    (RenderScene.initialLocals, none), h1, h2]

/-- The execution of `RenderScene` up to the first read past the table `stemOffsets`, on a
state with a shader manager. The state `s3` reached there does not depend on what the
execution does afterwards, and `RenderScene` answers what that behaviour answers on it. In
`s3` the OpenGL state is the one on entry with the depth map bound to unit 1 and then the
scene textures bound to their units; the shader manager is still there, its
`lightSpaceMatrix` is as before, its `bUseLighting` is true and its `shadowMap` is 1; the
`glUniform*` writes and the draw calls are those of the statements up to the read, the draws
on the framebuffer bound on entry. -/
theorem RenderScene_reach (cm : CMath F) (timeValue : F) (material : OBJECT_MATERIAL F)
    (s : SceneManager F) (sh : ShaderManager F) (hsh : s.m_pShaderManager = some sh) :
    ∃ (l3 : RenderScene.Locals F) (s3 : SceneManager F) (sh3 : ShaderManager F),
      (∀ u : RenderScene.Locals F × SceneManager F → Option (SceneManager F),
        RenderScene cm timeValue material u s = u (l3, s3)) ∧
      s3.m_pShaderManager = some sh3 ∧
      s3.gl = BindGLTextures.loop s.m_textureIDs 0
        (glBindTexture s.depthMap (glActiveTexture 1 s.gl)) ∧
      s3.depthMap = s.depthMap ∧ s3.depthMapFBO = s.depthMapFBO ∧
      s3.m_textureIDs = s.m_textureIDs ∧
      sh3.uniform "lightSpaceMatrix" = sh.uniform "lightSpaceMatrix" ∧
      sh3.uniform "bUseLighting" = some (UniformValue.boolValue true) ∧
      sh3.uniform "shadowMap" = some (UniformValue.sampler2DValue 1) ∧
      s3.programUniforms
        = (RenderScene.programWrites (RenderScene.scriptInBounds cm)).reverse
          ++ s.programUniforms ∧
      s3.draws = s.draws ++ (RenderScene.drawsInBounds cm).map
        (fun d => { mesh := d.1, framebuffer := s.gl.framebuffer, model := d.2 }) := by
  obtain ⟨s1, sh1, a1, a2, a3, a4, a5, a6, a7, a8, a9, _, a10, a11⟩ :=
    RenderScene.setup_frame cm timeValue s sh hsh
  obtain ⟨l2, s2, sh2, r1, r2, r3, r4, r5, r6, r7, r9, r10, _⟩ :=
    RenderScene.run_frame cm material (RenderScene.scriptInBounds cm)
      RenderScene.initialLocals s1 sh1 a2
  refine ⟨l2, s2, sh2, ?_, r2, r3.trans a3, r4.trans a4, r5.trans a5, r6.trans a6,
    (r7 _ (Or.inl rfl)).trans a7, (r7 _ (Or.inr (Or.inl rfl))).trans a8,
    (r7 _ (Or.inr (Or.inr rfl))).trans a9, ?_, ?_⟩
  · intro u
    simp only [RenderScene, a1, r1]
  · rw [r9, a10]
  · rw [r10, a11, RenderScene.drawsFrom_scriptInBounds, a3,
      (BindGLTextures.loop_rest s.m_textureIDs 0 _).2.1]
    rfl

/-- With the behaviour `RenderScene.asWritten` after the undefined read, `RenderScene` is the
statements up to the light animation followed by the whole body as the source text reads. -/
theorem RenderScene_asWritten (cm : CMath F) (timeValue : F) (material : OBJECT_MATERIAL F)
    (beyond : Nat → Nat → F) (s s1 : SceneManager F)
    (st : RenderScene.Locals F × SceneManager F)
    (h1 : RenderScene.setup cm timeValue s = some s1)
    (h2 : RenderScene.run cm material (RenderScene.script cm beyond)
      (RenderScene.initialLocals, s1) = some st) :
    RenderScene cm timeValue material (RenderScene.asWritten cm material beyond) s
      = some st.2 := by
  rw [RenderScene.script_split, RenderScene.run_append] at h2
  cases h3 : RenderScene.run cm material (RenderScene.scriptInBounds cm)
      (RenderScene.initialLocals, s1) with
  | none =>
    rw [h3] at h2
    exact absurd h2 (by simp)
  | some st3 =>
    rw [h3] at h2
    have h4 : RenderScene.run cm material (RenderScene.scriptPast cm beyond) st3 = some st := h2
    simp only [RenderScene, h1, h3, RenderScene.asWritten, h4]

/-- The frame of `RenderScene` on a state with a shader manager, in an execution that goes on
as the source text reads after the undefined read (`RenderScene.asWritten`): the call
returns; the OpenGL state is the one on entry with the depth map bound to unit 1 and then the
scene textures bound to their units; the shader manager is still there, its
`lightSpaceMatrix` is as before, its `bUseLighting` is true and its `shadowMap` is 1; the
`glUniform*` writes are those of the script; the draw calls are those of the script, on the
framebuffer bound on entry. -/
theorem RenderScene_frame (cm : CMath F) (timeValue : F) (material : OBJECT_MATERIAL F)
    (beyond : Nat → Nat → F) (s : SceneManager F) (sh : ShaderManager F)
    (hsh : s.m_pShaderManager = some sh) :
    ∃ (s2 : SceneManager F) (sh2 : ShaderManager F),
      RenderScene cm timeValue material (RenderScene.asWritten cm material beyond) s
        = some s2 ∧
      s2.m_pShaderManager = some sh2 ∧
      s2.gl = BindGLTextures.loop s.m_textureIDs 0
        (glBindTexture s.depthMap (glActiveTexture 1 s.gl)) ∧
      s2.depthMap = s.depthMap ∧ s2.depthMapFBO = s.depthMapFBO ∧
      s2.m_textureIDs = s.m_textureIDs ∧
      sh2.uniform "lightSpaceMatrix" = sh.uniform "lightSpaceMatrix" ∧
      sh2.uniform "bUseLighting" = some (UniformValue.boolValue true) ∧
      sh2.uniform "shadowMap" = some (UniformValue.sampler2DValue 1) ∧
      s2.programUniforms
        = (RenderScene.programWrites (RenderScene.script cm beyond)).reverse
          ++ s.programUniforms ∧
      s2.draws = s.draws ++ (RenderScene.sceneDraws cm beyond).map
        (fun d => { mesh := d.1, framebuffer := s.gl.framebuffer, model := d.2 }) := by
  obtain ⟨s1, sh1, a1, a2, a3, a4, a5, a6, a7, a8, a9, _, a10, a11⟩ :=
    RenderScene.setup_frame cm timeValue s sh hsh
  obtain ⟨l2, s2, sh2, r1, r2, r3, r4, r5, r6, r7, r9, r10, _⟩ :=
    RenderScene.run_frame cm material (RenderScene.script cm beyond)
      RenderScene.initialLocals s1 sh1 a2
  refine ⟨s2, sh2, RenderScene_asWritten cm timeValue material beyond s s1 _ a1 r1, r2,
    r3.trans a3, r4.trans a4, r5.trans a5, r6.trans a6,
    (r7 _ (Or.inl rfl)).trans a7, (r7 _ (Or.inr (Or.inl rfl))).trans a8,
    (r7 _ (Or.inr (Or.inr rfl))).trans a9, ?_, ?_⟩
  · rw [r9, a10]
  · rw [r10, a11, RenderScene.drawsFrom_script, a3,
      (BindGLTextures.loop_rest s.m_textureIDs 0 _).2.1]
    rfl

end SceneScript

section Passes

variable {F : Type} [Field F]

/-- The depth pass on a state with a shader manager: the scene script is handed the state with
the viewport set, the shadow framebuffer bound, the depth buffer cleared and
`lightSpaceMatrix` written; the default framebuffer is bound when it returns. -/
theorem RenderSceneFromLightPerspective_eq (cm : CMath F)
    (run : SceneManager F → Option (SceneManager F)) (s : SceneManager F)
    (sh : ShaderManager F) (hsh : s.m_pShaderManager = some sh) :
    RenderSceneFromLightPerspective cm run s =
      (run { s with
        m_pShaderManager := some
          (sh.setMat4Value "lightSpaceMatrix"
            (RenderSceneFromLightPerspective.lightSpaceMatrix cm))
        gl := glClear false true
          (glBindFramebuffer s.depthMapFBO
            (glViewport 0 0 SHADOW_WIDTH SHADOW_HEIGHT s.gl)) }).map
        (fun s3 => { s3 with gl := glBindFramebuffer 0 s3.gl }) := by
  have hmap : ∀ r : Option (SceneManager F),
      (match r with
        | none => none
        | some s3 => some { s3 with gl := glBindFramebuffer 0 s3.gl }) =
      r.map (fun s3 => { s3 with gl := glBindFramebuffer 0 s3.gl }) := by
    intro r
    cases r <;> rfl
  simp only [RenderSceneFromLightPerspective, hsh]
  exact hmap _

/-- The statements of `RenderSceneWithShadows` between the depth pass and the last call of
`RenderScene`, on a state `s1` with a shader manager that the depth pass returned. -/
theorem RenderSceneWithShadows_eq (cm : CMath F)
    (depthRun colorRun : SceneManager F → Option (SceneManager F)) (s s1 : SceneManager F)
    (sh1 : ShaderManager F) (h1 : RenderSceneFromLightPerspective cm depthRun s = some s1)
    (hsh1 : s1.m_pShaderManager = some sh1) :
    ∃ (s6 : SceneManager F) (sh6 : ShaderManager F),
      RenderSceneWithShadows cm depthRun colorRun s = colorRun s6 ∧
      s6.m_pShaderManager = some sh6 ∧
      s6.gl = BindGLTextures.loop s1.m_textureIDs 0
        (glBindTexture s1.depthMap (glActiveTexture 1
          (glClear true true (glViewport 0 0 s1.m_ScreenWidth s1.m_ScreenHeight s1.gl)))) ∧
      s6.depthMap = s1.depthMap ∧ s6.depthMapFBO = s1.depthMapFBO ∧
      s6.m_textureIDs = s1.m_textureIDs ∧
      s6.draws = s1.draws ∧ s6.programUniforms = s1.programUniforms ∧
      sh6.uniform "lightSpaceMatrix" = sh1.uniform "lightSpaceMatrix" := by
  simp only [RenderSceneWithShadows, h1, hsh1, SetShaderLights, BindGLTextures]
  refine ⟨_, _, rfl, rfl, ?_, ?_, ?_, ?_, ?_, ?_, ?_⟩ <;> rfl

/-- The depth pass up to the first read past the table `stemOffsets`, on a state with a shader
manager: the state `s3` reached there does not depend on what the execution does afterwards;
the shadow framebuffer is bound in it, the depth clear has been issued on that framebuffer and
the draw calls so far went to it. The depth pass returns, with framebuffer 0 bound, exactly
when the behaviour after the read returns. -/
theorem RenderSceneFromLightPerspective_reach (cm : CMath F) (timeValue : F)
    (material : OBJECT_MATERIAL F) (s : SceneManager F) (sh : ShaderManager F)
    (hsh : s.m_pShaderManager = some sh) :
    ∃ (l3 : RenderScene.Locals F) (s3 : SceneManager F),
      (∀ u : RenderScene.Locals F × SceneManager F → Option (SceneManager F),
        RenderSceneFromLightPerspective cm (RenderScene cm timeValue material u) s
          = (u (l3, s3)).map (fun s4 => { s4 with gl := glBindFramebuffer 0 s4.gl })) ∧
      s3.gl.framebuffer = s.depthMapFBO ∧
      s3.gl.clears = s.gl.clears
        ++ [{ framebuffer := s.depthMapFBO, color := false, depth := true }] ∧
      s3.draws = s.draws ++ (RenderScene.drawsInBounds cm).map
        (fun d => { mesh := d.1, framebuffer := s.depthMapFBO, model := d.2 }) := by
  obtain ⟨l3, s3, sh3, q1, _, q3, _, _, _, _, _, _, _, q11⟩ :=
    RenderScene_reach cm timeValue material
      { s with
        m_pShaderManager := some
          (sh.setMat4Value "lightSpaceMatrix"
            (RenderSceneFromLightPerspective.lightSpaceMatrix cm))
        gl := glClear false true
          (glBindFramebuffer s.depthMapFBO
            (glViewport 0 0 SHADOW_WIDTH SHADOW_HEIGHT s.gl)) } _ rfl
  refine ⟨l3, s3, ?_, ?_, ?_, ?_⟩
  · intro u
    rw [RenderSceneFromLightPerspective_eq cm _ s sh hsh, q1 u]
  · rw [q3, (BindGLTextures.loop_rest _ 0 _).2.1]
    rfl
  · rw [q3, (BindGLTextures.loop_rest _ 0 _).2.2]
    rfl
  · rw [q11]
    rfl

/-- One frame of `RenderSceneWithShadows` with the scene script in both passes, on a state
with a shader manager, in an execution that goes on as the source text reads after the
undefined reads (`RenderScene.asWritten`). `s1` is the state when
`RenderSceneFromLightPerspective` returns and `s2` the state at the end. -/
theorem RenderSceneWithShadows_frame (cm : CMath F) (t1 t2 : F) (m1 m2 : OBJECT_MATERIAL F)
    (b1 b2 : Nat → Nat → F) (s : SceneManager F) (sh : ShaderManager F)
    (hsh : s.m_pShaderManager = some sh) :
    ∃ (s1 s2 : SceneManager F) (sh2 : ShaderManager F),
      RenderSceneFromLightPerspective cm (RenderScene cm t1 m1 (RenderScene.asWritten cm m1 b1)) s = some s1 ∧
      s1.gl.framebuffer = 0 ∧
      s1.gl.clears = s.gl.clears
        ++ [{ framebuffer := s.depthMapFBO, color := false, depth := true }] ∧
      s1.draws = s.draws ++ (RenderScene.sceneDraws cm b1).map
        (fun d => { mesh := d.1, framebuffer := s.depthMapFBO, model := d.2 }) ∧
      RenderSceneWithShadows cm (RenderScene cm t1 m1 (RenderScene.asWritten cm m1 b1)) (RenderScene cm t2 m2 (RenderScene.asWritten cm m2 b2)) s
        = some s2 ∧
      s2.m_pShaderManager = some sh2 ∧
      s2.gl.framebuffer = 0 ∧
      s2.gl.clears = s1.gl.clears ++ [{ framebuffer := 0, color := true, depth := true }] ∧
      s2.draws = s1.draws ++ (RenderScene.sceneDraws cm b2).map
        (fun d => { mesh := d.1, framebuffer := 0, model := d.2 }) ∧
      s2.gl.boundTexture2D 1 =
        (match s.m_textureIDs[1]? with
          | some e => e.ID
          | none => s.depthMap) ∧
      s2.depthMap = s.depthMap ∧
      sh2.uniform "shadowMap" = some (UniformValue.sampler2DValue 1) ∧
      sh2.uniform "bUseLighting" = some (UniformValue.boolValue true) ∧
      sh2.uniform "lightSpaceMatrix" = some (UniformValue.mat4Value
        (RenderSceneFromLightPerspective.lightSpaceMatrix cm)) := by
  obtain ⟨s3, sh3, q1, q2, q3, q4, q5, q6, q7, _, _, _, q11⟩ :=
    RenderScene_frame cm t1 m1 b1
      { s with
        m_pShaderManager := some
          (sh.setMat4Value "lightSpaceMatrix"
            (RenderSceneFromLightPerspective.lightSpaceMatrix cm))
        gl := glClear false true
          (glBindFramebuffer s.depthMapFBO
            (glViewport 0 0 SHADOW_WIDTH SHADOW_HEIGHT s.gl)) } _ rfl
  have hA : RenderSceneFromLightPerspective cm (RenderScene cm t1 m1 (RenderScene.asWritten cm m1 b1)) s
      = some { s3 with gl := glBindFramebuffer 0 s3.gl } := by
    rw [RenderSceneFromLightPerspective_eq cm _ s sh hsh, q1]
    rfl
  obtain ⟨s6, sh6, c1, c2, c3, c4, _, c6, c7, _, c9⟩ :=
    RenderSceneWithShadows_eq cm (RenderScene cm t1 m1 (RenderScene.asWritten cm m1 b1)) (RenderScene cm t2 m2 (RenderScene.asWritten cm m2 b2)) s
      { s3 with gl := glBindFramebuffer 0 s3.gl } sh3 hA q2
  obtain ⟨s2, sh2, r1, r2, r3, r4, _, _, r7, r8, r9, _, r11⟩ :=
    RenderScene_frame cm t2 m2 b2 s6 sh6 c2
  have hfb6 : s6.gl.framebuffer = 0 := by
    rw [c3, (BindGLTextures.loop_rest _ 0 _).2.1]
    rfl
  refine ⟨{ s3 with gl := glBindFramebuffer 0 s3.gl }, s2, sh2, hA, rfl, ?_, ?_,
    c1.trans r1, r2, ?_, ?_, ?_, ?_, ?_, r9, r8, ?_⟩
  · show s3.gl.clears = _
    rw [q3, (BindGLTextures.loop_rest _ 0 _).2.2]
    rfl
  · show s3.draws = _
    rw [q11]
    rfl
  · rw [r3, (BindGLTextures.loop_rest _ 0 _).2.1]
    exact hfb6
  · rw [r3, (BindGLTextures.loop_rest _ 0 _).2.2]
    show s6.gl.clears = _
    rw [c3, (BindGLTextures.loop_rest _ 0 _).2.2]
    rfl
  · rw [r11, c7, hfb6]
  · have ht : s6.m_textureIDs = s.m_textureIDs := c6.trans q6
    have hd : s6.depthMap = s.depthMap := c4.trans q4
    rw [r3, BindGLTextures.loop_bound, ht, hd]
    cases s.m_textureIDs[1 - 0]? with
    | some e => rfl
    | none => simp [glBindTexture, glActiveTexture]
  · rw [r4, c4]
    exact q4
  · rw [r7, c9]
    show sh3.uniform "lightSpaceMatrix" = _
    rw [q7]
    rfl

end Passes

section Divergence

variable {F : Type} [Field F]

/-- The translation column of the matrix `SetTransformations` writes is the position. -/
theorem RenderScene.modelOf_position (cm : CMath F) (scaleXYZ : vec3 F) (x y z : F)
    (positionXYZ : vec3 F) :
    ∃ m : mat4 F, RenderScene.modelOf cm scaleXYZ x y z positionXYZ
        = some (UniformValue.mat4Value m) ∧
      m.c3 = ⟨positionXYZ.x, positionXYZ.y, positionXYZ.z, 1⟩ := by
  refine ⟨_, rfl, ?_⟩
  simp [glm.translate, glm.translateM, glm.rotate, glm.rotateM, glm.scale, glm.scaleM,
    mat4.identity, mat4_mul_def, mat4.mul, vec4_mul_def, vec4_add_def]

/-- The draw call 251 of the scene script (counted from 0) is the cylinder of the fourth stem
of the second plant; its position is built from the two values read past `stemOffsets`. -/
theorem RenderScene.sceneDraws_stem (cm : CMath F) (beyond : Nat → Nat → F) :
    (RenderScene.sceneDraws cm beyond)[251]? = some
      (Mesh.Cylinder, RenderScene.modelOf cm ⟨0.15, 3, 0.15⟩ (((3 : Nat) : F) * (-10))
        (((3 : Nat) : F) * (-10)) 0 ⟨-13 + beyond 3 0, 3.25, -5 + beyond 3 1⟩) := by
  have hpart01 : ∀ st : RenderScene.Locals F × Option (UniformValue F),
      (RenderScene.drawsFrom cm (RenderScene.part01 : List (RenderScene.Stmt F)) st).length = 10 :=
    fun _ => rfl
  have hpart02 : ∀ st : RenderScene.Locals F × Option (UniformValue F),
      (RenderScene.drawsFrom cm (RenderScene.part02 : List (RenderScene.Stmt F)) st).length = 11 :=
    fun _ => rfl
  have hpart03 : ∀ st : RenderScene.Locals F × Option (UniformValue F),
      (RenderScene.drawsFrom cm (RenderScene.part03 : List (RenderScene.Stmt F)) st).length = 10 :=
    fun _ => rfl
  have hpart04 : ∀ st : RenderScene.Locals F × Option (UniformValue F),
      (RenderScene.drawsFrom cm (RenderScene.part04 : List (RenderScene.Stmt F)) st).length = 10 :=
    fun _ => rfl
  have hpart05 : ∀ st : RenderScene.Locals F × Option (UniformValue F),
      (RenderScene.drawsFrom cm (RenderScene.part05 : List (RenderScene.Stmt F)) st).length = 13 :=
    fun _ => rfl
  have hpart06 : ∀ st : RenderScene.Locals F × Option (UniformValue F),
      (RenderScene.drawsFrom cm (RenderScene.part06 : List (RenderScene.Stmt F)) st).length = 12 :=
    fun _ => rfl
  have hpart07 : ∀ st : RenderScene.Locals F × Option (UniformValue F),
      (RenderScene.drawsFrom cm (RenderScene.part07 : List (RenderScene.Stmt F)) st).length = 10 :=
    fun _ => rfl
  have hpart08 : ∀ st : RenderScene.Locals F × Option (UniformValue F),
      (RenderScene.drawsFrom cm (RenderScene.part08 : List (RenderScene.Stmt F)) st).length = 11 :=
    fun _ => rfl
  have hpart09 : ∀ st : RenderScene.Locals F × Option (UniformValue F),
      (RenderScene.drawsFrom cm (RenderScene.part09 : List (RenderScene.Stmt F)) st).length = 9 :=
    fun _ => rfl
  have hpart10 : ∀ st : RenderScene.Locals F × Option (UniformValue F),
      (RenderScene.drawsFrom cm (RenderScene.part10 : List (RenderScene.Stmt F)) st).length = 6 :=
    fun _ => rfl
  have hgrass : ∀ (p : vec3 F) (st : RenderScene.Locals F × Option (UniformValue F)),
      (RenderScene.drawsFrom cm (RenderScene.grassLeaves cm p) st).length = 10 :=
    fun _ _ => rfl
  have hpart11 : ∀ st : RenderScene.Locals F × Option (UniformValue F),
      (RenderScene.drawsFrom cm (RenderScene.part11 : List (RenderScene.Stmt F)) st).length = 2 :=
    fun _ => rfl
  have hpart12 : ∀ st : RenderScene.Locals F × Option (UniformValue F),
      (RenderScene.drawsFrom cm (RenderScene.part12 : List (RenderScene.Stmt F)) st).length = 1 :=
    fun _ => rfl
  have hplant1 : ∀ st : RenderScene.Locals F × Option (UniformValue F),
      (RenderScene.drawsFrom cm (RenderScene.plant1 cm) st).length = 63 :=
    fun _ => rfl
  have hplant2 : ∀ st : RenderScene.Locals F × Option (UniformValue F),
      (RenderScene.drawsFrom cm (RenderScene.plant2 cm beyond) st)[63]? = some
        (Mesh.Cylinder, RenderScene.modelOf cm ⟨0.15, 3, 0.15⟩ (((3 : Nat) : F) * (-10))
          (((3 : Nat) : F) * (-10)) 0 ⟨-13 + beyond 3 0, 3.25, -5 + beyond 3 1⟩) :=
    fun _ => rfl
  have hlen2 : ∀ st : RenderScene.Locals F × Option (UniformValue F),
      (RenderScene.drawsFrom cm (RenderScene.plant2 cm beyond) st).length = 126 :=
    fun _ => rfl
  unfold RenderScene.sceneDraws
  simp only [RenderScene.script, List.append_assoc]
  rw [RenderScene.drawsFrom_append, List.getElem?_append_right (by rw [hpart01]; decide), hpart01]
  rw [RenderScene.drawsFrom_append, List.getElem?_append_right (by rw [hpart02]; decide), hpart02]
  rw [RenderScene.drawsFrom_append, List.getElem?_append_right (by rw [hpart03]; decide), hpart03]
  rw [RenderScene.drawsFrom_append, List.getElem?_append_right (by rw [hpart04]; decide), hpart04]
  rw [RenderScene.drawsFrom_append, List.getElem?_append_right (by rw [hpart05]; decide), hpart05]
  rw [RenderScene.drawsFrom_append, List.getElem?_append_right (by rw [hpart06]; decide), hpart06]
  rw [RenderScene.drawsFrom_append, List.getElem?_append_right (by rw [hpart07]; decide), hpart07]
  rw [RenderScene.drawsFrom_append, List.getElem?_append_right (by rw [hpart08]; decide), hpart08]
  rw [RenderScene.drawsFrom_append, List.getElem?_append_right (by rw [hpart09]; decide), hpart09]
  rw [RenderScene.drawsFrom_append, List.getElem?_append_right (by rw [hpart10]; decide), hpart10]
  rw [RenderScene.drawsFrom_append, List.getElem?_append_right (by rw [hgrass]; decide), hgrass]
  rw [RenderScene.drawsFrom_append, List.getElem?_append_right (by rw [hpart11]; decide), hpart11]
  rw [RenderScene.drawsFrom_append, List.getElem?_append_right (by rw [hgrass]; decide), hgrass]
  rw [RenderScene.drawsFrom_append, List.getElem?_append_right (by rw [hpart12]; decide), hpart12]
  rw [RenderScene.drawsFrom_append, List.getElem?_append_right (by rw [hplant1]; decide), hplant1]
  rw [RenderScene.drawsFrom_append, List.getElem?_append_left (by rw [hlen2]; decide)]
  exact hplant2 _

/-- The scene script issues 335 draw calls. -/
theorem RenderScene.sceneDraws_length (cm : CMath F) (beyond : Nat → Nat → F) :
    (RenderScene.sceneDraws cm beyond).length = 335 := by
  have hpart01 : ∀ st : RenderScene.Locals F × Option (UniformValue F),
      (RenderScene.drawsFrom cm (RenderScene.part01 : List (RenderScene.Stmt F)) st).length = 10 :=
    fun _ => rfl
  have hpart02 : ∀ st : RenderScene.Locals F × Option (UniformValue F),
      (RenderScene.drawsFrom cm (RenderScene.part02 : List (RenderScene.Stmt F)) st).length = 11 :=
    fun _ => rfl
  have hpart03 : ∀ st : RenderScene.Locals F × Option (UniformValue F),
      (RenderScene.drawsFrom cm (RenderScene.part03 : List (RenderScene.Stmt F)) st).length = 10 :=
    fun _ => rfl
  have hpart04 : ∀ st : RenderScene.Locals F × Option (UniformValue F),
      (RenderScene.drawsFrom cm (RenderScene.part04 : List (RenderScene.Stmt F)) st).length = 10 :=
    fun _ => rfl
  have hpart05 : ∀ st : RenderScene.Locals F × Option (UniformValue F),
      (RenderScene.drawsFrom cm (RenderScene.part05 : List (RenderScene.Stmt F)) st).length = 13 :=
    fun _ => rfl
  have hpart06 : ∀ st : RenderScene.Locals F × Option (UniformValue F),
      (RenderScene.drawsFrom cm (RenderScene.part06 : List (RenderScene.Stmt F)) st).length = 12 :=
    fun _ => rfl
  have hpart07 : ∀ st : RenderScene.Locals F × Option (UniformValue F),
      (RenderScene.drawsFrom cm (RenderScene.part07 : List (RenderScene.Stmt F)) st).length = 10 :=
    fun _ => rfl
  have hpart08 : ∀ st : RenderScene.Locals F × Option (UniformValue F),
      (RenderScene.drawsFrom cm (RenderScene.part08 : List (RenderScene.Stmt F)) st).length = 11 :=
    fun _ => rfl
  have hpart09 : ∀ st : RenderScene.Locals F × Option (UniformValue F),
      (RenderScene.drawsFrom cm (RenderScene.part09 : List (RenderScene.Stmt F)) st).length = 9 :=
    fun _ => rfl
  have hpart10 : ∀ st : RenderScene.Locals F × Option (UniformValue F),
      (RenderScene.drawsFrom cm (RenderScene.part10 : List (RenderScene.Stmt F)) st).length = 6 :=
    fun _ => rfl
  have hgrass : ∀ (p : vec3 F) (st : RenderScene.Locals F × Option (UniformValue F)),
      (RenderScene.drawsFrom cm (RenderScene.grassLeaves cm p) st).length = 10 :=
    fun _ _ => rfl
  have hpart11 : ∀ st : RenderScene.Locals F × Option (UniformValue F),
      (RenderScene.drawsFrom cm (RenderScene.part11 : List (RenderScene.Stmt F)) st).length = 2 :=
    fun _ => rfl
  have hpart12 : ∀ st : RenderScene.Locals F × Option (UniformValue F),
      (RenderScene.drawsFrom cm (RenderScene.part12 : List (RenderScene.Stmt F)) st).length = 1 :=
    fun _ => rfl
  have hplant1 : ∀ st : RenderScene.Locals F × Option (UniformValue F),
      (RenderScene.drawsFrom cm (RenderScene.plant1 cm) st).length = 63 :=
    fun _ => rfl
  have hplant2 : ∀ st : RenderScene.Locals F × Option (UniformValue F),
      (RenderScene.drawsFrom cm (RenderScene.plant2 cm beyond) st).length = 126 :=
    fun _ => rfl
  have hpart13 : ∀ st : RenderScene.Locals F × Option (UniformValue F),
      (RenderScene.drawsFrom cm (RenderScene.part13 : List (RenderScene.Stmt F)) st).length = 12 :=
    fun _ => rfl
  have hpart14 : ∀ st : RenderScene.Locals F × Option (UniformValue F),
      (RenderScene.drawsFrom cm (RenderScene.part14 : List (RenderScene.Stmt F)) st).length = 9 :=
    fun _ => rfl
  unfold RenderScene.sceneDraws
  simp only [RenderScene.script, RenderScene.drawsFrom_append, List.length_append,
    hpart01, hpart02, hpart03, hpart04, hpart05, hpart06, hpart07, hpart08, hpart09,
    hpart10, hgrass, hpart11, hpart12, hplant1, hplant2, hpart13, hpart14]

/-- The scene script issues 251 draw calls before the first read past `stemOffsets`. -/
theorem RenderScene.drawsInBounds_length (cm : CMath F) :
    (RenderScene.drawsInBounds cm).length = 251 := by
  have hl := RenderScene.sceneDraws_length cm (fun _ _ => (0 : F))
  have hpast : ∀ st : RenderScene.Locals F × Option (UniformValue F),
      (RenderScene.drawsFrom cm (RenderScene.scriptPast cm (fun _ _ => (0 : F))) st).length
        = 84 := by
    intro st
    have h1 : ∀ st : RenderScene.Locals F × Option (UniformValue F),
        (RenderScene.drawsFrom cm (RenderScene.plant2.past cm (fun _ _ => (0 : F))) st).length
          = 63 := fun _ => rfl
    have h13 : ∀ st : RenderScene.Locals F × Option (UniformValue F),
        (RenderScene.drawsFrom cm (RenderScene.part13 : List (RenderScene.Stmt F)) st).length
          = 12 := fun _ => rfl
    have h14 : ∀ st : RenderScene.Locals F × Option (UniformValue F),
        (RenderScene.drawsFrom cm (RenderScene.part14 : List (RenderScene.Stmt F)) st).length
          = 9 := fun _ => rfl
    simp only [RenderScene.scriptPast, RenderScene.drawsFrom_append, List.length_append, h1,
      h13, h14]
  unfold RenderScene.sceneDraws at hl
  rw [RenderScene.script_split, RenderScene.drawsFrom_append, List.length_append, hpast] at hl
  unfold RenderScene.drawsInBounds
  omega

/-- The draw calls of the script as the source text reads start with those issued before the
first read past `stemOffsets`. -/
theorem RenderScene.sceneDraws_split (cm : CMath F) (beyond : Nat → Nat → F) :
    RenderScene.sceneDraws cm beyond = RenderScene.drawsInBounds cm
      ++ RenderScene.drawsFrom cm (RenderScene.scriptPast cm beyond)
        (RenderScene.trackAll cm (RenderScene.scriptInBounds cm)
          (RenderScene.initialLocals, none)) := by
  unfold RenderScene.sceneDraws RenderScene.drawsInBounds
  rw [RenderScene.script_split, RenderScene.drawsFrom_append]

end Divergence

section ScriptFacts

variable {F : Type}

theorem RenderScene.meshes_append (a b : List (RenderScene.Stmt F)) :
    RenderScene.meshes (a ++ b) = RenderScene.meshes a ++ RenderScene.meshes b := by
  induction a with
  | nil => rfl
  | cons c rest ih => cases c <;> simp [RenderScene.meshes, ih]

variable [Field F]

theorem RenderScene.drawsFrom_meshes (cm : CMath F) (cmds : List (RenderScene.Stmt F))
    (st : RenderScene.Locals F × Option (UniformValue F)) :
    (RenderScene.drawsFrom cm cmds st).map Prod.fst = RenderScene.meshes cmds := by
  induction cmds generalizing st with
  | nil => rfl
  | cons c rest ih => cases c <;> simp [RenderScene.drawsFrom, RenderScene.meshes, ih]

/-- The shapes the scene script draws do not depend on what is read past `stemOffsets`. -/
theorem RenderScene.sceneDraws_meshes (cm : CMath F) (b1 b2 : Nat → Nat → F) :
    (RenderScene.sceneDraws cm b1).map Prod.fst = (RenderScene.sceneDraws cm b2).map Prod.fst := by
  have h1 : RenderScene.meshes (RenderScene.plant1 cm)
      = (List.replicate 3 (Mesh.Cylinder :: List.replicate 20 Mesh.Box)).flatten := rfl
  have h2 : ∀ b : Nat → Nat → F, RenderScene.meshes (RenderScene.plant2 cm b)
      = (List.replicate 6 (Mesh.Cylinder :: List.replicate 20 Mesh.Box)).flatten :=
    fun _ => rfl
  unfold RenderScene.sceneDraws
  rw [RenderScene.drawsFrom_meshes, RenderScene.drawsFrom_meshes]
  simp only [RenderScene.script, RenderScene.meshes_append, h1, h2]

/-- The scene script is the same whenever the six values read past `stemOffsets` are. -/
theorem RenderScene.script_congr (cm : CMath F) (b1 b2 : Nat → Nat → F)
    (h : ∀ s j : Nat, 3 ≤ s → s < 6 → j < 2 → b1 s j = b2 s j) :
    RenderScene.script cm b1 = RenderScene.script cm b2 := by
  have h30 := h 3 0 (by decide) (by decide) (by decide)
  have h31 := h 3 1 (by decide) (by decide) (by decide)
  have h40 := h 4 0 (by decide) (by decide) (by decide)
  have h41 := h 4 1 (by decide) (by decide) (by decide)
  have h50 := h 5 0 (by decide) (by decide) (by decide)
  have h51 := h 5 1 (by decide) (by decide) (by decide)
  have hr6 : List.range RenderScene.numStems2 = [0, 1, 2, 3, 4, 5] := rfl
  have hp2 : RenderScene.plant2 cm b1 = RenderScene.plant2 cm b2 := by
    simp only [RenderScene.plant2, hr6, List.flatMap_cons, List.flatMap_nil,
      RenderScene.stemOffsets, h30, h31, h40, h41, h50, h51]
  simp only [RenderScene.script, hp2]

end ScriptFacts

section LightSpaceDepth

variable {F : Type} [LinearOrderedField F]

/-- The depth of a point under the light-space matrix, as a function of its distance from the
eye along the view direction. -/
theorem lightSpaceMatrix_depth (cm : CMath F) (p : vec3 F) :
    ((RenderSceneFromLightPerspective.lightSpaceMatrix cm).mulVec ⟨p.x, p.y, p.z, 1⟩).z
        = 2 / 49 * glm.dot (p - ⟨0, 14, -9.85⟩)
            (glm.normalize cm ((⟨0, 0, 0⟩ : vec3 F) - ⟨0, 14, -9.85⟩)) - 51 / 49 ∧
      ((RenderSceneFromLightPerspective.lightSpaceMatrix cm).mulVec ⟨p.x, p.y, p.z, 1⟩).w
        = 1 := by
  constructor
  · simp only [RenderSceneFromLightPerspective.lightSpaceMatrix, glm.ortho, glm.lookAt,
      glm.normalize, glm.inversesqrt, glm.dot, glm.cross, mat4_mul_def, mat4.mul, mat4.mulVec,
      vec4_mul_def, vec4_add_def, vec3_sub_def, vec3_mul_def]
    ring
  · simp only [RenderSceneFromLightPerspective.lightSpaceMatrix, glm.ortho, glm.lookAt,
      glm.normalize, glm.inversesqrt, glm.dot, glm.cross, mat4_mul_def, mat4.mul, mat4.mulVec,
      vec4_mul_def, vec4_add_def, vec3_sub_def, vec3_mul_def]
    ring

/-- C21: under the light-space matrix `M` of the depth pass, the depth of a point `p` is
`2/49 * ((p - eye) . f) - 51/49`, where `eye` is (0, 14, -9.85) and `f` is the vector
`normalize((0,0,0) - eye)` that `lookAt` computes; so a point farther from the light along `f`
has a strictly larger depth, and the fourth component of `M * p` is 1 for every `p`. When the
square root the math library answers for 293.0225 is the positive number whose square that is,
`f` is the unit vector from the eye towards the origin, (0, -14, 9.85) divided by that root. -/
theorem C21_light_space_depth_monotone (cm : CMath F) :
    (∀ p q : vec3 F,
      glm.dot (p - ⟨0, 14, -9.85⟩)
          (glm.normalize cm ((⟨0, 0, 0⟩ : vec3 F) - ⟨0, 14, -9.85⟩))
        < glm.dot (q - ⟨0, 14, -9.85⟩)
          (glm.normalize cm ((⟨0, 0, 0⟩ : vec3 F) - ⟨0, 14, -9.85⟩)) →
      ((RenderSceneFromLightPerspective.lightSpaceMatrix cm).mulVec ⟨p.x, p.y, p.z, 1⟩).z
        < ((RenderSceneFromLightPerspective.lightSpaceMatrix cm).mulVec
            ⟨q.x, q.y, q.z, 1⟩).z) ∧
      (∀ p : vec3 F,
        ((RenderSceneFromLightPerspective.lightSpaceMatrix cm).mulVec ⟨p.x, p.y, p.z, 1⟩).z
          = 2 / 49 * glm.dot (p - ⟨0, 14, -9.85⟩)
              (glm.normalize cm ((⟨0, 0, 0⟩ : vec3 F) - ⟨0, 14, -9.85⟩)) - 51 / 49) ∧
      (∀ p : vec3 F,
        ((RenderSceneFromLightPerspective.lightSpaceMatrix cm).mulVec ⟨p.x, p.y, p.z, 1⟩).w
          = 1) ∧
      RenderSceneFromLightPerspective.lightSpaceMatrix cm =
        glm.ortho (-10) 10 (-10) 10 1 50 * glm.lookAt cm ⟨0, 14, -9.85⟩ ⟨0, 0, 0⟩ ⟨0, 1, 0⟩ ∧
      (0 < cm.sqrt 293.0225 → cm.sqrt 293.0225 * cm.sqrt 293.0225 = 293.0225 →
        glm.normalize cm ((⟨0, 0, 0⟩ : vec3 F) - ⟨0, 14, -9.85⟩)
          = ⟨0, -14 / cm.sqrt 293.0225, 9.85 / cm.sqrt 293.0225⟩ ∧
        glm.dot (glm.normalize cm ((⟨0, 0, 0⟩ : vec3 F) - ⟨0, 14, -9.85⟩))
          (glm.normalize cm ((⟨0, 0, 0⟩ : vec3 F) - ⟨0, 14, -9.85⟩)) = 1) := by
  refine ⟨?_, fun p => (lightSpaceMatrix_depth cm p).1, fun p => (lightSpaceMatrix_depth cm p).2,
    rfl, ?_⟩
  · intro p q h
    rw [(lightSpaceMatrix_depth cm p).1, (lightSpaceMatrix_depth cm q).1]
    linarith
  · intro hpos hsq
    have hd : glm.dot ((⟨0, 0, 0⟩ : vec3 F) - ⟨0, 14, -9.85⟩)
        ((⟨0, 0, 0⟩ : vec3 F) - ⟨0, 14, -9.85⟩) = 293.0225 := by
      simp only [glm.dot, vec3_sub_def]
      norm_num
    have hne : cm.sqrt 293.0225 ≠ 0 := ne_of_gt hpos
    have hn : glm.normalize cm ((⟨0, 0, 0⟩ : vec3 F) - ⟨0, 14, -9.85⟩)
        = ⟨0, -14 / cm.sqrt 293.0225, 9.85 / cm.sqrt 293.0225⟩ := by
      unfold glm.normalize glm.inversesqrt
      rw [hd]
      simp only [vec3_sub_def, vec3_mul_def, vec3.mk.injEq]
      refine ⟨by ring, by ring, by ring⟩
    refine ⟨hn, ?_⟩
    rw [hn]
    simp only [glm.dot]
    have key : ∀ d : F, d ≠ 0 → d * d = 293.0225 →
        (0 : F) * 0 + -14 / d * (-14 / d) + 9.85 / d * (9.85 / d) = 1 := by
      intro d hd0 hdd
      have h1 : (0 : F) * 0 + -14 / d * (-14 / d) + 9.85 / d * (9.85 / d)
          = 293.0225 / (d * d) := by
        field_simp
        ring
      rw [h1, hdd]
      exact div_self (by norm_num)
    exact key _ hne hsq

/-- Witness for `C21_light_space_depth_monotone`: with the real square root, the eye itself is
nearer to the light than the origin, and its depth is smaller. -/
theorem C21_light_space_depth_monotone_witness :
    ((RenderSceneFromLightPerspective.lightSpaceMatrix
        (CMath.mk Real.sin Real.cos Real.sqrt)).mulVec ⟨0, 14, -9.85, 1⟩).z
      < ((RenderSceneFromLightPerspective.lightSpaceMatrix
        (CMath.mk Real.sin Real.cos Real.sqrt)).mulVec ⟨0, 0, 0, 1⟩).z :=
  (C21_light_space_depth_monotone (CMath.mk Real.sin Real.cos Real.sqrt)).1
    ⟨0, 14, -9.85⟩ ⟨0, 0, 0⟩ (by
      simp only [glm.dot, glm.normalize, glm.inversesqrt, vec3_sub_def, vec3_mul_def]
      have key : ∀ r : ℝ, 0 < r →
          (0 - 0) * ((0 - 0) * (1 / r)) + (14 - 14) * ((0 - 14) * (1 / r))
              + (-9.85 - -9.85) * ((0 - -9.85) * (1 / r))
            < (0 - 0) * ((0 - 0) * (1 / r)) + (0 - 14) * ((0 - 14) * (1 / r))
              + (0 - -9.85) * ((0 - -9.85) * (1 / r)) := by
        intro r hr
        have h2 : 0 < 1 / r := one_div_pos.2 hr
        nlinarith [h2]
      exact key _ (Real.sqrt_pos.2 (by norm_num)))

end LightSpaceDepth

section ShadowPass

variable {F : Type} [Field F]

/-! ## The shadow map's texture unit -/

/-- C22: the content of texture unit 1. In `RenderScene`, the depth map is bound to unit 1
first and `BindGLTextures` then binds texture `i` to unit `i`, unit 1 included. So in the
state `RenderScene` has reached at the first read past `stemOffsets`, on entry with a shader
manager and whatever the execution does afterwards, the `shadowMap` sampler is set to unit 1
and unit 1 holds the second registered scene texture whenever at least two textures are
registered; it holds the shadow depth texture only when fewer than two are. In an execution
that goes on as the source text reads, the same holds when `RenderScene` returns and after a
frame of `RenderSceneWithShadows`. -/
theorem C22_scene_texture_on_shadow_unit (cm : CMath F) (t1 t2 : F)
    (m1 m2 : OBJECT_MATERIAL F) (b1 b2 : Nat → Nat → F) (s : SceneManager F)
    (sh : ShaderManager F) (hsh : s.m_pShaderManager = some sh) :
    (∃ (s2 : SceneManager F) (sh2 : ShaderManager F),
      RenderSceneWithShadows cm (RenderScene cm t1 m1 (RenderScene.asWritten cm m1 b1))
        (RenderScene cm t2 m2 (RenderScene.asWritten cm m2 b2)) s = some s2 ∧
      s2.m_pShaderManager = some sh2 ∧
      sh2.uniform g_ShadowMapName = some (UniformValue.sampler2DValue 1) ∧
      s2.depthMap = s.depthMap ∧
      s2.gl.boundTexture2D 1 =
        (match s.m_textureIDs[1]? with
          | some e => e.ID
          | none => s.depthMap)) ∧
      (∃ (s3 : SceneManager F) (sh3 : ShaderManager F),
        RenderScene cm t1 m1 (RenderScene.asWritten cm m1 b1) s = some s3 ∧
        s3.m_pShaderManager = some sh3 ∧
        sh3.uniform g_ShadowMapName = some (UniformValue.sampler2DValue 1) ∧
        s3.depthMap = s.depthMap ∧
        s3.gl.boundTexture2D 1 =
          (match s.m_textureIDs[1]? with
            | some e => e.ID
            | none => s.depthMap)) ∧
      ∃ (l4 : RenderScene.Locals F) (s4 : SceneManager F) (sh4 : ShaderManager F),
        (∀ u : RenderScene.Locals F × SceneManager F → Option (SceneManager F),
          RenderScene cm t1 m1 u s = u (l4, s4)) ∧
        s4.m_pShaderManager = some sh4 ∧
        sh4.uniform g_ShadowMapName = some (UniformValue.sampler2DValue 1) ∧
        s4.depthMap = s.depthMap ∧
        s4.gl.boundTexture2D 1 =
          (match s.m_textureIDs[1]? with
            | some e => e.ID
            | none => s.depthMap) := by
  refine ⟨?_, ?_, ?_⟩
  · obtain ⟨_, s2, sh2, _, _, _, _, h5, h6, _, _, _, h10, h11, h12, _, _⟩ :=
      RenderSceneWithShadows_frame cm t1 t2 m1 m2 b1 b2 s sh hsh
    exact ⟨s2, sh2, h5, h6, h12, h11, h10⟩
  · obtain ⟨s3, sh3, r1, r2, r3, r4, _, _, _, _, r9, _, _⟩ :=
      RenderScene_frame cm t1 m1 b1 s sh hsh
    refine ⟨s3, sh3, r1, r2, r9, r4, ?_⟩
    rw [r3, BindGLTextures.loop_bound]
    cases s.m_textureIDs[1 - 0]? with
    | some e => rfl
    | none => simp [glBindTexture, glActiveTexture]
  · obtain ⟨l4, s4, sh4, r1, r2, r3, r4, _, _, _, _, r9, _, _⟩ :=
      RenderScene_reach cm t1 m1 s sh hsh
    refine ⟨l4, s4, sh4, r1, r2, r9, r4, ?_⟩
    rw [r3, BindGLTextures.loop_bound]
    cases s.m_textureIDs[1 - 0]? with
    | some e => rfl
    | none => simp [glBindTexture, glActiveTexture]

/-- Witness for `C22_scene_texture_on_shadow_unit`: the scene `PrepareScene` builds when every
image decodes and the driver names the ten textures 2 to 11, the shadow depth texture being
texture 1. In the state reached at the undefined read, whatever follows, unit 1 holds
texture 3, the second scene texture. -/
theorem C22_scene_texture_on_shadow_unit_witness :
    ∃ (l4 : RenderScene.Locals ℝ) (s4 : SceneManager ℝ),
      (∀ u : RenderScene.Locals ℝ × SceneManager ℝ → Option (SceneManager ℝ),
        RenderScene (CMath.mk Real.sin Real.cos Real.sqrt) 0
          (DefineObjectMaterials.defaultMaterial ⟨0, 0, 0⟩) u
          (PrepareScene allRGB (fun i => Fin.ofNat (i + 2)) ⟨0, 0, 0⟩ (shaderScene ℝ))
          = u (l4, s4)) ∧
      s4.depthMap = 1 ∧ s4.gl.boundTexture2D 1 = 3 :=
  match (C22_scene_texture_on_shadow_unit (CMath.mk Real.sin Real.cos Real.sqrt) 0 0
      (DefineObjectMaterials.defaultMaterial ⟨0, 0, 0⟩)
      (DefineObjectMaterials.defaultMaterial ⟨0, 0, 0⟩) (fun _ _ => 0) (fun _ _ => 0)
      (PrepareScene allRGB (fun i => Fin.ofNat (i + 2)) ⟨0, 0, 0⟩ (shaderScene ℝ))
      { writes := [] } rfl).2.2 with
  | ⟨l4, s4, _, h1, _, _, h4, h5⟩ => ⟨l4, s4, h1, h4, h5⟩

/-! ## Order of the two passes -/

/-- C23: the depth pass and the undefined read. On a state with a shader manager,
`RenderSceneFromLightPerspective` binds the shadow framebuffer `depthMapFBO`, clears depth on
it and runs the scene script, whose first 251 draw calls go to it; then the script reads past
`stemOffsets`, and the depth pass returns only if the execution returns from there. When it
does not, neither the depth pass nor `RenderSceneWithShadows` returns: framebuffer 0 is never
bound and the colour pass does not begin. Whenever the depth pass does return, framebuffer 0
is bound. In an execution that goes on as the source text reads, the depth pass completes
with 335 draw calls on `depthMapFBO`, and the colour clear and the 335 draw calls of the
second run follow on framebuffer 0. -/
theorem C23_depth_pass_need_not_complete (cm : CMath F) (t1 t2 : F)
    (m1 m2 : OBJECT_MATERIAL F) (b1 b2 : Nat → Nat → F) (s : SceneManager F)
    (sh : ShaderManager F) (hsh : s.m_pShaderManager = some sh) :
    (∃ (l3 : RenderScene.Locals F) (s3 : SceneManager F),
      (∀ u : RenderScene.Locals F × SceneManager F → Option (SceneManager F),
        RenderSceneFromLightPerspective cm (RenderScene cm t1 m1 u) s
          = (u (l3, s3)).map (fun s4 => { s4 with gl := glBindFramebuffer 0 s4.gl })) ∧
      s3.gl.framebuffer = s.depthMapFBO ∧
      s3.gl.clears = s.gl.clears
        ++ [{ framebuffer := s.depthMapFBO, color := false, depth := true }] ∧
      s3.draws = s.draws ++ (RenderScene.drawsInBounds cm).map
        (fun d => { mesh := d.1, framebuffer := s.depthMapFBO, model := d.2 }) ∧
      (RenderScene.drawsInBounds cm).length = 251) ∧
      RenderSceneFromLightPerspective cm (RenderScene cm t1 m1 RenderScene.neverReturns) s
        = none ∧
      (∀ colorRun : SceneManager F → Option (SceneManager F),
        RenderSceneWithShadows cm (RenderScene cm t1 m1 RenderScene.neverReturns) colorRun s
          = none) ∧
      (∀ (u : RenderScene.Locals F × SceneManager F → Option (SceneManager F))
          (s1 : SceneManager F),
        RenderSceneFromLightPerspective cm (RenderScene cm t1 m1 u) s = some s1 →
        s1.gl.framebuffer = 0) ∧
      ∃ s1 s2 : SceneManager F,
        RenderSceneFromLightPerspective cm
          (RenderScene cm t1 m1 (RenderScene.asWritten cm m1 b1)) s = some s1 ∧
        s1.gl.framebuffer = 0 ∧
        s1.gl.clears = s.gl.clears
          ++ [{ framebuffer := s.depthMapFBO, color := false, depth := true }] ∧
        s1.draws = s.draws ++ (RenderScene.sceneDraws cm b1).map
          (fun d => { mesh := d.1, framebuffer := s.depthMapFBO, model := d.2 }) ∧
        RenderSceneWithShadows cm (RenderScene cm t1 m1 (RenderScene.asWritten cm m1 b1))
          (RenderScene cm t2 m2 (RenderScene.asWritten cm m2 b2)) s = some s2 ∧
        s2.gl.framebuffer = 0 ∧
        s2.gl.clears = s.gl.clears
          ++ [{ framebuffer := s.depthMapFBO, color := false, depth := true },
              { framebuffer := 0, color := true, depth := true }] ∧
        s2.draws = s.draws
          ++ (RenderScene.sceneDraws cm b1).map
            (fun d => { mesh := d.1, framebuffer := s.depthMapFBO, model := d.2 })
          ++ (RenderScene.sceneDraws cm b2).map
            (fun d => { mesh := d.1, framebuffer := 0, model := d.2 }) ∧
        (s.depthMapFBO ≠ 0 →
          ∀ d ∈ (RenderScene.sceneDraws cm b2).map
              (fun d => ({ mesh := d.1, framebuffer := 0, model := d.2 } : DrawCall F)),
            d.framebuffer ≠ s.depthMapFBO) ∧
        (RenderScene.sceneDraws cm b1).length = 335 ∧
        (RenderScene.sceneDraws cm b2).length = 335 := by
  obtain ⟨l3, s3, g1, g2, g3, g4⟩ :=
    RenderSceneFromLightPerspective_reach cm t1 m1 s sh hsh
  have hnone : RenderSceneFromLightPerspective cm
      (RenderScene cm t1 m1 RenderScene.neverReturns) s = none := by
    rw [g1 RenderScene.neverReturns]
    rfl
  refine ⟨⟨l3, s3, g1, g2, g3, g4, RenderScene.drawsInBounds_length cm⟩, hnone, ?_, ?_, ?_⟩
  · intro colorRun
    simp only [RenderSceneWithShadows, hnone]
  · intro u s1 h
    rw [g1 u] at h
    cases hu : u (l3, s3) with
    | none =>
      rw [hu] at h
      exact absurd h (by simp)
    | some s4 =>
      rw [hu] at h
      have h2 : ({ s4 with gl := glBindFramebuffer 0 s4.gl } : SceneManager F) = s1 :=
        Option.some.inj h
      rw [← h2]
      rfl
  · obtain ⟨s1, s2, sh2, h1, h2, h3, h4, h5, _, h7, h8, h9, _, _, _, _, _⟩ :=
      RenderSceneWithShadows_frame cm t1 t2 m1 m2 b1 b2 s sh hsh
    refine ⟨s1, s2, h1, h2, h3, h4, h5, h7, ?_, ?_, ?_, RenderScene.sceneDraws_length cm b1,
      RenderScene.sceneDraws_length cm b2⟩
    · rw [h8, h3, List.append_assoc]
      rfl
    · rw [h9, h4]
    · intro hne d hd
      obtain ⟨x, _, hx⟩ := List.mem_map.1 hd
      rw [← hx]
      exact fun h => hne h.symm

/-- Witness for `C23_depth_pass_need_not_complete`: a frame on the scene with a shader manager
and nothing registered, with the real math functions, in an execution that does not return
from the undefined read. -/
theorem C23_depth_pass_need_not_complete_witness :
    RenderSceneWithShadows (CMath.mk Real.sin Real.cos Real.sqrt)
      (RenderScene (CMath.mk Real.sin Real.cos Real.sqrt) 0
        (DefineObjectMaterials.defaultMaterial ⟨0, 0, 0⟩) RenderScene.neverReturns)
      (RenderScene (CMath.mk Real.sin Real.cos Real.sqrt) 1
        (DefineObjectMaterials.defaultMaterial ⟨0, 0, 0⟩) RenderScene.neverReturns)
      (shaderScene ℝ) = none :=
  (C23_depth_pass_need_not_complete (CMath.mk Real.sin Real.cos Real.sqrt) 0 1
    (DefineObjectMaterials.defaultMaterial ⟨0, 0, 0⟩)
    (DefineObjectMaterials.defaultMaterial ⟨0, 0, 0⟩) (fun _ _ => 0) (fun _ _ => 0)
    (shaderScene ℝ) { writes := [] } rfl).2.2.1 _

end ShadowPass

section ShadowPass2

variable {F : Type} [Field F]

/-! ## The scene script in the two passes -/

/-- C24: the scene script in the two passes. On a state with a shader manager, up to the first
read past the table `stemOffsets` and whatever the execution does afterwards, `RenderScene`
leaves the bound framebuffer, the viewport, the clears issued and the `lightSpaceMatrix`
uniform (of the shader manager, and as written through `glUniform*`) as it found them, and
the 251 draw calls it has added, with their model matrices, are `drawsInBounds`, which does
not depend on the state on entry, the time or the framebuffer bound. From that read on the
source defines nothing. In an execution that goes on as the source text reads,
`RenderScene` returns with the same frame, the draw calls it adds are `sceneDraws`, which
starts with `drawsInBounds`; the shapes drawn are the same in every run; the model matrices
are the same in two runs when the six values read past the table are the same in both; they
differ when the value read at `stemOffsets[3][0]` differs, in draw call 251, the fourth stem
of the second plant. -/
theorem C24_scene_script_pass_independent (cm : CMath F) (timeValue : F)
    (material : OBJECT_MATERIAL F) (beyond : Nat → Nat → F) (s : SceneManager F)
    (sh : ShaderManager F) (hsh : s.m_pShaderManager = some sh) :
    (∃ (s2 : SceneManager F) (sh2 : ShaderManager F),
      RenderScene cm timeValue material (RenderScene.asWritten cm material beyond) s
        = some s2 ∧
      s2.m_pShaderManager = some sh2 ∧
      s2.gl.framebuffer = s.gl.framebuffer ∧ s2.gl.viewport = s.gl.viewport ∧
      s2.gl.clears = s.gl.clears ∧
      sh2.uniform "lightSpaceMatrix" = sh.uniform "lightSpaceMatrix" ∧
      programUniform s2 "lightSpaceMatrix" = programUniform s "lightSpaceMatrix" ∧
      s2.draws = s.draws ++ (RenderScene.sceneDraws cm beyond).map
        (fun d => { mesh := d.1, framebuffer := s.gl.framebuffer, model := d.2 })) ∧
      (∀ b1 b2 : Nat → Nat → F,
        (RenderScene.sceneDraws cm b1).map Prod.fst
          = (RenderScene.sceneDraws cm b2).map Prod.fst) ∧
      (∀ b1 b2 : Nat → Nat → F,
        (∀ s j : Nat, 3 ≤ s → s < 6 → j < 2 → b1 s j = b2 s j) →
        RenderScene.sceneDraws cm b1 = RenderScene.sceneDraws cm b2) ∧
      (∀ b1 b2 : Nat → Nat → F, b1 3 0 ≠ b2 3 0 →
        RenderScene.sceneDraws cm b1 ≠ RenderScene.sceneDraws cm b2) ∧
      (∃ (l3 : RenderScene.Locals F) (s3 : SceneManager F) (sh3 : ShaderManager F),
        (∀ u : RenderScene.Locals F × SceneManager F → Option (SceneManager F),
          RenderScene cm timeValue material u s = u (l3, s3)) ∧
        s3.m_pShaderManager = some sh3 ∧
        s3.gl.framebuffer = s.gl.framebuffer ∧ s3.gl.viewport = s.gl.viewport ∧
        s3.gl.clears = s.gl.clears ∧
        sh3.uniform "lightSpaceMatrix" = sh.uniform "lightSpaceMatrix" ∧
        programUniform s3 "lightSpaceMatrix" = programUniform s "lightSpaceMatrix" ∧
        s3.draws = s.draws ++ (RenderScene.drawsInBounds cm).map
          (fun d => { mesh := d.1, framebuffer := s.gl.framebuffer, model := d.2 })) ∧
      (RenderScene.drawsInBounds cm).length = 251 ∧
      ∃ rest : List (Mesh × Option (UniformValue F)),
        RenderScene.sceneDraws cm beyond = RenderScene.drawsInBounds cm ++ rest := by
  have hloop := BindGLTextures.loop_rest s.m_textureIDs 0
    (glBindTexture s.depthMap (glActiveTexture 1 s.gl))
  refine ⟨?_, RenderScene.sceneDraws_meshes cm, ?_, ?_, ?_,
    RenderScene.drawsInBounds_length cm, ⟨_, RenderScene.sceneDraws_split cm beyond⟩⟩
  · obtain ⟨s2, sh2, r1, r2, r3, _, _, _, r7, _, _, r10, r11⟩ :=
      RenderScene_frame cm timeValue material beyond s sh hsh
    refine ⟨s2, sh2, r1, r2, ?_, ?_, ?_, r7, ?_, r11⟩
    · rw [r3, hloop.2.1]
      rfl
    · rw [r3, hloop.1]
      rfl
    · rw [r3, hloop.2.2]
      rfl
    · rw [programUniform, r10, RenderScene.programWrites_script]
      rfl
  · intro b1 b2 h
    unfold RenderScene.sceneDraws
    rw [RenderScene.script_congr cm b1 b2 h]
  · intro b1 b2 hne heq
    have e1 := RenderScene.sceneDraws_stem cm b1
    have e2 := RenderScene.sceneDraws_stem cm b2
    rw [heq, e2] at e1
    obtain ⟨ma, ha, hca⟩ := RenderScene.modelOf_position cm ⟨0.15, 3, 0.15⟩
      (((3 : Nat) : F) * (-10)) (((3 : Nat) : F) * (-10)) 0
      ⟨-13 + b1 3 0, 3.25, -5 + b1 3 1⟩
    obtain ⟨mb, hb, hcb⟩ := RenderScene.modelOf_position cm ⟨0.15, 3, 0.15⟩
      (((3 : Nat) : F) * (-10)) (((3 : Nat) : F) * (-10)) 0
      ⟨-13 + b2 3 0, 3.25, -5 + b2 3 1⟩
    rw [ha, hb] at e1
    have hm : mb = ma :=
      UniformValue.mat4Value.inj (Option.some.inj (Prod.mk.inj (Option.some.inj e1)).2)
    rw [hm, hca] at hcb
    injection hcb with hx
    exact hne (add_left_cancel hx)
  · obtain ⟨l3, s3, sh3, r1, r2, r3, _, _, _, r7, _, _, r10, r11⟩ :=
      RenderScene_reach cm timeValue material s sh hsh
    refine ⟨l3, s3, sh3, r1, r2, ?_, ?_, ?_, r7, ?_, r11⟩
    · rw [r3, hloop.2.1]
      rfl
    · rw [r3, hloop.1]
      rfl
    · rw [r3, hloop.2.2]
      rfl
    · rw [programUniform, r10, RenderScene.programWrites_scriptInBounds]
      rfl

/-- Witness for `C24_scene_script_pass_independent`: the scene with a shader manager and
nothing registered, with the real math functions. -/
theorem C24_scene_script_pass_independent_witness :
    ∃ (l3 : RenderScene.Locals ℝ) (s3 : SceneManager ℝ),
      (∀ u : RenderScene.Locals ℝ × SceneManager ℝ → Option (SceneManager ℝ),
        RenderScene (CMath.mk Real.sin Real.cos Real.sqrt) 0
          (DefineObjectMaterials.defaultMaterial ⟨0, 0, 0⟩) u (shaderScene ℝ) = u (l3, s3)) ∧
      s3.gl.framebuffer = 0 :=
  match (C24_scene_script_pass_independent (CMath.mk Real.sin Real.cos Real.sqrt) 0
      (DefineObjectMaterials.defaultMaterial ⟨0, 0, 0⟩) (fun _ _ => 0) (shaderScene ℝ)
      { writes := [] } rfl).2.2.2.2.1 with
  | ⟨l3, s3, _, h1, _, h3, _⟩ => ⟨l3, s3, h1, h3⟩

/-! ## Lighting toggles -/

/-- Every tag that a `SetShaderMaterial` statement of the scene script names is one of the 21
tags of `DefineObjectMaterials`. -/
theorem RenderScene.materialTags_script (cm : CMath F) (beyond : Nat → Nat → F) :
    (RenderScene.materialTags (RenderScene.script cm beyond)).all
      (fun t => decide (t ∈ ["default", "glowing_orange", "floor", "wall", "ceiling", "glowing_beam",
        "sofa", "sofa_feet", "rug", "drawer", "space_heater", "window_glass", "window", "beam",
        "lamp", "lamp_light", "frame_material", "canvas_material", "pot_material",
        "stem_material", "leaf_material"])) = true := by
  have h01 : (RenderScene.materialTags (RenderScene.part01 : List (RenderScene.Stmt F))).all
      (fun t => decide (t ∈ ["default", "glowing_orange", "floor", "wall", "ceiling", "glowing_beam",
        "sofa", "sofa_feet", "rug", "drawer", "space_heater", "window_glass", "window", "beam",
        "lamp", "lamp_light", "frame_material", "canvas_material", "pot_material",
        "stem_material", "leaf_material"])) = true := rfl
  have h02 : (RenderScene.materialTags (RenderScene.part02 : List (RenderScene.Stmt F))).all
      (fun t => decide (t ∈ ["default", "glowing_orange", "floor", "wall", "ceiling", "glowing_beam",
        "sofa", "sofa_feet", "rug", "drawer", "space_heater", "window_glass", "window", "beam",
        "lamp", "lamp_light", "frame_material", "canvas_material", "pot_material",
        "stem_material", "leaf_material"])) = true := rfl
  have h03 : (RenderScene.materialTags (RenderScene.part03 : List (RenderScene.Stmt F))).all
      (fun t => decide (t ∈ ["default", "glowing_orange", "floor", "wall", "ceiling", "glowing_beam",
        "sofa", "sofa_feet", "rug", "drawer", "space_heater", "window_glass", "window", "beam",
        "lamp", "lamp_light", "frame_material", "canvas_material", "pot_material",
        "stem_material", "leaf_material"])) = true := rfl
  have h04 : (RenderScene.materialTags (RenderScene.part04 : List (RenderScene.Stmt F))).all
      (fun t => decide (t ∈ ["default", "glowing_orange", "floor", "wall", "ceiling", "glowing_beam",
        "sofa", "sofa_feet", "rug", "drawer", "space_heater", "window_glass", "window", "beam",
        "lamp", "lamp_light", "frame_material", "canvas_material", "pot_material",
        "stem_material", "leaf_material"])) = true := rfl
  have h05 : (RenderScene.materialTags (RenderScene.part05 : List (RenderScene.Stmt F))).all
      (fun t => decide (t ∈ ["default", "glowing_orange", "floor", "wall", "ceiling", "glowing_beam",
        "sofa", "sofa_feet", "rug", "drawer", "space_heater", "window_glass", "window", "beam",
        "lamp", "lamp_light", "frame_material", "canvas_material", "pot_material",
        "stem_material", "leaf_material"])) = true := rfl
  have h06 : (RenderScene.materialTags (RenderScene.part06 : List (RenderScene.Stmt F))).all
      (fun t => decide (t ∈ ["default", "glowing_orange", "floor", "wall", "ceiling", "glowing_beam",
        "sofa", "sofa_feet", "rug", "drawer", "space_heater", "window_glass", "window", "beam",
        "lamp", "lamp_light", "frame_material", "canvas_material", "pot_material",
        "stem_material", "leaf_material"])) = true := rfl
  have h07 : (RenderScene.materialTags (RenderScene.part07 : List (RenderScene.Stmt F))).all
      (fun t => decide (t ∈ ["default", "glowing_orange", "floor", "wall", "ceiling", "glowing_beam",
        "sofa", "sofa_feet", "rug", "drawer", "space_heater", "window_glass", "window", "beam",
        "lamp", "lamp_light", "frame_material", "canvas_material", "pot_material",
        "stem_material", "leaf_material"])) = true := rfl
  have h08 : (RenderScene.materialTags (RenderScene.part08 : List (RenderScene.Stmt F))).all
      (fun t => decide (t ∈ ["default", "glowing_orange", "floor", "wall", "ceiling", "glowing_beam",
        "sofa", "sofa_feet", "rug", "drawer", "space_heater", "window_glass", "window", "beam",
        "lamp", "lamp_light", "frame_material", "canvas_material", "pot_material",
        "stem_material", "leaf_material"])) = true := rfl
  have h09 : (RenderScene.materialTags (RenderScene.part09 : List (RenderScene.Stmt F))).all
      (fun t => decide (t ∈ ["default", "glowing_orange", "floor", "wall", "ceiling", "glowing_beam",
        "sofa", "sofa_feet", "rug", "drawer", "space_heater", "window_glass", "window", "beam",
        "lamp", "lamp_light", "frame_material", "canvas_material", "pot_material",
        "stem_material", "leaf_material"])) = true := rfl
  have h10 : (RenderScene.materialTags (RenderScene.part10 : List (RenderScene.Stmt F))).all
      (fun t => decide (t ∈ ["default", "glowing_orange", "floor", "wall", "ceiling", "glowing_beam",
        "sofa", "sofa_feet", "rug", "drawer", "space_heater", "window_glass", "window", "beam",
        "lamp", "lamp_light", "frame_material", "canvas_material", "pot_material",
        "stem_material", "leaf_material"])) = true := rfl
  have h11 : (RenderScene.materialTags (RenderScene.part11 : List (RenderScene.Stmt F))).all
      (fun t => decide (t ∈ ["default", "glowing_orange", "floor", "wall", "ceiling", "glowing_beam",
        "sofa", "sofa_feet", "rug", "drawer", "space_heater", "window_glass", "window", "beam",
        "lamp", "lamp_light", "frame_material", "canvas_material", "pot_material",
        "stem_material", "leaf_material"])) = true := rfl
  have h12 : (RenderScene.materialTags (RenderScene.part12 : List (RenderScene.Stmt F))).all
      (fun t => decide (t ∈ ["default", "glowing_orange", "floor", "wall", "ceiling", "glowing_beam",
        "sofa", "sofa_feet", "rug", "drawer", "space_heater", "window_glass", "window", "beam",
        "lamp", "lamp_light", "frame_material", "canvas_material", "pot_material",
        "stem_material", "leaf_material"])) = true := rfl
  have h13 : (RenderScene.materialTags (RenderScene.part13 : List (RenderScene.Stmt F))).all
      (fun t => decide (t ∈ ["default", "glowing_orange", "floor", "wall", "ceiling", "glowing_beam",
        "sofa", "sofa_feet", "rug", "drawer", "space_heater", "window_glass", "window", "beam",
        "lamp", "lamp_light", "frame_material", "canvas_material", "pot_material",
        "stem_material", "leaf_material"])) = true := rfl
  have h14 : (RenderScene.materialTags (RenderScene.part14 : List (RenderScene.Stmt F))).all
      (fun t => decide (t ∈ ["default", "glowing_orange", "floor", "wall", "ceiling", "glowing_beam",
        "sofa", "sofa_feet", "rug", "drawer", "space_heater", "window_glass", "window", "beam",
        "lamp", "lamp_light", "frame_material", "canvas_material", "pot_material",
        "stem_material", "leaf_material"])) = true := rfl
  have hg : ∀ p : vec3 F, (RenderScene.materialTags (RenderScene.grassLeaves cm p)).all
      (fun t => decide (t ∈ ["default", "glowing_orange", "floor", "wall", "ceiling", "glowing_beam",
        "sofa", "sofa_feet", "rug", "drawer", "space_heater", "window_glass", "window", "beam",
        "lamp", "lamp_light", "frame_material", "canvas_material", "pot_material",
        "stem_material", "leaf_material"])) = true := fun _ => rfl
  have hp1 : (RenderScene.materialTags (RenderScene.plant1 cm)).all
      (fun t => decide (t ∈ ["default", "glowing_orange", "floor", "wall", "ceiling", "glowing_beam",
        "sofa", "sofa_feet", "rug", "drawer", "space_heater", "window_glass", "window", "beam",
        "lamp", "lamp_light", "frame_material", "canvas_material", "pot_material",
        "stem_material", "leaf_material"])) = true := rfl
  have hp2 : (RenderScene.materialTags (RenderScene.plant2 cm beyond)).all
      (fun t => decide (t ∈ ["default", "glowing_orange", "floor", "wall", "ceiling", "glowing_beam",
        "sofa", "sofa_feet", "rug", "drawer", "space_heater", "window_glass", "window", "beam",
        "lamp", "lamp_light", "frame_material", "canvas_material", "pot_material",
        "stem_material", "leaf_material"])) = true := rfl
  simp only [RenderScene.script, RenderScene.materialTags_append, List.all_append,
    h01, h02, h03, h04, h05, h06, h07, h08, h09,
    h10, h11, h12, h13, h14, hg, hp1, hp2, Bool.and_self]


/-- C28: a call of `DefineObjectMaterials` on an empty registry leaves 21 materials whose tags
are pairwise distinct, and `PrepareScene` leaves the same registry; every tag that a
`SetShaderMaterial` statement of the scene script names is the tag of exactly one of them. -/
theorem C28_material_tags_defined (cm : CMath F) (beyond : Nat → Nat → F) (tint : vec3 F)
    (stbi_load : String → Option stbi_image) (glGenTextures : Nat → GLuint)
    (s : SceneManager F) (hempty : s.m_objectMaterials = []) :
    (PrepareScene stbi_load glGenTextures tint s).m_objectMaterials
        = (DefineObjectMaterials tint s).m_objectMaterials ∧
      (DefineObjectMaterials tint s).m_objectMaterials.length = 21 ∧
      ((DefineObjectMaterials tint s).m_objectMaterials.map (fun m => m.tag)).Nodup ∧
      (DefineObjectMaterials tint s).m_objectMaterials.map (fun m => m.tag)
        = ["default", "glowing_orange", "floor", "wall", "ceiling", "glowing_beam", "sofa",
          "sofa_feet", "rug", "drawer", "space_heater", "window_glass", "window", "beam",
          "lamp", "lamp_light", "frame_material", "canvas_material", "pot_material",
          "stem_material", "leaf_material"] ∧
      ∀ tag ∈ RenderScene.materialTags (RenderScene.script cm beyond),
        ((DefineObjectMaterials tint s).m_objectMaterials.filter
          (fun m => decide (m.tag = tag))).length = 1 := by
  have hreg : (DefineObjectMaterials tint s).m_objectMaterials.map (fun m => m.tag)
      = ["default", "glowing_orange", "floor", "wall", "ceiling", "glowing_beam", "sofa",
        "sofa_feet", "rug", "drawer", "space_heater", "window_glass", "window", "beam",
        "lamp", "lamp_light", "frame_material", "canvas_material", "pot_material",
        "stem_material", "leaf_material"] := by
    simp only [DefineObjectMaterials, hempty, List.nil_append]
    rfl
  have hcount : ∀ l : List (OBJECT_MATERIAL F), ∀ tag : String,
      (l.filter (fun m => decide (m.tag = tag))).length
        = ((l.map (fun m => m.tag)).filter (fun t => decide (t = tag))).length := by
    intro l tag
    induction l with
    | nil => rfl
    | cons m rest ih =>
      by_cases h : m.tag = tag
      · simp [List.filter, h, ih]
      · simp [List.filter, h, ih]
  have hwithin : ∀ tag ∈ RenderScene.materialTags (RenderScene.script cm beyond),
      tag ∈ ["default", "glowing_orange", "floor", "wall", "ceiling", "glowing_beam", "sofa",
        "sofa_feet", "rug", "drawer", "space_heater", "window_glass", "window", "beam",
        "lamp", "lamp_light", "frame_material", "canvas_material", "pot_material",
        "stem_material", "leaf_material"] := by
    intro tag htag
    have h := List.all_eq_true.1 (RenderScene.materialTags_script cm beyond) tag htag
    exact of_decide_eq_true h
  refine ⟨?_, ?_, ?_, hreg, ?_⟩
  · simp only [PrepareScene, DefineObjectMaterials, LoadSceneTextures_materials]
  · have := congrArg List.length hreg
    simpa using this
  · rw [hreg]
    decide
  · intro tag htag
    rw [hcount, hreg]
    have hin := hwithin tag htag
    simp only [List.mem_cons, List.mem_singleton, List.not_mem_nil, or_false] at hin
    rcases hin with h | h | h | h | h | h | h | h | h | h | h | h | h | h | h | h | h | h | h
      | h | h <;> subst h <;> decide

/-- Witness for `C28_material_tags_defined`: the scene with nothing registered. -/
theorem C28_material_tags_defined_witness :
    (DefineObjectMaterials (⟨0, 0, 0⟩ : vec3 ℝ) (emptyScene ℝ)).m_objectMaterials.length = 21 :=
  (C28_material_tags_defined (CMath.mk Real.sin Real.cos Real.sqrt) (fun _ _ => 0) ⟨0, 0, 0⟩
    allRGB sequentialNames (emptyScene ℝ) rfl).2.1

end ShadowPass2

end SceneManager
